import Mathlib

/-!
# etcd-snapshot-driver: the group-snapshot orchestration engine

A shallow embedding of the Go sources of the driver.  Go strings are Lean
strings, Go maps are association lists with unique keys, Go slices are lists.
The Kubernetes API server is an explicit object store (`Cluster`) that the
operations read and update; everything else that lives outside the process
(transport faults, the Job controller, the etcd cluster, the wall clock, the
JSON codec, the quantity parser) is a field of `Env`.  Logging is omitted.
-/

namespace EtcdSnapshotDriver

/-! ## Errors -/

/-- Identity of a Go error value, as far as the code inspects it
(`errors.IsNotFound`, `errors.IsAlreadyExists`, `err != context.DeadlineExceeded`). -/
inductive ErrKind where
  | NotFound
  | AlreadyExists
  | DeadlineExceeded
  | Canceled
  | Other
  deriving DecidableEq, Repr

/-- A non-nil Go `error`: its identity and the text of `err.Error()`. -/
structure GoError where
  kind : ErrKind
  msg : String
  deriving DecidableEq, Repr

/-- The error built by `fmt.Errorf`: a fresh value carrying the formatted text. -/
def Errorf (msg : String) : GoError := ⟨ErrKind.Other, msg⟩

/-- How a Go call that may panic ends abnormally. -/
inductive Throw where
  | error (e : GoError)
  | panic (msg : String)
  deriving DecidableEq, Repr

/-- The gRPC status codes the driver returns. -/
inductive Code where
  | InvalidArgument
  | FailedPrecondition
  | NotFound
  | Internal
  deriving DecidableEq, Repr

/-- Abnormal end of an RPC handler: a gRPC status (`status.Error`) or a panic. -/
inductive Failure where
  | status (code : Code) (message : String)
  | panic (message : String)
  deriving DecidableEq, Repr

/-- The `context` error delivered by `ctx.Err()` once `ctx.Done()` fires. -/
inductive ContextError where
  | DeadlineExceeded
  | Canceled
  deriving DecidableEq, Repr

/-- The Go error value of a context error. -/
def ContextError.toError : ContextError → GoError
  | ContextError.DeadlineExceeded => ⟨ErrKind.DeadlineExceeded, "context deadline exceeded"⟩
  | ContextError.Canceled => ⟨ErrKind.Canceled, "context canceled"⟩

deriving instance DecidableEq for Except

/-- Substring test used for "the message contains ...". -/
def Contains (s sub : String) : Prop := sub.data <:+: s.data

instance (s sub : String) : Decidable (Contains s sub) := by
  unfold Contains
  infer_instance

/-! ## Go maps as association lists -/

/-- Read `m[k]` with the comma-ok idiom. -/
def mapGet (m : List (String × String)) (k : String) : Option String :=
  match m with
  | [] => none
  | (k', v) :: rest => if k' = k then some v else mapGet rest k

/-- Remove the key: `delete(m, k)`. -/
def mapDelete (m : List (String × String)) (k : String) : List (String × String) :=
  m.filter (fun kv => decide (kv.1 ≠ k))

/-- Assign the key: `m[k] = v`. -/
def mapSet (m : List (String × String)) (k v : String) : List (String × String) :=
  (k, v) :: mapDelete m k

/-! ## driver/controller.go -/

/-- The backwards scan of `parseVolumeID`: `lastSlash s (i + 1)` runs the loop
from index `i` downwards and returns the index at which it breaks, or `none`
when it leaves the loop with `i < 0`. -/
def lastSlash (volumeID : List Char) : Nat → Option Nat
  | 0 => none
  | i + 1 => if volumeID[i]? = some '/' then some i else lastSlash volumeID i

/-- The function `parseVolumeID`: namespace and PVC name of a volume ID
(`namespace/pvc-name`).  The separator is one byte and never part of a
multi-byte character, so slicing by characters is slicing by bytes. -/
def parseVolumeID (volumeID : String) : Except GoError (String × String) :=
  if volumeID.data.length = 0 then
    Except.error (Errorf "empty volume ID")
  else
    match lastSlash volumeID.data volumeID.data.length with
    | none => Except.ok ("default", volumeID)
    | some i =>
      let ns := String.mk (volumeID.data.take i)
      let pvcName := String.mk (volumeID.data.drop (i + 1))
      if ns = "" ∨ pvcName = "" then
        Except.error (Errorf ("invalid volume ID format: " ++ volumeID))
      else
        Except.ok (ns, pvcName)

/-- The struct `ControllerConfig` (the logger is omitted; durations are nanoseconds). -/
structure ControllerConfig where
  SnapshotTimeout : Int
  ClusterLabelKey : String
  JobBackoffLimit : Int
  JobActiveDeadlineSeconds : Int
  ETCDImage : String
  BusyboxImage : String
  ETCDTLSEnabled : Bool
  ETCDTLSSecretName : String
  ETCDTLSSecretNamespace : String
  ETCDClientCertPath : String
  ETCDClientKeyPath : String
  ETCDCAPath : String
  DefaultStorageClass : String
  SnapshotPVCSize : String
  deriving DecidableEq, Repr

/-! ## Kubernetes objects (the fields the driver reads or writes) -/

/-- A parsed `resource.Quantity`, kept as its text. -/
structure Quantity where
  text : String
  deriving DecidableEq, Repr

/-- The object `corev1.PersistentVolumeClaim`. -/
structure PersistentVolumeClaim where
  Name : String
  Namespace : String
  Labels : List (String × String)
  AccessModes : List String
  Requests : List (String × Quantity)
  StorageClassName : Option String
  Phase : String
  deriving DecidableEq, Repr

/-- The object `corev1.Pod`. -/
structure Pod where
  Name : String
  Namespace : String
  Labels : List (String × String)
  deriving DecidableEq, Repr

/-- The object `corev1.ConfigMap`.  A nil `Data` map and an empty one read alike
and the code allocates a map before writing to a nil one, so both are `[]`. -/
structure ConfigMap where
  Name : String
  Namespace : String
  Labels : List (String × String)
  Data : List (String × String)
  deriving DecidableEq, Repr

/-- The struct `corev1.VolumeMount`. -/
structure VolumeMount where
  Name : String
  MountPath : String
  ReadOnly : Bool
  deriving DecidableEq, Repr

/-- The struct `corev1.KeyToPath`. -/
structure KeyToPath where
  Key : String
  Path : String
  deriving DecidableEq, Repr

/-- The struct `corev1.VolumeSource`: the one member that is set. -/
inductive VolumeSource where
  | PersistentVolumeClaim (ClaimName : String) (ReadOnly : Bool)
  | EmptyDir
  | Secret (SecretName : String) (Items : List KeyToPath)
  deriving DecidableEq, Repr

/-- The struct `corev1.Volume`. -/
structure Volume where
  Name : String
  VolumeSource : VolumeSource
  deriving DecidableEq, Repr

/-- The struct `corev1.SecurityContext` of a container. -/
structure SecurityContext where
  AllowPrivilegeEscalation : Option Bool
  CapabilitiesDrop : List String
  ReadOnlyRootFilesystem : Option Bool
  deriving DecidableEq, Repr

/-- The struct `corev1.ResourceRequirements`. -/
structure ResourceRequirements where
  Requests : List (String × Quantity)
  Limits : List (String × Quantity)
  deriving DecidableEq, Repr

/-- The struct `corev1.Container`. -/
structure Container where
  Name : String
  Image : String
  Command : List String
  VolumeMounts : List VolumeMount
  SecurityContext : Option SecurityContext
  Resources : ResourceRequirements
  deriving DecidableEq, Repr

/-- The struct `corev1.PodSecurityContext`. -/
structure PodSecurityContext where
  RunAsNonRoot : Option Bool
  RunAsUser : Option Int
  FSGroup : Option Int
  SeccompProfileType : Option String
  deriving DecidableEq, Repr

/-- The struct `corev1.PodSpec`. -/
structure PodSpec where
  ServiceAccountName : String
  RestartPolicy : String
  SecurityContext : Option PodSecurityContext
  Containers : List Container
  Volumes : List Volume
  deriving DecidableEq, Repr

/-- The struct `corev1.PodTemplateSpec`. -/
structure PodTemplateSpec where
  Labels : List (String × String)
  Spec : PodSpec
  deriving DecidableEq, Repr

/-- The struct `batchv1.JobSpec`. -/
structure JobSpec where
  TTLSecondsAfterFinished : Option Int
  BackoffLimit : Option Int
  ActiveDeadlineSeconds : Option Int
  Template : PodTemplateSpec
  deriving DecidableEq, Repr

/-- The struct `batchv1.JobStatus`: the three pod counters. -/
structure JobStatus where
  Active : Int
  Succeeded : Int
  Failed : Int
  deriving DecidableEq, Repr

/-- The object `batchv1.Job`. -/
structure Job where
  Name : String
  Namespace : String
  Labels : List (String × String)
  Spec : JobSpec
  Status : JobStatus
  deriving DecidableEq, Repr

/-- The objects held by the API server. -/
structure Cluster where
  pvcs : List PersistentVolumeClaim
  pods : List Pod
  configMaps : List ConfigMap
  jobs : List Job
  deriving DecidableEq, Repr

/-! ## Values of the collaborators -/

/-- A `time.Time` wall-clock reading: seconds since the epoch and nanoseconds. -/
structure Time where
  sec : Int
  nsec : Nat
  deriving DecidableEq, Repr

/-- The method `Time.Unix`. -/
def Time.Unix (t : Time) : Int := t.sec

/-- The struct `etcdserverpb.Member`. -/
structure Member where
  ID : Nat
  Name : String
  PeerURLs : List String
  ClientURLs : List String
  IsLearner : Bool
  deriving DecidableEq, Repr

/-- The struct `etcdserverpb.ResponseHeader`. -/
structure ResponseHeader where
  MemberId : Nat
  deriving DecidableEq, Repr

/-- The struct `clientv3.MemberListResponse`. -/
structure MemberListResponse where
  Header : ResponseHeader
  Members : List Member
  deriving DecidableEq, Repr

/-- The struct `SnapshotMetadata` of snapshot/metadata.go. -/
structure SnapshotMetadata where
  SnapshotID : String
  SourceVolumeID : String
  ClusterName : String
  CreationTime : Time
  Size : Int
  ChecksumSHA256 : String
  ReadyToUse : Bool
  PVCName : String
  Namespace : String
  deriving DecidableEq, Repr

/-- The struct `GroupSnapshotMetadata` of snapshot/metadata.go. -/
structure GroupSnapshotMetadata where
  GroupSnapshotID : String
  SnapshotID : String
  SourceVolumeIDs : List String
  ClusterName : String
  SnapshotPVCName : String
  SnapshotPVCNamespace : String
  CreationTime : Time
  ReadyToUse : Bool
  deriving DecidableEq, Repr

/-- A request sent to the API server, as far as a transport fault can depend on it. -/
inductive ApiCall where
  | getPVC (ns name : String)
  | createPVC (ns name : String)
  | listPods (ns labelKey labelValue : String)
  | getConfigMap (ns name : String)
  | createConfigMap (ns name : String)
  | updateConfigMap (ns name : String)
  | createJob (ns name : String)
  deriving DecidableEq, Repr

/-- The behaviour of everything outside the process.
* `apiFault`: the error with which the API server (or the transport) refuses a
  request, if it does; a request that is not refused acts on the `Cluster`.
* `jobPolls ns name`: what the ticks of `waitForJobCompletion` read from the Job
  before `ctx.Done()` fires (a failed read or the Job status), and `ctxErr` the
  context error delivered then; `elapsed` is `time.Since(startTime)` at return.
* `etcdNew`, `etcdMemberList`, `etcdGet`: `clientv3.New` on an endpoint list,
  `MemberList` through a client on it, and `Get(ctx, "health")` on one endpoint.
* `now k`: the `k`-th reading of `time.Now()` within a call.
* `parseQuantity`: `resource.ParseQuantity`; the four codec fields: `json.Marshal`
  and `json.Unmarshal` on the two metadata records. -/
structure Env where
  apiFault : ApiCall → Option GoError
  jobPolls : String → String → List (Except GoError JobStatus)
  ctxErr : String → String → ContextError
  elapsed : String → String → Int
  etcdNew : List String → Option GoError
  etcdMemberList : List String → Except GoError MemberListResponse
  etcdGet : String → Option GoError
  now : Nat → Time
  parseQuantity : String → Except GoError Quantity
  marshalSnapshot : SnapshotMetadata → Except GoError String
  unmarshalSnapshot : String → Except GoError SnapshotMetadata
  marshalGroup : GroupSnapshotMetadata → Except GoError String
  unmarshalGroup : String → Except GoError GroupSnapshotMetadata

/-! ## The typed clients of `kubernetes.Interface` -/

/-- The API error of a missing object. -/
def notFound (resource name : String) : GoError :=
  ⟨ErrKind.NotFound, resource ++ " \"" ++ name ++ "\" not found"⟩

/-- The API error of a name that is taken. -/
def alreadyExists (resource name : String) : GoError :=
  ⟨ErrKind.AlreadyExists, resource ++ " \"" ++ name ++ "\" already exists"⟩

/-- The call `CoreV1().PersistentVolumeClaims(ns).Get(ctx, name, ...)`. -/
def PersistentVolumeClaims.Get (env : Env) (c : Cluster) (ns name : String) :
    Except GoError PersistentVolumeClaim :=
  match env.apiFault (ApiCall.getPVC ns name) with
  | some e => Except.error e
  | none =>
    match c.pvcs.find? (fun p => decide (p.Namespace = ns ∧ p.Name = name)) with
    | some p => Except.ok p
    | none => Except.error (notFound "persistentvolumeclaims" name)

/-- The call `CoreV1().PersistentVolumeClaims(ns).Create(ctx, pvc, ...)`. -/
def PersistentVolumeClaims.Create (env : Env) (c : Cluster) (ns : String)
    (pvc : PersistentVolumeClaim) : Except GoError PersistentVolumeClaim × Cluster :=
  match env.apiFault (ApiCall.createPVC ns pvc.Name) with
  | some e => (Except.error e, c)
  | none =>
    if c.pvcs.any (fun p => decide (p.Namespace = ns ∧ p.Name = pvc.Name)) then
      (Except.error (alreadyExists "persistentvolumeclaims" pvc.Name), c)
    else
      (Except.ok pvc, { c with pvcs := c.pvcs ++ [pvc] })

/-- The call `CoreV1().Pods(ns).List(ctx, ...)` with the label selector `key=value`. -/
def Pods.List (env : Env) (c : Cluster) (ns labelKey labelValue : String) :
    Except GoError (List Pod) :=
  match env.apiFault (ApiCall.listPods ns labelKey labelValue) with
  | some e => Except.error e
  | none =>
    Except.ok (c.pods.filter
      (fun p => decide (p.Namespace = ns ∧ mapGet p.Labels labelKey = some labelValue)))

/-- The call `CoreV1().ConfigMaps(ns).Get(ctx, name, ...)`. -/
def ConfigMaps.Get (env : Env) (c : Cluster) (ns name : String) : Except GoError ConfigMap :=
  match env.apiFault (ApiCall.getConfigMap ns name) with
  | some e => Except.error e
  | none =>
    match c.configMaps.find? (fun m => decide (m.Namespace = ns ∧ m.Name = name)) with
    | some m => Except.ok m
    | none => Except.error (notFound "configmaps" name)

/-- The call `CoreV1().ConfigMaps(ns).Create(ctx, cm, ...)`. -/
def ConfigMaps.Create (env : Env) (c : Cluster) (ns : String) (cm : ConfigMap) :
    Except GoError ConfigMap × Cluster :=
  match env.apiFault (ApiCall.createConfigMap ns cm.Name) with
  | some e => (Except.error e, c)
  | none =>
    if c.configMaps.any (fun m => decide (m.Namespace = ns ∧ m.Name = cm.Name)) then
      (Except.error (alreadyExists "configmaps" cm.Name), c)
    else
      (Except.ok cm, { c with configMaps := c.configMaps ++ [cm] })

/-- The call `CoreV1().ConfigMaps(ns).Update(ctx, cm, ...)`. -/
def ConfigMaps.Update (env : Env) (c : Cluster) (ns : String) (cm : ConfigMap) :
    Except GoError ConfigMap × Cluster :=
  match env.apiFault (ApiCall.updateConfigMap ns cm.Name) with
  | some e => (Except.error e, c)
  | none =>
    if c.configMaps.any (fun m => decide (m.Namespace = ns ∧ m.Name = cm.Name)) then
      let updated := c.configMaps.map
        (fun m => if m.Namespace = ns ∧ m.Name = cm.Name then cm else m)
      (Except.ok cm, { c with configMaps := updated })
    else
      (Except.error (notFound "configmaps" cm.Name), c)

/-- The call `BatchV1().Jobs(ns).Create(ctx, job, ...)`. -/
def Jobs.Create (env : Env) (c : Cluster) (ns : String) (job : Job) :
    Except GoError Job × Cluster :=
  match env.apiFault (ApiCall.createJob ns job.Name) with
  | some e => (Except.error e, c)
  | none =>
    if c.jobs.any (fun j => decide (j.Namespace = ns ∧ j.Name = job.Name)) then
      (Except.error (alreadyExists "jobs.batch" job.Name), c)
    else
      (Except.ok job, { c with jobs := c.jobs ++ [job] })

/-! ## etcd/types.go, etcd/discovery.go, etcd/health.go -/

/-- The struct `ClusterInfo` (`Members` and `Version` are never set and are left out). -/
structure ClusterInfo where
  Name : String
  Namespace : String
  Endpoints : List String
  HasQuorum : Bool
  deriving DecidableEq, Repr

/-- The struct `HealthValidator`; `NewHealthValidator` is always called with a nil TLS
configuration, which is left out. -/
structure HealthValidator where
  healthTimeout : Int
  deriving DecidableEq, Repr

/-- The constructor `NewHealthValidator`: a health timeout of five seconds. -/
def NewHealthValidator : HealthValidator := { healthTimeout := 5 * 1000000000 }

/-- The struct `Discovery`. -/
structure Discovery where
  clusterLabelKey : String
  healthValidator : Option HealthValidator
  deriving DecidableEq, Repr

/-- The constructor `NewDiscovery`. -/
def NewDiscovery (clusterLabelKey : String) : Discovery :=
  { clusterLabelKey := clusterLabelKey, healthValidator := some NewHealthValidator }

/-- The method `discoverByLabel`. -/
def Discovery.discoverByLabel (d : Discovery) (env : Env) (c : Cluster)
    (namespace_ clusterName : String) : Except GoError ClusterInfo :=
  match Pods.List env c namespace_ d.clusterLabelKey clusterName with
  | Except.error err => Except.error (Errorf ("failed to list pods by label: " ++ err.msg))
  | Except.ok pods =>
    if pods.length = 0 then
      Except.error (Errorf ("no ETCD pods found with label " ++ d.clusterLabelKey ++ "="
        ++ clusterName))
    else
      let endpoints := pods.map
        (fun pod => "https://" ++ pod.Name ++ "." ++ namespace_ ++ ".svc.cluster.local:2379")
      Except.ok
        { Name := clusterName
          Namespace := namespace_
          Endpoints := endpoints
          HasQuorum := decide (pods.length ≥ 3) }

/-- The method `DiscoverCluster`. -/
def Discovery.DiscoverCluster (d : Discovery) (env : Env) (c : Cluster)
    (pvcNamespace pvcName : String) : Except GoError ClusterInfo :=
  match PersistentVolumeClaims.Get env c pvcNamespace pvcName with
  | Except.error err => Except.error (Errorf ("failed to get PVC: " ++ err.msg))
  | Except.ok pvc =>
    match mapGet pvc.Labels d.clusterLabelKey with
    | none =>
      Except.error (Errorf ("PVC " ++ pvcNamespace ++ "/" ++ pvcName
        ++ " missing required label " ++ d.clusterLabelKey))
    | some clusterName => d.discoverByLabel env c pvcNamespace clusterName

/-- The first loop of `ValidateHealth`: the number of members that are not learners. -/
def countVoting : List Member → Nat → Nat
  | [], votingMembers => votingMembers
  | member :: rest, votingMembers =>
    if !member.IsLearner then countVoting rest (votingMembers + 1)
    else countVoting rest votingMembers

/-- The second loop of `ValidateHealth`, with its two counters `healthyMembers` and
`hasLeader`.  `member.ClientURLs[0]` panics on an empty list.  `clientv3.New`
returns a nil client together with its error, and the code calls `Close` on it
before `continue`, which dereferences nil. -/
def probeMembers (env : Env) (headerMemberId : Nat) :
    List Member → Nat → Bool → Except Throw (Nat × Bool)
  | [], healthyMembers, hasLeader => Except.ok (healthyMembers, hasLeader)
  | member :: rest, healthyMembers, hasLeader =>
    if member.IsLearner then
      probeMembers env headerMemberId rest healthyMembers hasLeader
    else
      let hasLeader := if headerMemberId = member.ID then true else hasLeader
      match member.ClientURLs with
      | [] => Except.error (Throw.panic "runtime error: index out of range [0] with length 0")
      | memberEndpoint :: _ =>
        match env.etcdNew [memberEndpoint] with
        | some _ =>
          Except.error
            (Throw.panic "runtime error: invalid memory address or nil pointer dereference")
        | none =>
          match env.etcdGet memberEndpoint with
          | none => probeMembers env headerMemberId rest (healthyMembers + 1) hasLeader
          | some _ => probeMembers env headerMemberId rest healthyMembers hasLeader

/-- The quorum requirement of `ValidateHealth`: `(votingMembers / 2) + 1`, a majority of
the voting members. -/
def quorumRequired (votingMembers : Nat) : Nat := votingMembers / 2 + 1

/-- The method `ValidateHealth`. -/
def HealthValidator.ValidateHealth (_hv : HealthValidator) (env : Env)
    (endpoints : List String) : Except Throw Unit :=
  if endpoints.length = 0 then
    Except.error (Throw.error (Errorf "no endpoints provided"))
  else
    match env.etcdNew endpoints with
    | some err =>
      Except.error (Throw.error (Errorf ("failed to create ETCD client: " ++ err.msg)))
    | none =>
      match env.etcdMemberList endpoints with
      | Except.error err =>
        Except.error (Throw.error (Errorf ("failed to get member list: " ++ err.msg)))
      | Except.ok memberList =>
        if memberList.Members.length = 0 then
          Except.error (Throw.error (Errorf "cluster has no members"))
        else
          let votingMembers := countVoting memberList.Members 0
          if votingMembers = 0 then
            Except.error (Throw.error (Errorf "cluster has no voting members"))
          else
            match probeMembers env memberList.Header.MemberId memberList.Members 0 false with
            | Except.error t => Except.error t
            | Except.ok (healthyMembers, hasLeader) =>
              if healthyMembers < quorumRequired votingMembers then
                Except.error (Throw.error (Errorf ("insufficient healthy members: "
                  ++ toString healthyMembers ++ "/" ++ toString votingMembers
                  ++ " required " ++ toString (quorumRequired votingMembers))))
              else if !hasLeader then
                Except.error (Throw.error (Errorf "cluster has no leader"))
              else
                Except.ok ()

/-- The method `ValidateClusterHealth`. -/
def Discovery.ValidateClusterHealth (d : Discovery) (env : Env) (cluster : ClusterInfo) :
    Except Throw Unit :=
  match d.healthValidator with
  | none =>
    if !cluster.HasQuorum then
      Except.error (Throw.error (Errorf ("cluster " ++ cluster.Name ++ " does not have quorum")))
    else
      Except.ok ()
  | some hv => hv.ValidateHealth env cluster.Endpoints

/-! ## job/templates.go -/

/-- The struct `JobConfig`. -/
structure JobConfig where
  SnapshotID : String
  Namespace : String
  ETCDEndpoints : List String
  SnapshotPVCName : String
  SnapshotPVCNamespace : String
  Timeout : Int
  BackoffLimit : Int
  ActiveDeadlineSeconds : Int
  Operation : String
  TLSEnabled : Bool
  TLSSecretName : String
  ClientCertPath : String
  ClientKeyPath : String
  CAPath : String
  ETCDImage : String
  BusyboxImage : String
  deriving DecidableEq, Repr

/-- The verb `%v` of `fmt` on a slice of strings. -/
def formatStrings (xs : List String) : String := "[" ++ " ".intercalate xs ++ "]"

/-- The function `conditionalTLSFlags`. -/
def conditionalTLSFlags (cfg : JobConfig) : String :=
  if !cfg.TLSEnabled then ""
  else " --cacert '" ++ cfg.CAPath ++ "' --cert '" ++ cfg.ClientCertPath ++ "' --key '"
    ++ cfg.ClientKeyPath ++ "'"

/-- The function `buildSnapshotCommand` (its local `cmdParts` is never read). -/
def buildSnapshotCommand (cfg : JobConfig) : String :=
  "set -e\n"
    ++ ("etcdutl --endpoints '" ++ formatStrings cfg.ETCDEndpoints ++ "'"
        ++ conditionalTLSFlags cfg
        ++ (" snapshot save /snapshots/" ++ cfg.SnapshotID ++ ".db"))
    ++ "\netcdutl snapshot status /snapshots/" ++ cfg.SnapshotID ++ ".db -w json\n"

/-- The helper `mustParseQuantity`; it is only applied to literals that are valid
quantities, so its panic cannot happen. -/
def mustParseQuantity (s : String) : Quantity := { text := s }

/-- The pod security context shared by both Job templates. -/
def podSecurityContext : PodSecurityContext :=
  { RunAsNonRoot := some true
    RunAsUser := some 65534
    FSGroup := some 65534
    SeccompProfileType := some "RuntimeDefault" }

/-- The container security context shared by both Job templates. -/
def containerSecurityContext : SecurityContext :=
  { AllowPrivilegeEscalation := some false
    CapabilitiesDrop := ["ALL"]
    ReadOnlyRootFilesystem := some true }

/-- The function `GenerateSnapshotSaveJob`. -/
def GenerateSnapshotSaveJob (cfg : JobConfig) : Job :=
  let jobName := "etcd-snapshot-save-" ++ cfg.SnapshotID
  let ttlSecondsAfterFinished : Int := 3600
  let command := ["sh", "-c", buildSnapshotCommand cfg]
  let volumeMounts : List VolumeMount :=
    [ { Name := "snapshot-pvc", MountPath := "/snapshots", ReadOnly := false },
      { Name := "tmp", MountPath := "/tmp", ReadOnly := false } ]
  let volumeMounts :=
    if cfg.TLSEnabled then
      volumeMounts ++
        [ { Name := "etcd-client-tls", MountPath := "/etc/etcd/tls/client", ReadOnly := true },
          { Name := "etcd-ca", MountPath := "/etc/etcd/tls/etcd-ca", ReadOnly := true } ]
    else volumeMounts
  let volumes : List Volume :=
    [ { Name := "snapshot-pvc"
        VolumeSource := VolumeSource.PersistentVolumeClaim cfg.SnapshotPVCName false },
      { Name := "tmp", VolumeSource := VolumeSource.EmptyDir } ]
  let volumes :=
    if cfg.TLSEnabled then
      volumes ++
        [ { Name := "etcd-client-tls"
            VolumeSource := VolumeSource.Secret cfg.TLSSecretName
              [ { Key := "etcd-client.crt", Path := "etcd-client.crt" },
                { Key := "etcd-client.key", Path := "etcd-client.key" } ] },
          { Name := "etcd-ca"
            VolumeSource := VolumeSource.Secret cfg.TLSSecretName
              [ { Key := "etcd-client-ca.crt", Path := "ca.crt" } ] } ]
    else volumes
  let image := if cfg.ETCDImage = "" then "quay.io/coreos/etcd:v3.5.0" else cfg.ETCDImage
  { Name := jobName
    Namespace := cfg.Namespace
    Labels :=
      [("app", "etcd-snapshot-driver"), ("operation", "snapshot-save"),
        ("snapshot-id", cfg.SnapshotID)]
    Spec :=
      { TTLSecondsAfterFinished := some ttlSecondsAfterFinished
        BackoffLimit := some cfg.BackoffLimit
        ActiveDeadlineSeconds := some cfg.ActiveDeadlineSeconds
        Template :=
          { Labels := [("app", "etcd-snapshot-driver"), ("snapshot-id", cfg.SnapshotID)]
            Spec :=
              { ServiceAccountName := "etcd-snapshot-executor"
                RestartPolicy := "Never"
                SecurityContext := some podSecurityContext
                Containers :=
                  [ { Name := "etcd-snapshot"
                      Image := image
                      Command := command
                      VolumeMounts := volumeMounts
                      SecurityContext := some containerSecurityContext
                      Resources :=
                        { Requests :=
                            [("memory", mustParseQuantity "256Mi"),
                              ("cpu", mustParseQuantity "100m")]
                          Limits :=
                            [("memory", mustParseQuantity "512Mi"),
                              ("cpu", mustParseQuantity "500m")] } } ]
                Volumes := volumes } } }
    Status := { Active := 0, Succeeded := 0, Failed := 0 } }

/-- The function `GenerateSnapshotDeleteJob`. -/
def GenerateSnapshotDeleteJob (cfg : JobConfig) : Job :=
  let jobName := "etcd-snapshot-delete-" ++ cfg.SnapshotID
  let ttlSecondsAfterFinished : Int := 3600
  let image := if cfg.BusyboxImage = "" then "busybox:1.35" else cfg.BusyboxImage
  { Name := jobName
    Namespace := cfg.Namespace
    Labels :=
      [("app", "etcd-snapshot-driver"), ("operation", "snapshot-delete"),
        ("snapshot-id", cfg.SnapshotID)]
    Spec :=
      { TTLSecondsAfterFinished := some ttlSecondsAfterFinished
        BackoffLimit := some cfg.BackoffLimit
        ActiveDeadlineSeconds := some cfg.ActiveDeadlineSeconds
        Template :=
          { Labels := [("app", "etcd-snapshot-driver"), ("snapshot-id", cfg.SnapshotID)]
            Spec :=
              { ServiceAccountName := "etcd-snapshot-executor"
                RestartPolicy := "Never"
                SecurityContext := some podSecurityContext
                Containers :=
                  [ { Name := "rm"
                      Image := image
                      Command := ["rm", "-f", "/snapshots/" ++ cfg.SnapshotID ++ ".db"]
                      SecurityContext := some containerSecurityContext
                      Resources :=
                        { Requests :=
                            [("memory", mustParseQuantity "32Mi"),
                              ("cpu", mustParseQuantity "50m")]
                          Limits :=
                            [("memory", mustParseQuantity "128Mi"),
                              ("cpu", mustParseQuantity "100m")] }
                      VolumeMounts :=
                        [ { Name := "snapshot-pvc", MountPath := "/snapshots", ReadOnly := false },
                          { Name := "tmp", MountPath := "/tmp", ReadOnly := false } ] } ]
                Volumes :=
                  [ { Name := "snapshot-pvc"
                      VolumeSource :=
                        VolumeSource.PersistentVolumeClaim cfg.SnapshotPVCName false },
                    { Name := "tmp", VolumeSource := VolumeSource.EmptyDir } ] } } }
    Status := { Active := 0, Succeeded := 0, Failed := 0 } }

/-! ## job/executor.go -/

/-- The struct `JobResult` (`Duration` in nanoseconds). -/
structure JobResult where
  Success : Bool
  SnapshotID : String
  SnapshotSize : Int
  Duration : Int
  ErrorMessage : String
  deriving DecidableEq, Repr

/-- The select loop of `waitForJobCompletion` over the ticks that fire before
`ctx.Done()`: a failed status read and a status with neither counter set continue,
and when the ticks are used up the context error is returned. -/
def pollJob (snapshotID : String) (ctxErr : ContextError) :
    List (Except GoError JobStatus) → JobResult × Option GoError
  | [] =>
    ({ Success := false, SnapshotID := snapshotID, SnapshotSize := 0, Duration := 0
       ErrorMessage := "job execution timeout" }, some ctxErr.toError)
  | Except.error _ :: rest => pollJob snapshotID ctxErr rest
  | Except.ok updatedJob :: rest =>
    if updatedJob.Succeeded > 0 then
      ({ Success := true, SnapshotID := snapshotID, SnapshotSize := 0, Duration := 0
         ErrorMessage := "" }, none)
    else if updatedJob.Failed > 0 then
      let msg := "job failed after " ++ toString updatedJob.Failed ++ " attempts"
      ({ Success := false, SnapshotID := snapshotID, SnapshotSize := 0, Duration := 0
         ErrorMessage := msg }, some (Errorf msg))
    else
      pollJob snapshotID ctxErr rest

/-- The method `waitForJobCompletion`: the result and the error it returns together. -/
def waitForJobCompletion (env : Env) (job : Job) : JobResult × Option GoError :=
  let snapshotID := (mapGet job.Labels "snapshot-id").getD ""
  pollJob snapshotID (env.ctxErr job.Namespace job.Name) (env.jobPolls job.Namespace job.Name)

/-- The method `ExecuteSnapshotJob`: the result and the error it returns together, and
the cluster after the Job was submitted.  Reading the logs of a failed Job only
feeds the log and is left out. -/
def ExecuteSnapshotJob (env : Env) (c : Cluster) (job : Job) (_timeout : Int) :
    (JobResult × Option GoError) × Cluster :=
  let snapshotID := (mapGet job.Labels "snapshot-id").getD ""
  let finish (createdJob : Job) (c1 : Cluster) : (JobResult × Option GoError) × Cluster :=
    match waitForJobCompletion env createdJob with
    | (result, some err) =>
      (({ result with Duration := env.elapsed job.Namespace job.Name }, some err), c1)
    | (result, none) =>
      (({ result with Duration := env.elapsed job.Namespace job.Name }, none), c1)
  match Jobs.Create env c job.Namespace job with
  | (Except.error err, c1) =>
    if err.kind = ErrKind.AlreadyExists then
      finish job c1
    else
      (({ Success := false, SnapshotID := snapshotID, SnapshotSize := 0, Duration := 0
          ErrorMessage := "failed to create job: " ++ err.msg }, some err), c1)
  | (Except.ok createdJob, c1) => finish createdJob c1

/-! ## snapshot/metadata.go -/

/-- The struct `Manager`. -/
structure Manager where
  namespace_ : String
  deriving DecidableEq, Repr

/-- The constructor `NewManager`. -/
def NewManager (namespace_ : String) : Manager := { namespace_ := namespace_ }

/-- The body shared by the two store methods once the record is marshalled:
get or create the ConfigMap `configMapName` and set `key` to `data` in it.
`createText` and `updateText` are the two error texts that differ. -/
def storeInConfigMap (m : Manager) (env : Env) (c : Cluster)
    (configMapName key data createText updateText : String) : Option GoError × Cluster :=
  match ConfigMaps.Get env c m.namespace_ configMapName with
  | Except.error _ =>
    let cm : ConfigMap :=
      { Name := configMapName
        Namespace := m.namespace_
        Labels := [("app", "etcd-snapshot-driver")]
        Data := [(key, data)] }
    match ConfigMaps.Create env c m.namespace_ cm with
    | (Except.error err, c1) => (some (Errorf (createText ++ err.msg)), c1)
    | (Except.ok _, c1) => (none, c1)
  | Except.ok cm =>
    let cm := { cm with Data := mapSet cm.Data key data }
    match ConfigMaps.Update env c m.namespace_ cm with
    | (Except.error err, c1) => (some (Errorf (updateText ++ err.msg)), c1)
    | (Except.ok _, c1) => (none, c1)

/-- The body shared by the two delete methods: drop `key` from the ConfigMap
`configMapName` if both exist. -/
def deleteFromConfigMap (m : Manager) (env : Env) (c : Cluster)
    (configMapName key updateText : String) : Option GoError × Cluster :=
  match ConfigMaps.Get env c m.namespace_ configMapName with
  | Except.error _ => (none, c)
  | Except.ok cm =>
    match mapGet cm.Data key with
    | some _ =>
      let cm := { cm with Data := mapDelete cm.Data key }
      match ConfigMaps.Update env c m.namespace_ cm with
      | (Except.error err, c1) => (some (Errorf (updateText ++ err.msg)), c1)
      | (Except.ok _, c1) => (none, c1)
    | none => (none, c)

/-- The method `StoreSnapshotMetadata`. -/
def Manager.StoreSnapshotMetadata (m : Manager) (env : Env) (c : Cluster)
    (metadata : SnapshotMetadata) : Option GoError × Cluster :=
  match env.marshalSnapshot metadata with
  | Except.error err => (some (Errorf ("failed to marshal metadata: " ++ err.msg)), c)
  | Except.ok data =>
    storeInConfigMap m env c "etcd-snapshot-metadata" metadata.SnapshotID data
      "failed to create ConfigMap: " "failed to update ConfigMap: "

/-- The method `RetrieveSnapshotMetadata`. -/
def Manager.RetrieveSnapshotMetadata (m : Manager) (env : Env) (c : Cluster)
    (snapshotID : String) : Except GoError SnapshotMetadata :=
  match ConfigMaps.Get env c m.namespace_ "etcd-snapshot-metadata" with
  | Except.error err => Except.error (Errorf ("failed to get ConfigMap: " ++ err.msg))
  | Except.ok cm =>
    match mapGet cm.Data snapshotID with
    | some data =>
      match env.unmarshalSnapshot data with
      | Except.error err => Except.error (Errorf ("failed to unmarshal metadata: " ++ err.msg))
      | Except.ok metadata => Except.ok metadata
    | none => Except.error (Errorf ("snapshot metadata not found: " ++ snapshotID))

/-- The method `DeleteSnapshotMetadata`. -/
def Manager.DeleteSnapshotMetadata (m : Manager) (env : Env) (c : Cluster)
    (snapshotID : String) : Option GoError × Cluster :=
  deleteFromConfigMap m env c "etcd-snapshot-metadata" snapshotID "failed to update ConfigMap: "

/-- The method `StoreGroupSnapshotMetadata`. -/
def Manager.StoreGroupSnapshotMetadata (m : Manager) (env : Env) (c : Cluster)
    (metadata : GroupSnapshotMetadata) : Option GoError × Cluster :=
  match env.marshalGroup metadata with
  | Except.error err => (some (Errorf ("failed to marshal group metadata: " ++ err.msg)), c)
  | Except.ok data =>
    storeInConfigMap m env c "etcd-group-snapshot-metadata" metadata.GroupSnapshotID data
      "failed to create group snapshot ConfigMap: " "failed to update group snapshot ConfigMap: "

/-- The method `RetrieveGroupSnapshotMetadata`. -/
def Manager.RetrieveGroupSnapshotMetadata (m : Manager) (env : Env) (c : Cluster)
    (groupSnapshotID : String) : Except GoError GroupSnapshotMetadata :=
  match ConfigMaps.Get env c m.namespace_ "etcd-group-snapshot-metadata" with
  | Except.error err =>
    Except.error (Errorf ("failed to get group snapshot ConfigMap: " ++ err.msg))
  | Except.ok cm =>
    match mapGet cm.Data groupSnapshotID with
    | some data =>
      match env.unmarshalGroup data with
      | Except.error err =>
        Except.error (Errorf ("failed to unmarshal group metadata: " ++ err.msg))
      | Except.ok metadata => Except.ok metadata
    | none => Except.error (Errorf ("group snapshot metadata not found: " ++ groupSnapshotID))

/-- The method `DeleteGroupSnapshotMetadata`. -/
def Manager.DeleteGroupSnapshotMetadata (m : Manager) (env : Env) (c : Cluster)
    (groupSnapshotID : String) : Option GoError × Cluster :=
  deleteFromConfigMap m env c "etcd-group-snapshot-metadata" groupSnapshotID
    "failed to update group snapshot ConfigMap: "

/-! ## driver/snapshotpvc.go -/

/-- The constant `snapshotPVCName`. -/
def snapshotPVCName : String := "etcd-snapshots"

/-- The struct `SnapshotPVCProvisioner`. -/
structure SnapshotPVCProvisioner where
  storageClass : String
  pvcSize : String
  deriving DecidableEq, Repr

/-- The constructor `NewSnapshotPVCProvisioner`. -/
def NewSnapshotPVCProvisioner (storageClass pvcSize : String) : SnapshotPVCProvisioner :=
  { storageClass := storageClass, pvcSize := pvcSize }

/-- The verb `%q` of `fmt` on a string that needs no escaping. -/
def quoted (s : String) : String := "\"" ++ s ++ "\""

/-- The method `EnsureSnapshotPVC`. -/
def SnapshotPVCProvisioner.EnsureSnapshotPVC (p : SnapshotPVCProvisioner) (env : Env)
    (c : Cluster) (namespace_ : String) : Except GoError String × Cluster :=
  match PersistentVolumeClaims.Get env c namespace_ snapshotPVCName with
  | Except.ok _ => (Except.ok snapshotPVCName, c)
  | Except.error err =>
    if err.kind ≠ ErrKind.NotFound then
      (Except.error (Errorf ("failed to check for existing snapshot PVC: " ++ err.msg)), c)
    else
      match env.parseQuantity p.pvcSize with
      | Except.error err =>
        (Except.error (Errorf ("invalid snapshot PVC size " ++ quoted p.pvcSize ++ ": "
          ++ err.msg)), c)
      | Except.ok quantity =>
        let pvc : PersistentVolumeClaim :=
          { Name := snapshotPVCName
            Namespace := namespace_
            Labels := [("app", "etcd-snapshot-driver")]
            AccessModes := ["ReadWriteOnce"]
            Requests := [("storage", quantity)]
            StorageClassName := none
            Phase := "" }
        let pvc :=
          if p.storageClass ≠ "" then { pvc with StorageClassName := some p.storageClass }
          else pvc
        match PersistentVolumeClaims.Create env c namespace_ pvc with
        | (Except.error err, c1) =>
          if err.kind = ErrKind.AlreadyExists then (Except.ok snapshotPVCName, c1)
          else (Except.error (Errorf ("failed to create snapshot PVC: " ++ err.msg)), c1)
        | (Except.ok _, c1) => (Except.ok snapshotPVCName, c1)

/-! ## driver/groupcontroller.go -/

/-- The message `csi.Snapshot`. -/
structure Snapshot where
  SizeBytes : Int
  SnapshotId : String
  SourceVolumeId : String
  CreationTime : Time
  ReadyToUse : Bool
  GroupSnapshotId : String
  deriving DecidableEq, Repr

/-- The message `csi.VolumeGroupSnapshot`. -/
structure VolumeGroupSnapshot where
  GroupSnapshotId : String
  Snapshots : List Snapshot
  CreationTime : Time
  ReadyToUse : Bool
  deriving DecidableEq, Repr

/-- The message `csi.CreateVolumeGroupSnapshotRequest`. -/
structure CreateVolumeGroupSnapshotRequest where
  Name : String
  SourceVolumeIds : List String
  deriving DecidableEq, Repr

/-- The message `csi.CreateVolumeGroupSnapshotResponse`. -/
structure CreateVolumeGroupSnapshotResponse where
  GroupSnapshot : VolumeGroupSnapshot
  deriving DecidableEq, Repr

/-- The message `csi.DeleteVolumeGroupSnapshotRequest`. -/
structure DeleteVolumeGroupSnapshotRequest where
  GroupSnapshotId : String
  deriving DecidableEq, Repr

/-- The message `csi.DeleteVolumeGroupSnapshotResponse`, which has no fields. -/
structure DeleteVolumeGroupSnapshotResponse where
  deriving DecidableEq, Repr

/-- The message `csi.GetVolumeGroupSnapshotRequest`. -/
structure GetVolumeGroupSnapshotRequest where
  GroupSnapshotId : String
  deriving DecidableEq, Repr

/-- The message `csi.GetVolumeGroupSnapshotResponse`. -/
structure GetVolumeGroupSnapshotResponse where
  GroupSnapshot : VolumeGroupSnapshot
  deriving DecidableEq, Repr

/-- The struct `GroupControllerServer`. -/
structure GroupControllerServer where
  discovery : Discovery
  snapshotManager : Manager
  snapshotPVCProvisioner : SnapshotPVCProvisioner
  cfg : ControllerConfig
  deriving DecidableEq, Repr

/-- The constructor `NewGroupControllerServer`. -/
def NewGroupControllerServer (cfg : ControllerConfig) : GroupControllerServer :=
  { discovery := NewDiscovery cfg.ClusterLabelKey
    snapshotManager := NewManager "kube-system"
    snapshotPVCProvisioner := NewSnapshotPVCProvisioner cfg.DefaultStorageClass cfg.SnapshotPVCSize
    cfg := cfg }

/-- The method `validatePVCForGroup`: `none` is the nil error. -/
def GroupControllerServer.validatePVCForGroup (_g : GroupControllerServer) (env : Env)
    (c : Cluster) (namespace_ name : String) : Option GoError :=
  match PersistentVolumeClaims.Get env c namespace_ name with
  | Except.error err => some (Errorf ("PVC not found: " ++ err.msg))
  | Except.ok pvc =>
    if pvc.Phase ≠ "Bound" then
      some (Errorf ("PVC not bound, current phase: " ++ pvc.Phase))
    else
      let hasWriteAccess :=
        pvc.AccessModes.any (fun mode => decide (mode = "ReadWriteOnce" ∨ mode = "ReadWriteMany"))
      if !hasWriteAccess then
        some (Errorf "PVC does not have write access mode")
      else
        none

/-- The local struct `volumeInfo` of `CreateVolumeGroupSnapshot`. -/
structure volumeInfo where
  namespace_ : String
  name : String
  originalID : String
  deriving DecidableEq, Repr

/-- The local struct `clusterInfo` of `CreateVolumeGroupSnapshot`. -/
structure clusterInfo where
  index : Nat
  info : ClusterInfo
  volumeInfo : volumeInfo
  deriving DecidableEq, Repr

/-- Phase 2 of `CreateVolumeGroupSnapshot`: the loop that parses the volume IDs from
index `i` on. -/
def parseVolumes : Nat → List String → Except Failure (List volumeInfo)
  | _, [] => Except.ok []
  | i, volumeID :: rest =>
    match parseVolumeID volumeID with
    | Except.error err =>
      Except.error (Failure.status Code.InvalidArgument
        ("invalid source_volume_id[" ++ toString i ++ "]: " ++ err.msg))
    | Except.ok (ns, name) =>
      match parseVolumes (i + 1) rest with
      | Except.error f => Except.error f
      | Except.ok volumes =>
        Except.ok ({ namespace_ := ns, name := name, originalID := volumeID } :: volumes)

/-- Phase 3 of `CreateVolumeGroupSnapshot`: the loop that validates the PVCs from
index `i` on; `none` when it runs to its end. -/
def validatePVCs (g : GroupControllerServer) (env : Env) (c : Cluster) :
    Nat → List volumeInfo → Option Failure
  | _, [] => none
  | i, vol :: rest =>
    match g.validatePVCForGroup env c vol.namespace_ vol.name with
    | some err =>
      some (Failure.status Code.FailedPrecondition
        ("PVC validation failed for volume " ++ toString i ++ ": " ++ err.msg))
    | none => validatePVCs g env c (i + 1) rest

/-- Phases 4 and 5 of `CreateVolumeGroupSnapshot`: the loop that discovers the cluster
of each volume from index `i` on, validates its health and compares it with the
first one; its variables are `firstClusterName`, `firstClusterEndpoints` and
`clusterInfos`. -/
def discoverClusters (g : GroupControllerServer) (env : Env) (c : Cluster) :
    Nat → List volumeInfo → String → List String → List clusterInfo →
      Except Failure (List clusterInfo × String × List String)
  | _, [], firstClusterName, firstClusterEndpoints, clusterInfos =>
    Except.ok (clusterInfos, firstClusterName, firstClusterEndpoints)
  | i, vol :: rest, firstClusterName, firstClusterEndpoints, clusterInfos =>
    match g.discovery.DiscoverCluster env c vol.namespace_ vol.name with
    | Except.error err =>
      Except.error (Failure.status Code.Internal
        ("ETCD discovery failed for volume " ++ toString i ++ ": " ++ err.msg))
    | Except.ok info =>
      match g.discovery.ValidateClusterHealth env info with
      | Except.error (Throw.error err) =>
        Except.error (Failure.status Code.FailedPrecondition
          ("ETCD cluster health validation failed for volume " ++ toString i ++ ": " ++ err.msg))
      | Except.error (Throw.panic msg) => Except.error (Failure.panic msg)
      | Except.ok () =>
        if i = 0 then
          discoverClusters g env c (i + 1) rest info.Name info.Endpoints
            (clusterInfos ++ [{ index := i, info := info, volumeInfo := vol }])
        else if info.Name ≠ firstClusterName then
          Except.error (Failure.status Code.FailedPrecondition
            ("all PVCs must belong to the same ETCD cluster: expected " ++ firstClusterName
              ++ ", got " ++ info.Name))
        else if info.Endpoints.length ≠ firstClusterEndpoints.length then
          Except.error (Failure.status Code.FailedPrecondition
            "all PVCs must belong to the same ETCD cluster: endpoints differ")
        else
          discoverClusters g env c (i + 1) rest firstClusterName firstClusterEndpoints
            (clusterInfos ++ [{ index := i, info := info, volumeInfo := vol }])

/-- The `JobConfig` literal that `CreateVolumeGroupSnapshot` builds for the save Job. -/
def saveJobConfig (cfg : ControllerConfig) (snapshotID : String) (firstCluster : clusterInfo)
    (snapshotPVCName : String) : JobConfig :=
  { SnapshotID := snapshotID
    Namespace := firstCluster.volumeInfo.namespace_
    ETCDEndpoints := firstCluster.info.Endpoints
    SnapshotPVCName := snapshotPVCName
    SnapshotPVCNamespace := firstCluster.volumeInfo.namespace_
    Timeout := 300
    BackoffLimit := cfg.JobBackoffLimit
    ActiveDeadlineSeconds := cfg.JobActiveDeadlineSeconds
    Operation := "save"
    TLSEnabled := cfg.ETCDTLSEnabled
    TLSSecretName := cfg.ETCDTLSSecretName
    ClientCertPath := cfg.ETCDClientCertPath
    ClientKeyPath := cfg.ETCDClientKeyPath
    CAPath := cfg.ETCDCAPath
    ETCDImage := cfg.ETCDImage
    BusyboxImage := cfg.BusyboxImage }

/-- The method `CreateVolumeGroupSnapshot`: what the handler returns and the cluster
it leaves behind. -/
def GroupControllerServer.CreateVolumeGroupSnapshot (g : GroupControllerServer) (env : Env)
    (c : Cluster) (req : CreateVolumeGroupSnapshotRequest) :
    Except Failure CreateVolumeGroupSnapshotResponse × Cluster :=
  let groupSnapshotID := req.Name ++ "-" ++ toString (env.now 0).Unix
  let sourceVolumeIDs := req.SourceVolumeIds
  -- Phase 1: validate request
  if req.Name = "" then
    (Except.error (Failure.status Code.InvalidArgument "snapshot name required"), c)
  else if sourceVolumeIDs.length = 0 then
    (Except.error (Failure.status Code.InvalidArgument "source_volume_ids required"), c)
  else
  -- Phase 2: parse all volume IDs
  match parseVolumes 0 sourceVolumeIDs with
  | Except.error f => (Except.error f, c)
  | Except.ok volumes =>
  -- Phase 3: validate all PVCs
  match validatePVCs g env c 0 volumes with
  | some f => (Except.error f, c)
  | none =>
  -- Phase 4 and 5: discover ETCD clusters and validate health
  match discoverClusters g env c 0 volumes "" [] [] with
  | Except.error f => (Except.error f, c)
  | Except.ok (clusterInfos, firstClusterName, _) =>
  -- Phase 6: ensure the dedicated snapshot PVC exists
  match clusterInfos with
  | [] => (Except.error (Failure.panic "runtime error: index out of range [0] with length 0"), c)
  | firstCluster :: _ =>
  match g.snapshotPVCProvisioner.EnsureSnapshotPVC env c firstCluster.volumeInfo.namespace_ with
  | (Except.error err, c1) =>
    (Except.error (Failure.status Code.Internal
      ("failed to prepare snapshot storage: " ++ err.msg)), c1)
  | (Except.ok snapshotPVCName, c1) =>
  let snapshotID := groupSnapshotID ++ "-" ++ toString (env.now 1).Unix
  let jobConfig := saveJobConfig g.cfg snapshotID firstCluster snapshotPVCName
  let snapshotJob := GenerateSnapshotSaveJob jobConfig
  -- Phase 7: execute the single snapshot job
  match ExecuteSnapshotJob env c1 snapshotJob g.cfg.SnapshotTimeout with
  | ((_, some err), c2) =>
    (Except.error (Failure.status Code.Internal ("snapshot creation failed: " ++ err.msg)), c2)
  | ((_, none), c2) =>
  -- Phase 8: store individual snapshot metadata, then group snapshot metadata
  match sourceVolumeIDs with
  | [] => (Except.error (Failure.panic "runtime error: index out of range [0] with length 0"), c2)
  | sourceVolumeID0 :: _ =>
  let snapMetadata : SnapshotMetadata :=
    { SnapshotID := snapshotID
      SourceVolumeID := sourceVolumeID0
      ClusterName := firstClusterName
      CreationTime := env.now 2
      Size := 0
      ChecksumSHA256 := ""
      ReadyToUse := true
      PVCName := snapshotPVCName
      Namespace := firstCluster.volumeInfo.namespace_ }
  let c3 := (g.snapshotManager.StoreSnapshotMetadata env c2 snapMetadata).2
  let groupMetadata : GroupSnapshotMetadata :=
    { GroupSnapshotID := groupSnapshotID
      SnapshotID := snapshotID
      SourceVolumeIDs := sourceVolumeIDs
      ClusterName := firstClusterName
      SnapshotPVCName := snapshotPVCName
      SnapshotPVCNamespace := firstCluster.volumeInfo.namespace_
      CreationTime := env.now 3
      ReadyToUse := true }
  let c4 := (g.snapshotManager.StoreGroupSnapshotMetadata env c3 groupMetadata).2
  -- Phase 9: build response with single snapshot representing all volumes
  let response : CreateVolumeGroupSnapshotResponse :=
    { GroupSnapshot :=
        { GroupSnapshotId := groupSnapshotID
          Snapshots :=
            [ { SizeBytes := 0
                SnapshotId := snapshotID
                SourceVolumeId := sourceVolumeID0
                CreationTime := env.now 4
                ReadyToUse := true
                GroupSnapshotId := "" } ]
          CreationTime := env.now 5
          ReadyToUse := true } }
  (Except.ok response, c4)

/-- The `JobConfig` literal that `cleanupSnapshot` builds for the delete Job. -/
def deleteJobConfig (snapshotID : String) (metadata : SnapshotMetadata) : JobConfig :=
  { SnapshotID := snapshotID
    Namespace := metadata.Namespace
    ETCDEndpoints := []
    SnapshotPVCName := metadata.PVCName
    SnapshotPVCNamespace := metadata.Namespace
    Timeout := 60
    BackoffLimit := 1
    ActiveDeadlineSeconds := 120
    Operation := "delete"
    TLSEnabled := false
    TLSSecretName := ""
    ClientCertPath := ""
    ClientKeyPath := ""
    CAPath := ""
    ETCDImage := ""
    BusyboxImage := "" }

/-- The method `cleanupSnapshot`: `none` is the nil error. -/
def GroupControllerServer.cleanupSnapshot (g : GroupControllerServer) (env : Env)
    (c : Cluster) (snapshotID : String) : Option GoError × Cluster :=
  match g.snapshotManager.RetrieveSnapshotMetadata env c snapshotID with
  | Except.error _ => (none, c)
  | Except.ok metadata =>
    let jobConfig := deleteJobConfig snapshotID metadata
    let deleteJob := GenerateSnapshotDeleteJob jobConfig
    match Jobs.Create env c metadata.Namespace deleteJob with
    | (Except.error err, c1) => (some (Errorf ("failed to create cleanup job: " ++ err.msg)), c1)
    | (Except.ok createdJob, c1) =>
      match ExecuteSnapshotJob env c1 createdJob (60 * 1000000000) with
      | ((_, some err), c2) => (some (Errorf ("cleanup job failed: " ++ err.msg)), c2)
      | ((_, none), c2) =>
        match g.snapshotManager.DeleteSnapshotMetadata env c2 snapshotID with
        | (some err, c3) => (some (Errorf ("failed to delete metadata: " ++ err.msg)), c3)
        | (none, c3) => (none, c3)

/-- The method `DeleteVolumeGroupSnapshot`. -/
def GroupControllerServer.DeleteVolumeGroupSnapshot (g : GroupControllerServer) (env : Env)
    (c : Cluster) (req : DeleteVolumeGroupSnapshotRequest) :
    Except Failure DeleteVolumeGroupSnapshotResponse × Cluster :=
  let groupSnapshotID := req.GroupSnapshotId
  if groupSnapshotID = "" then
    (Except.error (Failure.status Code.InvalidArgument "group_snapshot_id required"), c)
  else
    match g.snapshotManager.RetrieveGroupSnapshotMetadata env c groupSnapshotID with
    | Except.error _ => (Except.ok {}, c)
    | Except.ok metadata =>
      let c1 := (g.cleanupSnapshot env c metadata.SnapshotID).2
      let c2 := (g.snapshotManager.DeleteGroupSnapshotMetadata env c1 groupSnapshotID).2
      (Except.ok {}, c2)

/-- The method `GetVolumeGroupSnapshot`. -/
def GroupControllerServer.GetVolumeGroupSnapshot (g : GroupControllerServer) (env : Env)
    (c : Cluster) (req : GetVolumeGroupSnapshotRequest) :
    Except Failure GetVolumeGroupSnapshotResponse :=
  let groupSnapshotID := req.GroupSnapshotId
  if groupSnapshotID = "" then
    Except.error (Failure.status Code.InvalidArgument "group_snapshot_id required")
  else
    match g.snapshotManager.RetrieveGroupSnapshotMetadata env c groupSnapshotID with
    | Except.error _ =>
      Except.error (Failure.status Code.NotFound ("group snapshot not found: " ++ groupSnapshotID))
    | Except.ok metadata =>
      let creationTime :=
        match g.snapshotManager.RetrieveSnapshotMetadata env c metadata.SnapshotID with
        | Except.ok snapMetadata => snapMetadata.CreationTime
        | Except.error _ => metadata.CreationTime
      match metadata.SourceVolumeIDs with
      | [] => Except.error (Failure.panic "runtime error: index out of range [0] with length 0")
      | sourceVolumeID0 :: _ =>
        Except.ok
          { GroupSnapshot :=
              { GroupSnapshotId := groupSnapshotID
                Snapshots :=
                  [ { SizeBytes := 0
                      SnapshotId := metadata.SnapshotID
                      SourceVolumeId := sourceVolumeID0
                      CreationTime := creationTime
                      ReadyToUse := metadata.ReadyToUse
                      GroupSnapshotId := "" } ]
                CreationTime := creationTime
                ReadyToUse := metadata.ReadyToUse } }

/-! ## Vocabulary of the statements -/

/-- Volume `vol` passes discovery and health validation, and `info` is the cluster that
discovery returns for it. -/
def passes (g : GroupControllerServer) (env : Env) (c : Cluster) (vol : volumeInfo)
    (info : ClusterInfo) : Prop :=
  g.discovery.DiscoverCluster env c vol.namespace_ vol.name = Except.ok info ∧
    g.discovery.ValidateClusterHealth env info = Except.ok ()

/-- The two comparisons of the consistency check: `info` has the cluster name of `first`
and as many endpoints. -/
def agrees (first info : ClusterInfo) : Prop :=
  info.Name = first.Name ∧ info.Endpoints.length = first.Endpoints.length

/-- The consistency rule: `info` has the cluster name and the endpoint list of `first`. -/
def sameCluster (first info : ClusterInfo) : Prop :=
  info.Name = first.Name ∧ info.Endpoints = first.Endpoints

/-- The entries that the discovery loop appends to `clusterInfos` for the volumes `vols`
with the discovered clusters `infos`, the first of them at index `i`. -/
def entries : Nat → List volumeInfo → List ClusterInfo → List clusterInfo
  | i, vol :: vols, info :: infos =>
    { index := i, info := info, volumeInfo := vol } :: entries (i + 1) vols infos
  | _, _, _ => []

/-- The name kept in `firstClusterName` after the volumes with the clusters `infos`. -/
def firstNameOf (infos : List ClusterInfo) : String :=
  match infos with
  | [] => ""
  | first :: _ => first.Name

/-- The list kept in `firstClusterEndpoints` after the volumes with the clusters `infos`. -/
def firstEndpointsOf (infos : List ClusterInfo) : List String :=
  match infos with
  | [] => []
  | first :: _ => first.Endpoints

/-- The group snapshot ID that `CreateVolumeGroupSnapshot` builds from the request name and
its first clock reading. -/
def groupSnapshotIDOf (env : Env) (req : CreateVolumeGroupSnapshotRequest) : String :=
  req.Name ++ "-" ++ toString (env.now 0).Unix

/-- The snapshot ID that `CreateVolumeGroupSnapshot` builds from the request name and its
first two clock readings. -/
def snapshotIDOf (env : Env) (req : CreateVolumeGroupSnapshotRequest) : String :=
  req.Name ++ "-" ++ toString (env.now 0).Unix ++ "-" ++ toString (env.now 1).Unix

/-! ## Sample configurations, environments and clusters -/

/-- A controller configuration with the cluster label key `etcd.io/cluster`. -/
def sampleConfig : ControllerConfig :=
  { SnapshotTimeout := 300000000000
    ClusterLabelKey := "etcd.io/cluster"
    JobBackoffLimit := 3
    JobActiveDeadlineSeconds := 600
    ETCDImage := ""
    BusyboxImage := ""
    ETCDTLSEnabled := false
    ETCDTLSSecretName := ""
    ETCDTLSSecretNamespace := ""
    ETCDClientCertPath := ""
    ETCDClientKeyPath := ""
    ETCDCAPath := ""
    DefaultStorageClass := "gp2"
    SnapshotPVCSize := "10Gi" }

/-- The server built from `sampleConfig`. -/
def sampleServer : GroupControllerServer := NewGroupControllerServer sampleConfig

/-- The snapshot record that scenario A stores. -/
def sampleSnapshotRecord : SnapshotMetadata :=
  { SnapshotID := "daily-1700000000-1700000000"
    SourceVolumeID := "ns1/pvc-a"
    ClusterName := "cluster-x"
    CreationTime := { sec := 1700000000, nsec := 0 }
    Size := 0
    ChecksumSHA256 := ""
    ReadyToUse := true
    PVCName := "etcd-snapshots"
    Namespace := "ns1" }

/-- The group record that scenario A stores. -/
def sampleGroupRecord : GroupSnapshotMetadata :=
  { GroupSnapshotID := "daily-1700000000"
    SnapshotID := "daily-1700000000-1700000000"
    SourceVolumeIDs := ["ns1/pvc-a"]
    ClusterName := "cluster-x"
    SnapshotPVCName := "etcd-snapshots"
    SnapshotPVCNamespace := "ns1"
    CreationTime := { sec := 1700000000, nsec := 0 }
    ReadyToUse := true }

/-- An environment without faults: every endpoint list reaches a cluster of one healthy
voting member that is the leader, every Job succeeds at the first tick, the clock stands
still, and the codec writes a record as its ID and reads the two sample records back. -/
def sampleEnv : Env :=
  { apiFault := fun _ => none
    jobPolls := fun _ _ => [Except.ok { Active := 0, Succeeded := 1, Failed := 0 }]
    ctxErr := fun _ _ => ContextError.DeadlineExceeded
    elapsed := fun _ _ => 5000000000
    etcdNew := fun _ => none
    etcdMemberList := fun endpoints =>
      Except.ok
        { Header := { MemberId := 1 }
          Members :=
            [ { ID := 1, Name := "etcd-0", PeerURLs := [], ClientURLs := endpoints
                IsLearner := false } ] }
    etcdGet := fun _ => none
    now := fun _ => { sec := 1700000000, nsec := 0 }
    parseQuantity := fun s => Except.ok { text := s }
    marshalSnapshot := fun m => Except.ok m.SnapshotID
    unmarshalSnapshot := fun s =>
      if s = sampleSnapshotRecord.SnapshotID then Except.ok sampleSnapshotRecord
      else Except.error (Errorf "unexpected end of JSON input")
    marshalGroup := fun m => Except.ok m.GroupSnapshotID
    unmarshalGroup := fun s =>
      if s = sampleGroupRecord.GroupSnapshotID then Except.ok sampleGroupRecord
      else Except.error (Errorf "unexpected end of JSON input") }

/-- A bound, writable PVC labelled for an etcd cluster. -/
def samplePVC (ns name clusterName phase : String) : PersistentVolumeClaim :=
  { Name := name
    Namespace := ns
    Labels := [("etcd.io/cluster", clusterName)]
    AccessModes := ["ReadWriteOnce"]
    Requests := []
    StorageClassName := none
    Phase := phase }

/-- A pod labelled for an etcd cluster. -/
def samplePod (ns name clusterName : String) : Pod :=
  { Name := name, Namespace := ns, Labels := [("etcd.io/cluster", clusterName)] }

/-- The sample environment with a save Job that never reports an outcome. -/
def timeoutEnv : Env := { sampleEnv with jobPolls := fun _ _ => [] }

/-- One bound PVC `ns1/pvc-a` labelled for `cluster-x`, which has one pod. -/
def clusterOne : Cluster :=
  { pvcs := [samplePVC "ns1" "pvc-a" "cluster-x" "Bound"]
    pods := [samplePod "ns1" "etcd-0" "cluster-x"]
    configMaps := []
    jobs := [] }

/-- The request of scenario A: one source volume. -/
def requestOne : CreateVolumeGroupSnapshotRequest :=
  { Name := "daily", SourceVolumeIds := ["ns1/pvc-a"] }

/-- The parsed form of the source volume `ns1/pvc-a`. -/
def volumeOne : volumeInfo := { namespace_ := "ns1", name := "pvc-a", originalID := "ns1/pvc-a" }

/-- The cluster that discovery returns for `ns1/pvc-a` in `clusterOne`. -/
def infoOne : ClusterInfo :=
  { Name := "cluster-x"
    Namespace := "ns1"
    Endpoints := ["https://etcd-0.ns1.svc.cluster.local:2379"]
    HasQuorum := false }

/-- The parsed form of the source volume `ns1/pvc-b`. -/
def volumeTwo : volumeInfo := { namespace_ := "ns1", name := "pvc-b", originalID := "ns1/pvc-b" }

/-- Two PVCs of `cluster-x` in `ns1`, the second one still pending. -/
def clusterPending : Cluster :=
  { pvcs :=
      [samplePVC "ns1" "pvc-a" "cluster-x" "Bound", samplePVC "ns1" "pvc-b" "cluster-x" "Pending"]
    pods := [samplePod "ns1" "etcd-0" "cluster-x"]
    configMaps := []
    jobs := [] }

/-- A request with the two source volumes `ns1/pvc-a` and `ns1/pvc-b`. -/
def requestTwo : CreateVolumeGroupSnapshotRequest :=
  { Name := "daily", SourceVolumeIds := ["ns1/pvc-a", "ns1/pvc-b"] }

/-- The sample environment with an API server that refuses every ConfigMap write. -/
def storeFailEnv : Env :=
  { sampleEnv with
    apiFault := fun call =>
      match call with
      | ApiCall.createConfigMap _ _ => some ⟨ErrKind.Other, "etcdserver: request timed out"⟩
      | ApiCall.updateConfigMap _ _ => some ⟨ErrKind.Other, "etcdserver: request timed out"⟩
      | _ => none }

/-- The cluster that scenario A leaves behind: `clusterOne` with the snapshot PVC, the
save Job and the two metadata documents. -/
def storedCluster : Cluster :=
  (sampleServer.CreateVolumeGroupSnapshot sampleEnv clusterOne requestOne).2

/-- The parsed form of the source volume `ns2/pvc-b`. -/
def volumeOther : volumeInfo := { namespace_ := "ns2", name := "pvc-b", originalID := "ns2/pvc-b" }

/-- The parsed form of the source volume `ns1/pvc-c`. -/
def volumeThird : volumeInfo := { namespace_ := "ns1", name := "pvc-c", originalID := "ns1/pvc-c" }

/-- Two etcd clusters that are both labelled `cluster-x`, one in `ns1` and one in `ns2`,
each with one pod and one bound PVC. -/
def clusterTwoNamespaces : Cluster :=
  { pvcs := [samplePVC "ns1" "pvc-a" "cluster-x" "Bound", samplePVC "ns2" "pvc-b" "cluster-x" "Bound"]
    pods := [samplePod "ns1" "etcd-0" "cluster-x", samplePod "ns2" "etcd-0" "cluster-x"]
    configMaps := []
    jobs := [] }

/-- The cluster that discovery returns for `ns2/pvc-b` in `clusterTwoNamespaces`. -/
def infoOther : ClusterInfo :=
  { Name := "cluster-x"
    Namespace := "ns2"
    Endpoints := ["https://etcd-0.ns2.svc.cluster.local:2379"]
    HasQuorum := false }

/-- A request with one source volume in `ns1` and one in `ns2`. -/
def requestTwoNamespaces : CreateVolumeGroupSnapshotRequest :=
  { Name := "daily", SourceVolumeIds := ["ns1/pvc-a", "ns2/pvc-b"] }

/-- Three bound PVCs: `ns1/pvc-a` of `cluster-x` with one pod in `ns1`, `ns2/pvc-b` of a
`cluster-x` with two pods in `ns2`, and `ns1/pvc-c` of `cluster-y` with one pod. -/
def clusterThree : Cluster :=
  { pvcs :=
      [samplePVC "ns1" "pvc-a" "cluster-x" "Bound", samplePVC "ns2" "pvc-b" "cluster-x" "Bound",
        samplePVC "ns1" "pvc-c" "cluster-y" "Bound"]
    pods :=
      [samplePod "ns1" "etcd-0" "cluster-x", samplePod "ns2" "etcd-0" "cluster-x",
        samplePod "ns2" "etcd-1" "cluster-x", samplePod "ns1" "etcd-y-0" "cluster-y"]
    configMaps := []
    jobs := [] }

/-- The cluster that discovery returns for `ns2/pvc-b` in `clusterThree`. -/
def infoOtherTwoPods : ClusterInfo :=
  { Name := "cluster-x"
    Namespace := "ns2"
    Endpoints :=
      ["https://etcd-0.ns2.svc.cluster.local:2379", "https://etcd-1.ns2.svc.cluster.local:2379"]
    HasQuorum := false }

/-- The cluster that discovery returns for `ns1/pvc-c` in `clusterThree`. -/
def infoThird : ClusterInfo :=
  { Name := "cluster-y"
    Namespace := "ns1"
    Endpoints := ["https://etcd-y-0.ns1.svc.cluster.local:2379"]
    HasQuorum := false }

/-- A request with the three source volumes of `clusterThree`. -/
def requestThree : CreateVolumeGroupSnapshotRequest :=
  { Name := "daily", SourceVolumeIds := ["ns1/pvc-a", "ns2/pvc-b", "ns1/pvc-c"] }

/-- The request of scenario C: two source volumes of different clusters. -/
def requestMixed : CreateVolumeGroupSnapshotRequest :=
  { Name := "daily", SourceVolumeIds := ["ns1/pvc-a", "ns1/pvc-c"] }

/-! ## Vocabulary and samples for the metadata store, the health check and the IDs -/

/-- The documents after an accepted Update: every document of the name is replaced. -/
def replaceDocument (ns name : String) (cm' : ConfigMap) (l : List ConfigMap) : List ConfigMap :=
  l.map (fun m => if m.Namespace = ns ∧ m.Name = name then cm' else m)

/-- The backing document of a name in a namespace of the store, if there is one: the
object that a Get of the name reads. -/
def document (c : Cluster) (ns name : String) : Option ConfigMap :=
  c.configMaps.find? (fun m => decide (m.Namespace = ns ∧ m.Name = name))

/-- The delete Job that `cleanupSnapshot` builds for the snapshot of scenario A. -/
def sampleDeleteJob : Job :=
  GenerateSnapshotDeleteJob (deleteJobConfig "daily-1700000000-1700000000" sampleSnapshotRecord)

/-- A store in which the group record of scenario A is filed under the empty key. -/
def emptyKeyCluster : Cluster :=
  { clusterOne with
    configMaps :=
      [ ⟨"etcd-group-snapshot-metadata", "kube-system", [("app", "etcd-snapshot-driver")],
          [("", "daily-1700000000")]⟩,
        ⟨"etcd-snapshot-metadata", "kube-system", [("app", "etcd-snapshot-driver")],
          [("daily-1700000000-1700000000", "daily-1700000000-1700000000")]⟩ ] }

/-- The voting members of a member list: the members that are not learners. -/
def votingMembersOf (memberList : MemberListResponse) : List Member :=
  memberList.Members.filter (fun member => !member.IsLearner)

/-- A member answers the liveness read: a client for its first client URL can be
constructed and the read of the key "health" through it returns no error. -/
def answersLivenessRead (env : Env) (member : Member) : Bool :=
  match member.ClientURLs with
  | [] => false
  | memberEndpoint :: _ =>
    (env.etcdNew [memberEndpoint]).isNone && (env.etcdGet memberEndpoint).isNone

/-- The number of voting members that answer the liveness read. -/
def healthyCount (env : Env) (memberList : MemberListResponse) : Nat :=
  ((votingMembersOf memberList).filter (answersLivenessRead env)).length

/-- A leader is identified as `ValidateHealth` does it: a voting member has the member ID
of the response header. -/
def leaderIdentified (memberList : MemberListResponse) : Bool :=
  (votingMembersOf memberList).any (fun member => decide (memberList.Header.MemberId = member.ID))

/-- Every voting member can be probed: it advertises a client URL and a client for the
first one can be constructed. -/
def probesComplete (env : Env) (memberList : MemberListResponse) : Prop :=
  ∀ member, member ∈ votingMembersOf memberList →
    ∃ memberEndpoint rest, member.ClientURLs = memberEndpoint :: rest ∧
      env.etcdNew [memberEndpoint] = none

/-- A member list of three voting members; the response header names the first. -/
def threeMembers : MemberListResponse :=
  { Header := { MemberId := 1 }
    Members :=
      [ { ID := 1, Name := "etcd-0", PeerURLs := [], ClientURLs := ["https://etcd-0:2379"]
          IsLearner := false },
        { ID := 2, Name := "etcd-1", PeerURLs := [], ClientURLs := ["https://etcd-1:2379"]
          IsLearner := false },
        { ID := 3, Name := "etcd-2", PeerURLs := [], ClientURLs := ["https://etcd-2:2379"]
          IsLearner := false } ] }

/-- An environment in which the cluster has the members of `threeMembers` and the member
etcd-2 is down: the dial to its client URL times out, so no client is constructed. -/
def memberDownEnv : Env :=
  { sampleEnv with
    etcdMemberList := fun _ => Except.ok threeMembers
    etcdNew := fun endpoints =>
      if endpoints = ["https://etcd-2:2379"] then
        some ⟨ErrKind.DeadlineExceeded, "context deadline exceeded"⟩
      else none }

/-- A member list of four voting members, the fourth added to the cluster but not started
yet: it has no name and advertises no client URL.  The response header names the first. -/
def fourMembers : MemberListResponse :=
  { Header := { MemberId := 1 }
    Members := threeMembers.Members ++
      [ { ID := 4, Name := "", PeerURLs := ["https://etcd-3:2380"], ClientURLs := []
          IsLearner := false } ] }

/-- An environment in which the cluster has the members of `fourMembers` and every member
that is reached answers. -/
def memberUnstartedEnv : Env :=
  { sampleEnv with etcdMemberList := fun _ => Except.ok fourMembers }

/-- The number that a text of decimal digits denotes, read from the left with the digits
read so far in `acc`. -/
def decimalValue (acc : Nat) : List Char → Nat
  | [] => acc
  | ch :: rest => decimalValue (10 * acc + (ch.toNat - 48)) rest

/-- The environment of scenario A one second later. -/
def laterEnv : Env := { sampleEnv with now := fun _ => { sec := 1700000001, nsec := 0 } }

/-- The response of scenario A. -/
def responseOne : CreateVolumeGroupSnapshotResponse :=
  { GroupSnapshot :=
      { GroupSnapshotId := "daily-1700000000"
        Snapshots :=
          [ { SizeBytes := 0
              SnapshotId := "daily-1700000000-1700000000"
              SourceVolumeId := "ns1/pvc-a"
              CreationTime := { sec := 1700000000, nsec := 0 }
              ReadyToUse := true
              GroupSnapshotId := "" } ]
        CreationTime := { sec := 1700000000, nsec := 0 }
        ReadyToUse := true } }

/-- The response of scenario A repeated one second later. -/
def responseLater : CreateVolumeGroupSnapshotResponse :=
  { GroupSnapshot :=
      { GroupSnapshotId := "daily-1700000001"
        Snapshots :=
          [ { SizeBytes := 0
              SnapshotId := "daily-1700000001-1700000001"
              SourceVolumeId := "ns1/pvc-a"
              CreationTime := { sec := 1700000001, nsec := 0 }
              ReadyToUse := true
              GroupSnapshotId := "" } ]
        CreationTime := { sec := 1700000001, nsec := 0 }
        ReadyToUse := true } }

/-! ## Vocabulary and samples for discovery, the snapshot PVC and the Jobs -/

/-- The pods of a namespace that carry the label `key=value`, in the order of the pod
list: what the List call with that selector reads. -/
def matchingPods (c : Cluster) (ns key value : String) : List Pod :=
  c.pods.filter (fun p => decide (p.Namespace = ns ∧ mapGet p.Labels key = some value))

/-- The endpoint that discovery synthesizes for a pod. -/
def endpointOf (podName ns : String) : String :=
  "https://" ++ podName ++ "." ++ ns ++ ".svc.cluster.local:2379"

/-- The cluster of the discovery test: the PVC `default/etcd-pvc` labelled for
`test-cluster`, which has three pods. -/
def clusterTest : Cluster :=
  { pvcs := [samplePVC "default" "etcd-pvc" "test-cluster" "Bound"]
    pods :=
      [samplePod "default" "etcd-0" "test-cluster", samplePod "default" "etcd-1" "test-cluster",
        samplePod "default" "etcd-2" "test-cluster"]
    configMaps := []
    jobs := [] }

/-- The PVC that `EnsureSnapshotPVC` builds for a namespace, a parsed size and a storage
class: the storage class field is left unset for the empty storage class. -/
def snapshotClaim (namespace_ : String) (quantity : Quantity) (storageClass : String) :
    PersistentVolumeClaim :=
  { Name := "etcd-snapshots"
    Namespace := namespace_
    Labels := [("app", "etcd-snapshot-driver")]
    AccessModes := ["ReadWriteOnce"]
    Requests := [("storage", quantity)]
    StorageClassName := if storageClass = "" then none else some storageClass
    Phase := "" }

/-- A namespace `test-ns` that already holds a snapshot PVC, still pending, with a storage
class and a size of its own. -/
def clusterPendingSnapshotPVC : Cluster :=
  { pvcs :=
      [ { Name := "etcd-snapshots"
          Namespace := "test-ns"
          Labels := []
          AccessModes := ["ReadWriteMany"]
          Requests := [("storage", { text := "1Gi" })]
          StorageClassName := some "slow"
          Phase := "Pending" } ]
    pods := []
    configMaps := []
    jobs := [] }

/-- A cluster without objects. -/
def emptyCluster : Cluster := { pvcs := [], pods := [], configMaps := [], jobs := [] }

/-- The sample environment with a quantity parser that rejects the text "not-a-size". -/
def strictSizeEnv : Env :=
  { sampleEnv with
    parseQuantity := fun s =>
      if s = "not-a-size" then
        Except.error (Errorf "quantities must match the regular expression")
      else Except.ok { text := s } }

/-- The script of the save Job as a text with three slots: the formatted endpoint list,
the TLS flags and the snapshot ID. -/
def commandLine (endpoints flags snapshotID : String) : String :=
  "set -e\netcdutl --endpoints '" ++ endpoints ++ "'" ++ flags
    ++ " snapshot save /snapshots/" ++ snapshotID
    ++ ".db\netcdutl snapshot status /snapshots/" ++ snapshotID ++ ".db -w json\n"

/-- The three TLS flags with their paths, as they stand in the script. -/
def tlsFlags (cfg : JobConfig) : String :=
  " --cacert '" ++ cfg.CAPath ++ "' --cert '" ++ cfg.ClientCertPath ++ "' --key '"
    ++ cfg.ClientKeyPath ++ "'"

/-- A JobConfig with TLS enabled. -/
def tlsJobConfig : JobConfig :=
  { SnapshotID := "daily-1700000000-1700000000"
    Namespace := "ns1"
    ETCDEndpoints := ["https://etcd-0.ns1.svc.cluster.local:2379"]
    SnapshotPVCName := "etcd-snapshots"
    SnapshotPVCNamespace := "ns1"
    Timeout := 300
    BackoffLimit := 3
    ActiveDeadlineSeconds := 600
    Operation := "save"
    TLSEnabled := true
    TLSSecretName := "etcd-client-tls"
    ClientCertPath := "/etc/etcd/tls/client/etcd-client.crt"
    ClientKeyPath := "/etc/etcd/tls/client/etcd-client.key"
    CAPath := "/etc/etcd/tls/etcd-ca/ca.crt"
    ETCDImage := ""
    BusyboxImage := "" }

/-- A tick of the polling loop after which it continues: the status read failed, or the
status has neither a succeeded nor a failed pod. -/
def continuesPolling (p : Except GoError JobStatus) : Prop :=
  match p with
  | Except.error _ => True
  | Except.ok st => ¬ st.Succeeded > 0 ∧ ¬ st.Failed > 0

instance (p : Except GoError JobStatus) : Decidable (continuesPolling p) := by
  cases p <;> unfold continuesPolling <;> infer_instance

/-- A Job as the save Job of scenario A is named and labelled, with an empty pod template. -/
def sampleJob : Job :=
  { Name := "etcd-snapshot-save-daily-1700000000-1700000000"
    Namespace := "ns1"
    Labels := [("app", "etcd-snapshot-driver"), ("snapshot-id", "daily-1700000000-1700000000")]
    Spec :=
      { TTLSecondsAfterFinished := some 3600
        BackoffLimit := some 3
        ActiveDeadlineSeconds := some 600
        Template :=
          { Labels := []
            Spec :=
              { ServiceAccountName := "etcd-snapshot-executor"
                RestartPolicy := "Never"
                SecurityContext := none
                Containers := []
                Volumes := [] } } }
    Status := { Active := 0, Succeeded := 0, Failed := 0 } }

/-- The sample environment with a Job whose status cannot be read at the first tick, is
still running at the second and has failed three times at the third. -/
def failingJobEnv : Env :=
  { sampleEnv with
    jobPolls := fun _ _ =>
      [ Except.error (Errorf "connection refused"),
        Except.ok { Active := 1, Succeeded := 0, Failed := 0 },
        Except.ok { Active := 0, Succeeded := 0, Failed := 3 },
        Except.ok { Active := 0, Succeeded := 1, Failed := 0 } ] }

/-- The sample environment with an API server that refuses to create Jobs. -/
def jobRefusedEnv : Env :=
  { sampleEnv with
    apiFault := fun call =>
      match call with
      | ApiCall.createJob _ _ => some ⟨ErrKind.Other, "jobs.batch is forbidden"⟩
      | _ => none }

/-- The endpoints of the three members of `threeMembers`. -/
def threeEndpoints : List String :=
  ["https://etcd-0:2379", "https://etcd-1:2379", "https://etcd-2:2379"]

/-- An environment in which the cluster has the members of `threeMembers`, the response
header names the second, and the first member, etcd-0, is down: a client for the three
endpoints is constructed, a client for the URL of etcd-0 alone is not. -/
def firstMemberDownEnv : Env :=
  { sampleEnv with
    etcdMemberList := fun _ => Except.ok { threeMembers with Header := { MemberId := 2 } }
    etcdNew := fun endpoints =>
      if endpoints = ["https://etcd-0:2379"] then
        some ⟨ErrKind.DeadlineExceeded, "context deadline exceeded"⟩
      else none }

/-- A member list that starts with a voting member that was added but not started yet (no
name, no client URL), followed by the three members of `threeMembers`. -/
def unstartedFirst : MemberListResponse :=
  { Header := { MemberId := 1 }
    Members :=
      { ID := 4, Name := "", PeerURLs := ["https://etcd-3:2380"], ClientURLs := []
        IsLearner := false } :: threeMembers.Members }

/-- An environment in which the cluster has the members of `unstartedFirst` and every
member that is reached answers. -/
def unstartedFirstEnv : Env :=
  { sampleEnv with etcdMemberList := fun _ => Except.ok unstartedFirst }

/-- A member list of the three voting members of `threeMembers` and a learner; the
response header carries the member ID of the learner. -/
def learnerHeader : MemberListResponse :=
  { Header := { MemberId := 9 }
    Members := threeMembers.Members ++
      [ { ID := 9, Name := "etcd-learner", PeerURLs := []
          ClientURLs := ["https://etcd-learner:2379"], IsLearner := true } ] }

/-- An environment in which the cluster has the members of `learnerHeader` and every
member answers. -/
def learnerHeaderEnv : Env :=
  { sampleEnv with etcdMemberList := fun _ => Except.ok learnerHeader }

/-- An environment in which the cluster has the members of `threeMembers` and every member
answers. -/
def healthyThreeEnv : Env :=
  { sampleEnv with etcdMemberList := fun _ => Except.ok threeMembers }

/-- A JobConfig with TLS disabled whose snapshot ID holds the text of the three TLS flags
with the paths of the config. -/
def flagsInIDJobConfig : JobConfig :=
  { tlsJobConfig with
    TLSEnabled := false
    SnapshotID :=
      "x --cacert '/etc/etcd/tls/etcd-ca/ca.crt' --cert '/etc/etcd/tls/client/etcd-client.crt'"
        ++ " --key '/etc/etcd/tls/client/etcd-client.key' " }

/-! # Theorems -/

/-! ## parseVolumeID -/

theorem lastSlash_none_iff (cs : List Char) (n : Nat) :
    lastSlash cs n = none ↔ ∀ j, j < n → cs[j]? ≠ some '/' := by
  induction n with
  | zero => simp [lastSlash]
  | succ n ih =>
    unfold lastSlash
    by_cases h : cs[n]? = some '/'
    · simp only [h, if_true]
      constructor
      · intro h0; cases h0
      · intro hall; exact absurd h (hall n (Nat.lt_succ_self n))
    · simp only [h, if_false, ih]
      constructor
      · intro hall j hj
        rcases Nat.lt_succ_iff_lt_or_eq.mp hj with hlt | heq
        · exact hall j hlt
        · subst heq; exact h
      · intro hall j hj
        exact hall j (Nat.lt_succ_of_lt hj)

/-- The index at which the scan stops holds a separator and no later index below the start does. -/
theorem lastSlash_some (cs : List Char) (n i : Nat) (h : lastSlash cs n = some i) :
    i < n ∧ cs[i]? = some '/' ∧ ∀ j, i < j → j < n → cs[j]? ≠ some '/' := by
  induction n with
  | zero => simp [lastSlash] at h
  | succ n ih =>
    unfold lastSlash at h
    by_cases hn : cs[n]? = some '/'
    · simp only [hn, if_true, Option.some.injEq] at h
      subst h
      refine ⟨Nat.lt_succ_self _, hn, ?_⟩
      intro j h1 h2
      omega
    · simp only [hn, if_false] at h
      obtain ⟨h1, h2, h3⟩ := ih h
      refine ⟨Nat.lt_succ_of_lt h1, h2, ?_⟩
      intro j hj1 hj2
      rcases Nat.lt_succ_iff_lt_or_eq.mp hj2 with hlt | heq
      · exact h3 j hj1 hlt
      · subst heq; exact hn

/-- No separator: the scan falls off the front. -/
theorem lastSlash_of_not_mem (cs : List Char) (h : '/' ∉ cs) : lastSlash cs cs.length = none := by
  rw [lastSlash_none_iff]
  intro j _ hj
  exact h (List.getElem?_mem hj)

/-- An ID in which the scan stops has a separator. -/
theorem mem_of_lastSlash (cs : List Char) (n i : Nat) (h : lastSlash cs n = some i) : '/' ∈ cs :=
  List.getElem?_mem (lastSlash_some cs n i h).2.1

/-- The scan splits the list around the separator it stops at. -/
theorem lastSlash_split (cs : List Char) (i : Nat) (h : lastSlash cs cs.length = some i) :
    cs = cs.take i ++ '/' :: cs.drop (i + 1) ∧ '/' ∉ cs.drop (i + 1) := by
  obtain ⟨h1, h2, h3⟩ := lastSlash_some cs _ i h
  constructor
  · have hget : cs[i] = '/' := by
      have := List.getElem?_eq_getElem h1
      rw [this] at h2
      exact Option.some.inj h2
    conv_lhs => rw [← List.take_append_drop i cs]
    rw [List.drop_eq_getElem_cons h1, hget]
  · intro hmem
    obtain ⟨k, hk⟩ := List.getElem?_of_mem hmem
    rw [List.getElem?_drop] at hk
    have hlt : i + 1 + k < cs.length := by
      by_contra hge
      rw [List.getElem?_eq_none (by omega)] at hk
      cases hk
    exact h3 (i + 1 + k) (by omega) hlt hk

/-- The two ways in which `parseVolumeID` succeeds. -/
theorem parseVolumeID_ok_cases (volumeID ns name : String)
    (h : parseVolumeID volumeID = Except.ok (ns, name)) :
    (lastSlash volumeID.data volumeID.data.length = none ∧ ns = "default" ∧ name = volumeID) ∨
    (∃ i, lastSlash volumeID.data volumeID.data.length = some i ∧
      ns = String.mk (volumeID.data.take i) ∧ name = String.mk (volumeID.data.drop (i + 1)) ∧
      ns ≠ "" ∧ name ≠ "") := by
  unfold parseVolumeID at h
  split at h
  · cases h
  · split at h
    · rename_i hnone
      simp only [Except.ok.injEq, Prod.mk.injEq] at h
      exact Or.inl ⟨hnone, h.1.symm, h.2.symm⟩
    · rename_i i hsome
      simp only at h
      split at h
      · cases h
      · rename_i hne
        simp only [Except.ok.injEq, Prod.mk.injEq] at h
        refine Or.inr ⟨i, hsome, h.1.symm, h.2.symm, ?_, ?_⟩
        · rw [← h.1]; exact fun hc => hne (Or.inl hc)
        · rw [← h.2]; exact fun hc => hne (Or.inr hc)

/-- C4: whenever parseVolumeID succeeds, an ID with a separator is split at its last
separator (the ID is namespace, separator, name, and the name has no separator), and an
ID without separator yields the namespace "default" and the whole ID as name. -/
theorem parseVolumeID_splits_at_last_separator (volumeID ns name : String)
    (h : parseVolumeID volumeID = Except.ok (ns, name)) :
    ('/' ∈ volumeID.data → volumeID = ns ++ "/" ++ name ∧ '/' ∉ name.data) ∧
    ('/' ∉ volumeID.data → ns = "default" ∧ name = volumeID) := by
  rcases parseVolumeID_ok_cases volumeID ns name h with ⟨hnone, hns, hname⟩ | ⟨i, hsome, hns, hname, _, _⟩
  · refine ⟨fun hmem => ?_, fun _ => ⟨hns, hname⟩⟩
    rw [lastSlash_none_iff] at hnone
    obtain ⟨k, hk⟩ := List.getElem?_of_mem hmem
    have hlt : k < volumeID.data.length := by
      by_contra hge
      rw [List.getElem?_eq_none (by omega)] at hk
      cases hk
    exact absurd hk (hnone k hlt)
  · obtain ⟨hsplit, hno⟩ := lastSlash_split volumeID.data i hsome
    refine ⟨fun _ => ⟨?_, ?_⟩, fun hnot => absurd (mem_of_lastSlash _ _ _ hsome) hnot⟩
    · apply String.ext
      rw [hns, hname]
      simp only [String.data_append]
      simpa using hsplit
    · rw [hname]
      exact hno

/-- C4 at the ID "a/b/c": the namespace is "a/b" and the name is "c". -/
theorem parseVolumeID_splits_at_last_separator_witness :
    parseVolumeID "a/b/c" = Except.ok ("a/b", "c") ∧
    (('/' ∈ "a/b/c".data → "a/b/c" = "a/b" ++ "/" ++ "c" ∧ '/' ∉ "c".data) ∧
     ('/' ∉ "a/b/c".data → "a/b" = "default" ∧ "c" = "a/b/c")) :=
  ⟨by decide, parseVolumeID_splits_at_last_separator "a/b/c" "a/b" "c" (by decide)⟩

/-- C5: parseVolumeID fails exactly when the ID is empty, or its last separator is its
first character (the ID starts with its only separator), or its last separator is its
last character; a successful parse returns a non-empty namespace and a non-empty name. -/
theorem parseVolumeID_fails_iff (volumeID : String) :
    ((∃ e, parseVolumeID volumeID = Except.error e) ↔
      (volumeID = "" ∨ (∃ rest, volumeID.data = '/' :: rest ∧ '/' ∉ rest) ∨
        (∃ front, volumeID.data = front ++ ['/']))) ∧
    (∀ ns name, parseVolumeID volumeID = Except.ok (ns, name) → ns ≠ "" ∧ name ≠ "") := by
  constructor
  · constructor
    · rintro ⟨e, he⟩
      unfold parseVolumeID at he
      split at he
      · rename_i hlen
        left
        apply String.ext
        exact List.length_eq_zero.mp hlen
      · split at he
        · cases he
        · rename_i i hsome
          simp only at he
          obtain ⟨hsplit, hno⟩ := lastSlash_split volumeID.data i hsome
          obtain ⟨hlt, -, -⟩ := lastSlash_some _ _ _ hsome
          split at he
          · rename_i hor
            right
            rcases hor with h1 | h2
            · left
              have htake : volumeID.data.take i = [] := by
                have := congrArg String.data h1
                simpa using this
              refine ⟨volumeID.data.drop (i + 1), ?_, hno⟩
              rw [htake] at hsplit
              simpa using hsplit
            · right
              have hdrop : volumeID.data.drop (i + 1) = [] := by
                have := congrArg String.data h2
                simpa using this
              refine ⟨volumeID.data.take i, ?_⟩
              rw [hdrop] at hsplit
              exact hsplit
          · cases he
    · intro h
      unfold parseVolumeID
      rcases h with h | ⟨rest, hrest, hno⟩ | ⟨front, hfront⟩
      · subst h
        exact ⟨_, rfl⟩
      · have hlen : ¬ volumeID.data.length = 0 := by rw [hrest]; simp
        rw [if_neg hlen]
        cases hls : lastSlash volumeID.data volumeID.data.length with
        | none =>
          rw [lastSlash_none_iff] at hls
          have := hls 0 (by omega)
          rw [hrest] at this
          simp at this
        | some i =>
          obtain ⟨hlt, hget, _⟩ := lastSlash_some _ _ _ hls
          have hi : i = 0 := by
            by_contra hne
            rw [hrest] at hget
            obtain ⟨j, rfl⟩ := Nat.exists_eq_succ_of_ne_zero hne
            rw [List.getElem?_cons_succ] at hget
            exact hno (List.getElem?_mem hget)
          subst hi
          simp only [List.take_zero]
          rw [if_pos (Or.inl trivial)]
          exact ⟨_, rfl⟩
      · have hlen : ¬ volumeID.data.length = 0 := by rw [hfront]; simp
        rw [if_neg hlen]
        have hls : lastSlash volumeID.data volumeID.data.length = some front.length := by
          rw [hfront]
          simp only [List.length_append, List.length_singleton]
          unfold lastSlash
          simp
        rw [hls]
        simp only
        have hdrop : volumeID.data.drop (front.length + 1) = [] := by
          rw [hfront]; simp
        rw [hdrop, if_pos (Or.inr rfl)]
        exact ⟨_, rfl⟩
  · intro ns name h
    rcases parseVolumeID_ok_cases volumeID ns name h with ⟨hnone, hns, hname⟩ | ⟨i, _, _, _, h1, h2⟩
    · refine ⟨by rw [hns]; decide, ?_⟩
      rw [hname]
      intro hempty
      rw [hempty] at h
      simp [parseVolumeID] at h
    · exact ⟨h1, h2⟩

/-! ## CreateVolumeGroupSnapshot: request validation -/
/-- The text of a parse failure at index `k`. -/
theorem parseVolumes_error_at (ids : List String) (i k : Nat) (id : String) (e : GoError)
    (hprev : ∀ j idj, j < k → ids[j]? = some idj → ∃ r, parseVolumeID idj = Except.ok r)
    (hk : ids[k]? = some id) (he : parseVolumeID id = Except.error e) :
    parseVolumes i ids = Except.error (Failure.status Code.InvalidArgument
      ("invalid source_volume_id[" ++ toString (i + k) ++ "]: " ++ e.msg)) := by
  induction ids generalizing i k with
  | nil => simp at hk
  | cons x rest ih =>
    cases k with
    | zero =>
      simp only [List.getElem?_cons_zero, Option.some.injEq] at hk
      subst hk
      simp [parseVolumes, he]
    | succ k =>
      obtain ⟨r, hr⟩ := hprev 0 x (Nat.succ_pos k) (by simp)
      have hrest := ih (i + 1) k
        (fun j idj hj hget => hprev (j + 1) idj (Nat.succ_lt_succ hj) (by simpa using hget))
        (by simpa using hk)
      unfold parseVolumes
      rw [hr]
      simp only [hrest]
      have : i + 1 + k = i + (k + 1) := by omega
      rw [this]

/-- The parse loop fails only with `InvalidArgument`, at an ID that does not parse. -/
theorem parseVolumes_error_inv (ids : List String) (i : Nat) (f : Failure)
    (h : parseVolumes i ids = Except.error f) :
    (∃ msg, f = Failure.status Code.InvalidArgument msg) ∧
    ∃ id, id ∈ ids ∧ ∃ e, parseVolumeID id = Except.error e := by
  induction ids generalizing i with
  | nil => simp [parseVolumes] at h
  | cons x rest ih =>
    unfold parseVolumes at h
    split at h
    · rename_i err herr
      simp only [Except.error.injEq] at h
      exact ⟨⟨_, h.symm⟩, x, List.mem_cons_self _ _, err, herr⟩
    · split at h
      · rename_i f' hf'
        simp only [Except.error.injEq] at h
        subst h
        obtain ⟨h1, id, hid, h2⟩ := ih (i + 1) hf'
        exact ⟨h1, id, List.mem_cons_of_mem _ hid, h2⟩
      · cases h

/-- The parse loop succeeds only if every ID parses. -/
theorem parseVolumes_ok_inv (ids : List String) (i : Nat) (volumes : List volumeInfo)
    (h : parseVolumes i ids = Except.ok volumes) :
    ∀ id, id ∈ ids → ∃ r, parseVolumeID id = Except.ok r := by
  induction ids generalizing i volumes with
  | nil => simp
  | cons x rest ih =>
    unfold parseVolumes at h
    split at h
    · cases h
    · rename_i ns name hx
      split at h
      · cases h
      · rename_i vols hvols
        intro id hid
        rcases List.mem_cons.mp hid with rfl | hmem
        · exact ⟨_, hx⟩
        · exact ih (i + 1) vols hvols id hmem

/-- The lowest index at which a predicate fails on a list with a failing element. -/
theorem exists_lowest_failing {α : Type} (p : α → Prop) (xs : List α)
    (h : ∃ x, x ∈ xs ∧ ¬ p x) :
    ∃ (k : Nat) (x : α), xs[k]? = some x ∧ ¬ p x ∧
      ∀ (j : Nat) (y : α), j < k → xs[j]? = some y → p y := by
  induction xs with
  | nil => simp at h
  | cons a rest ih =>
    by_cases ha : p a
    · obtain ⟨x, hx, hpx⟩ := h
      have hrest : ∃ x, x ∈ rest ∧ ¬ p x := by
        rcases List.mem_cons.mp hx with rfl | hmem
        · exact absurd ha hpx
        · exact ⟨x, hmem, hpx⟩
      obtain ⟨k, x', hk, hpx', hlow⟩ := ih hrest
      refine ⟨k + 1, x', by simpa using hk, hpx', ?_⟩
      intro j y hj hy
      cases j with
      | zero =>
        simp only [List.getElem?_cons_zero, Option.some.injEq] at hy
        subst hy
        exact ha
      | succ j => exact hlow j y (by omega) (by simpa using hy)
    · refine ⟨0, a, by simp, ha, ?_⟩
      intro j y hj _
      exact absurd hj (Nat.not_lt_zero j)

/-- The PVC loop fails only with `FailedPrecondition`. -/
theorem validatePVCs_error_inv (g : GroupControllerServer) (env : Env) (c : Cluster)
    (volumes : List volumeInfo) (i : Nat) (f : Failure)
    (h : validatePVCs g env c i volumes = some f) :
    ∃ msg, f = Failure.status Code.FailedPrecondition msg := by
  induction volumes generalizing i with
  | nil => simp [validatePVCs] at h
  | cons v rest ih =>
    unfold validatePVCs at h
    split at h
    · simp only [Option.some.injEq] at h
      exact ⟨_, h.symm⟩
    · exact ih (i + 1) h

/-- The discovery loop never fails with `InvalidArgument`. -/
theorem discoverClusters_error_inv (g : GroupControllerServer) (env : Env) (c : Cluster)
    (volumes : List volumeInfo) (i : Nat) (fn : String) (fe : List String)
    (acc : List clusterInfo) (f : Failure)
    (h : discoverClusters g env c i volumes fn fe acc = Except.error f) :
    (∃ msg, f = Failure.status Code.Internal msg) ∨
    (∃ msg, f = Failure.status Code.FailedPrecondition msg) ∨ (∃ msg, f = Failure.panic msg) := by
  induction volumes generalizing i fn fe acc with
  | nil => simp [discoverClusters] at h
  | cons v rest ih =>
    unfold discoverClusters at h
    split at h
    · simp only [Except.error.injEq] at h
      exact Or.inl ⟨_, h.symm⟩
    · split at h
      · simp only [Except.error.injEq] at h
        exact Or.inr (Or.inl ⟨_, h.symm⟩)
      · simp only [Except.error.injEq] at h
        exact Or.inr (Or.inr ⟨_, h.symm⟩)
      · split at h
        · exact ih _ _ _ _ h
        · split at h
          · simp only [Except.error.injEq] at h
            exact Or.inr (Or.inl ⟨_, h.symm⟩)
          · split at h
            · simp only [Except.error.injEq] at h
              exact Or.inr (Or.inl ⟨_, h.symm⟩)
            · exact ih _ _ _ _ h

/-- Phase 1 with an empty name. -/
theorem create_name_empty (g : GroupControllerServer) (env : Env) (c : Cluster)
    (req : CreateVolumeGroupSnapshotRequest) (h : req.Name = "") :
    g.CreateVolumeGroupSnapshot env c req =
      (Except.error (Failure.status Code.InvalidArgument "snapshot name required"), c) := by
  unfold GroupControllerServer.CreateVolumeGroupSnapshot
  simp only [h, if_true]

/-- Phase 1 with a name and no source volume. -/
theorem create_sources_empty (g : GroupControllerServer) (env : Env) (c : Cluster)
    (req : CreateVolumeGroupSnapshotRequest) (hname : req.Name ≠ "")
    (h : req.SourceVolumeIds = []) :
    g.CreateVolumeGroupSnapshot env c req =
      (Except.error (Failure.status Code.InvalidArgument "source_volume_ids required"), c) := by
  unfold GroupControllerServer.CreateVolumeGroupSnapshot
  simp only [hname, h, if_false, List.length_nil, if_true]

/-- A failure of the parse loop is what the call returns. -/
theorem create_parse_error (g : GroupControllerServer) (env : Env) (c : Cluster)
    (req : CreateVolumeGroupSnapshotRequest) (f : Failure) (hname : req.Name ≠ "")
    (hids : req.SourceVolumeIds ≠ [])
    (h : parseVolumes 0 req.SourceVolumeIds = Except.error f) :
    g.CreateVolumeGroupSnapshot env c req = (Except.error f, c) := by
  have hlen : ¬ req.SourceVolumeIds.length = 0 := fun h0 => hids (List.length_eq_zero.mp h0)
  unfold GroupControllerServer.CreateVolumeGroupSnapshot
  simp only [hname, hlen, if_false, h]

/-- A failure of the PVC loop is what the call returns. -/
theorem create_validate_error (g : GroupControllerServer) (env : Env) (c : Cluster)
    (req : CreateVolumeGroupSnapshotRequest) (volumes : List volumeInfo) (f : Failure)
    (hname : req.Name ≠ "") (hids : req.SourceVolumeIds ≠ [])
    (hparse : parseVolumes 0 req.SourceVolumeIds = Except.ok volumes)
    (h : validatePVCs g env c 0 volumes = some f) :
    g.CreateVolumeGroupSnapshot env c req = (Except.error f, c) := by
  have hlen : ¬ req.SourceVolumeIds.length = 0 := fun h0 => hids (List.length_eq_zero.mp h0)
  unfold GroupControllerServer.CreateVolumeGroupSnapshot
  simp only [hname, hlen, if_false, hparse, h]

/-- A failure of the discovery loop is what the call returns. -/
theorem create_discover_error (g : GroupControllerServer) (env : Env) (c : Cluster)
    (req : CreateVolumeGroupSnapshotRequest) (volumes : List volumeInfo) (f : Failure)
    (hname : req.Name ≠ "") (hids : req.SourceVolumeIds ≠ [])
    (hparse : parseVolumes 0 req.SourceVolumeIds = Except.ok volumes)
    (hval : validatePVCs g env c 0 volumes = none)
    (h : discoverClusters g env c 0 volumes "" [] [] = Except.error f) :
    g.CreateVolumeGroupSnapshot env c req = (Except.error f, c) := by
  have hlen : ¬ req.SourceVolumeIds.length = 0 := fun h0 => hids (List.length_eq_zero.mp h0)
  unfold GroupControllerServer.CreateVolumeGroupSnapshot
  simp only [hname, hlen, if_false, hparse, hval, h]

/-- Once the discovery loop has run to its end, the call ends with `Internal`, with a
panic or with a response. -/
theorem create_late_phases (g : GroupControllerServer) (env : Env) (c : Cluster)
    (req : CreateVolumeGroupSnapshotRequest) (volumes : List volumeInfo)
    (r : List clusterInfo × String × List String)
    (hname : req.Name ≠ "") (hids : req.SourceVolumeIds ≠ [])
    (hparse : parseVolumes 0 req.SourceVolumeIds = Except.ok volumes)
    (hval : validatePVCs g env c 0 volumes = none)
    (h : discoverClusters g env c 0 volumes "" [] [] = Except.ok r) :
    (∃ msg, (g.CreateVolumeGroupSnapshot env c req).1 =
        Except.error (Failure.status Code.Internal msg)) ∨
    (∃ msg, (g.CreateVolumeGroupSnapshot env c req).1 = Except.error (Failure.panic msg)) ∨
    (∃ resp, (g.CreateVolumeGroupSnapshot env c req).1 = Except.ok resp) := by
  have hlen : ¬ req.SourceVolumeIds.length = 0 := fun h0 => hids (List.length_eq_zero.mp h0)
  obtain ⟨cis, fn, fe⟩ := r
  unfold GroupControllerServer.CreateVolumeGroupSnapshot
  simp only [hname, hlen, if_false, hparse, hval, h]
  split
  · exact Or.inr (Or.inl ⟨_, rfl⟩)
  · split
    · exact Or.inl ⟨_, rfl⟩
    · split
      · exact Or.inl ⟨_, rfl⟩
      · split
        · exact Or.inr (Or.inl ⟨_, rfl⟩)
        · exact Or.inr (Or.inr ⟨_, rfl⟩)

/-- An `InvalidArgument` result comes from phase 1 or 2 and is the same in every
server configuration, environment and cluster. -/
theorem create_invalid_argument_source (g : GroupControllerServer) (env : Env) (c : Cluster)
    (req : CreateVolumeGroupSnapshotRequest) (msg : String)
    (h : (g.CreateVolumeGroupSnapshot env c req).1 =
      Except.error (Failure.status Code.InvalidArgument msg)) :
    (req.Name = "" ∨ req.SourceVolumeIds = [] ∨
      ∃ id, id ∈ req.SourceVolumeIds ∧ ∃ e, parseVolumeID id = Except.error e) ∧
    ∀ (g' : GroupControllerServer) (env' : Env) (c' : Cluster),
      (g'.CreateVolumeGroupSnapshot env' c' req).1 =
        Except.error (Failure.status Code.InvalidArgument msg) := by
  by_cases hname : req.Name = ""
  · refine ⟨Or.inl hname, fun g' env' c' => ?_⟩
    rw [create_name_empty g env c req hname] at h
    rw [create_name_empty g' env' c' req hname]
    exact h
  by_cases hids : req.SourceVolumeIds = []
  · refine ⟨Or.inr (Or.inl hids), fun g' env' c' => ?_⟩
    rw [create_sources_empty g env c req hname hids] at h
    rw [create_sources_empty g' env' c' req hname hids]
    exact h
  cases hparse : parseVolumes 0 req.SourceVolumeIds with
  | error f =>
    refine ⟨Or.inr (Or.inr (parseVolumes_error_inv _ _ _ hparse).2), fun g' env' c' => ?_⟩
    rw [create_parse_error g env c req f hname hids hparse] at h
    rw [create_parse_error g' env' c' req f hname hids hparse]
    exact h
  | ok volumes =>
    exfalso
    cases hval : validatePVCs g env c 0 volumes with
    | some f =>
      rw [create_validate_error g env c req volumes f hname hids hparse hval] at h
      obtain ⟨m, hm⟩ := validatePVCs_error_inv g env c volumes 0 f hval
      rw [hm] at h
      simp at h
    | none =>
      cases hdisc : discoverClusters g env c 0 volumes "" [] [] with
      | error f =>
        rw [create_discover_error g env c req volumes f hname hids hparse hval hdisc] at h
        rcases discoverClusters_error_inv g env c volumes 0 "" [] [] f hdisc with
          ⟨m, hm⟩ | ⟨m, hm⟩ | ⟨m, hm⟩ <;> rw [hm] at h <;> simp at h
      | ok r =>
        rcases create_late_phases g env c req volumes r hname hids hparse hval hdisc with
          ⟨m, hm⟩ | ⟨m, hm⟩ | ⟨m, hm⟩ <;> rw [hm] at h <;> simp at h

/-- C3: CreateVolumeGroupSnapshot returns InvalidArgument exactly when the name is empty,
the source volume list is empty, or some source volume ID does not parse.  The empty name
is reported first ("snapshot name required"), then the empty list
("source_volume_ids required"), then the lowest index whose ID does not parse; and an
InvalidArgument result is the same whatever the configuration, the environment and the
cluster state are. -/
theorem CreateVolumeGroupSnapshot_invalid_argument (g : GroupControllerServer) (env : Env)
    (c : Cluster) (req : CreateVolumeGroupSnapshotRequest) :
    ((∃ msg, (g.CreateVolumeGroupSnapshot env c req).1 =
        Except.error (Failure.status Code.InvalidArgument msg)) ↔
      (req.Name = "" ∨ req.SourceVolumeIds = [] ∨
        ∃ id, id ∈ req.SourceVolumeIds ∧ ∃ e, parseVolumeID id = Except.error e)) ∧
    (req.Name = "" → (g.CreateVolumeGroupSnapshot env c req).1 =
      Except.error (Failure.status Code.InvalidArgument "snapshot name required")) ∧
    (req.Name ≠ "" → req.SourceVolumeIds = [] →
      (g.CreateVolumeGroupSnapshot env c req).1 =
        Except.error (Failure.status Code.InvalidArgument "source_volume_ids required") ∧
      Contains "source_volume_ids required" "source_volume_ids required") ∧
    (∀ (k : Nat) (id : String) (e : GoError), req.Name ≠ "" →
      (∀ (j : Nat) (idj : String), j < k → req.SourceVolumeIds[j]? = some idj →
        ∃ r, parseVolumeID idj = Except.ok r) →
      req.SourceVolumeIds[k]? = some id → parseVolumeID id = Except.error e →
      (g.CreateVolumeGroupSnapshot env c req).1 =
        Except.error (Failure.status Code.InvalidArgument
          ("invalid source_volume_id[" ++ toString k ++ "]: " ++ e.msg))) ∧
    (∀ (msg : String) (g' : GroupControllerServer) (env' : Env) (c' : Cluster),
      (g.CreateVolumeGroupSnapshot env c req).1 =
        Except.error (Failure.status Code.InvalidArgument msg) →
      (g'.CreateVolumeGroupSnapshot env' c' req).1 =
        Except.error (Failure.status Code.InvalidArgument msg)) := by
  have hlowest : ∀ (k : Nat) (id : String) (e : GoError), req.Name ≠ "" →
      (∀ (j : Nat) (idj : String), j < k → req.SourceVolumeIds[j]? = some idj →
        ∃ r, parseVolumeID idj = Except.ok r) →
      req.SourceVolumeIds[k]? = some id → parseVolumeID id = Except.error e →
      (g.CreateVolumeGroupSnapshot env c req).1 =
        Except.error (Failure.status Code.InvalidArgument
          ("invalid source_volume_id[" ++ toString k ++ "]: " ++ e.msg)) := by
    intro k id e hname hprev hk he
    have hids : req.SourceVolumeIds ≠ [] := by
      intro h0
      rw [h0] at hk
      simp at hk
    have := parseVolumes_error_at req.SourceVolumeIds 0 k id e hprev hk he
    rw [Nat.zero_add] at this
    rw [create_parse_error g env c req _ hname hids this]
  refine ⟨⟨?_, ?_⟩, ?_, ?_, hlowest, ?_⟩
  · rintro ⟨msg, h⟩
    exact (create_invalid_argument_source g env c req msg h).1
  · intro h
    by_cases hname : req.Name = ""
    · exact ⟨_, by rw [create_name_empty g env c req hname]⟩
    by_cases hids : req.SourceVolumeIds = []
    · exact ⟨_, by rw [create_sources_empty g env c req hname hids]⟩
    rcases h with h | h | ⟨id, hid, e, he⟩
    · exact absurd h hname
    · exact absurd h hids
    · obtain ⟨k, x, hk, hx, hlow⟩ :=
        exists_lowest_failing (fun s => ∃ r, parseVolumeID s = Except.ok r)
          req.SourceVolumeIds ⟨id, hid, by rintro ⟨r, hr⟩; rw [he] at hr; cases hr⟩
      cases hpx : parseVolumeID x with
      | ok r => exact absurd ⟨r, hpx⟩ hx
      | error ex => exact ⟨_, hlowest k x ex hname hlow hk hpx⟩
  · intro hname
    rw [create_name_empty g env c req hname]
  · intro hname hids
    rw [create_sources_empty g env c req hname hids]
    exact ⟨rfl, List.infix_refl _⟩
  · intro msg g' env' c' h
    exact (create_invalid_argument_source g env c req msg h).2 g' env' c'

/-! ## CreateVolumeGroupSnapshot: PVC validation -/
/-- What `validatePVCForGroup` accepts. -/
theorem validatePVCForGroup_none_iff (g : GroupControllerServer) (env : Env) (c : Cluster)
    (ns name : String) :
    g.validatePVCForGroup env c ns name = none ↔
      ∃ pvc, PersistentVolumeClaims.Get env c ns name = Except.ok pvc ∧ pvc.Phase = "Bound" ∧
        ∃ mode, mode ∈ pvc.AccessModes ∧ (mode = "ReadWriteOnce" ∨ mode = "ReadWriteMany") := by
  unfold GroupControllerServer.validatePVCForGroup
  cases hget : PersistentVolumeClaims.Get env c ns name with
  | error err => simp
  | ok pvc =>
    simp only [Except.ok.injEq, exists_eq_left']
    by_cases hphase : pvc.Phase = "Bound"
    · simp only [hphase, ne_eq, not_true_eq_false, if_false, true_and]
      by_cases hany : pvc.AccessModes.any
          (fun mode => decide (mode = "ReadWriteOnce" ∨ mode = "ReadWriteMany")) = true
      · simp only [hany, Bool.not_true, Bool.false_eq_true, if_false, true_iff]
        obtain ⟨mode, hmem, hmode⟩ := List.any_eq_true.mp hany
        exact ⟨mode, hmem, of_decide_eq_true hmode⟩
      · have hfalse : pvc.AccessModes.any
            (fun mode => decide (mode = "ReadWriteOnce" ∨ mode = "ReadWriteMany")) = false := by
          simpa using hany
        simp only [hfalse, Bool.not_false, if_true]
        constructor
        · intro h0; cases h0
        · rintro ⟨mode, hmem, hmode⟩
          exact absurd (List.any_eq_true.mpr ⟨mode, hmem, decide_eq_true hmode⟩) hany
    · simp [hphase]

/-- A Get that is not refused returns the PVC that the cluster holds under the name. -/
theorem getPVC_ok_iff (env : Env) (c : Cluster) (ns name : String)
    (pvc : PersistentVolumeClaim) (h : env.apiFault (ApiCall.getPVC ns name) = none) :
    PersistentVolumeClaims.Get env c ns name = Except.ok pvc ↔
      c.pvcs.find? (fun p => decide (p.Namespace = ns ∧ p.Name = name)) = some pvc := by
  unfold PersistentVolumeClaims.Get
  simp only [h]
  cases c.pvcs.find? (fun p => decide (p.Namespace = ns ∧ p.Name = name)) with
  | none =>
    constructor
    · intro h0; cases h0
    · intro h0; cases h0
  | some p => simp

/-- The text of a PVC validation failure at index `k`. -/
theorem validatePVCs_error_at (g : GroupControllerServer) (env : Env) (c : Cluster)
    (volumes : List volumeInfo) (i k : Nat) (v : volumeInfo) (e : GoError)
    (hprev : ∀ (j : Nat) (vj : volumeInfo), j < k → volumes[j]? = some vj →
      g.validatePVCForGroup env c vj.namespace_ vj.name = none)
    (hk : volumes[k]? = some v)
    (he : g.validatePVCForGroup env c v.namespace_ v.name = some e) :
    validatePVCs g env c i volumes = some (Failure.status Code.FailedPrecondition
      ("PVC validation failed for volume " ++ toString (i + k) ++ ": " ++ e.msg)) := by
  induction volumes generalizing i k with
  | nil => simp at hk
  | cons x rest ih =>
    cases k with
    | zero =>
      simp only [List.getElem?_cons_zero, Option.some.injEq] at hk
      subst hk
      simp [validatePVCs, he]
    | succ k =>
      have hx := hprev 0 x (Nat.succ_pos k) (by simp)
      have hrest := ih (i + 1) k
        (fun j vj hj hget => hprev (j + 1) vj (Nat.succ_lt_succ hj) (by simpa using hget))
        (by simpa using hk)
      unfold validatePVCs
      rw [hx]
      simp only [hrest]
      have : i + 1 + k = i + (k + 1) := by omega
      rw [this]

/-- The PVC loop runs to its end exactly when every volume is accepted. -/
theorem validatePVCs_none_iff (g : GroupControllerServer) (env : Env) (c : Cluster)
    (volumes : List volumeInfo) (i : Nat) :
    validatePVCs g env c i volumes = none ↔
      ∀ v, v ∈ volumes → g.validatePVCForGroup env c v.namespace_ v.name = none := by
  induction volumes generalizing i with
  | nil => simp [validatePVCs]
  | cons x rest ih =>
    unfold validatePVCs
    cases hx : g.validatePVCForGroup env c x.namespace_ x.name with
    | some e =>
      constructor
      · intro h0; cases h0
      · intro hall
        have := hall x (List.mem_cons_self _ _)
        rw [hx] at this
        cases this
    | none =>
      simp only [ih, List.mem_cons, forall_eq_or_imp, hx, true_and]

/-- C6: in a request that passes the name, source-list and parsing validation,
validatePVCForGroup accepts a volume exactly when the API returns its PVC (when the Get is
not refused: when the cluster holds a PVC of that namespace and name), the phase is "Bound"
and one of the access modes is ReadWriteOnce or ReadWriteMany; and when some volume is not
accepted, the call fails with FailedPrecondition, the message names the lowest index of a
volume that is not accepted, and the cluster is left as it was. -/
theorem CreateVolumeGroupSnapshot_pvc_validation (g : GroupControllerServer) (env : Env)
    (c : Cluster) (req : CreateVolumeGroupSnapshotRequest) (volumes : List volumeInfo)
    (hname : req.Name ≠ "") (hids : req.SourceVolumeIds ≠ [])
    (hparse : parseVolumes 0 req.SourceVolumeIds = Except.ok volumes) :
    (∀ v, v ∈ volumes →
      (g.validatePVCForGroup env c v.namespace_ v.name = none ↔
        ∃ pvc, PersistentVolumeClaims.Get env c v.namespace_ v.name = Except.ok pvc ∧
          pvc.Phase = "Bound" ∧
          ∃ mode, mode ∈ pvc.AccessModes ∧ (mode = "ReadWriteOnce" ∨ mode = "ReadWriteMany"))) ∧
    (∀ v, v ∈ volumes → env.apiFault (ApiCall.getPVC v.namespace_ v.name) = none →
      (g.validatePVCForGroup env c v.namespace_ v.name = none ↔
        ∃ pvc, c.pvcs.find? (fun p => decide (p.Namespace = v.namespace_ ∧ p.Name = v.name))
            = some pvc ∧
          pvc.Phase = "Bound" ∧
          ∃ mode, mode ∈ pvc.AccessModes ∧ (mode = "ReadWriteOnce" ∨ mode = "ReadWriteMany"))) ∧
    (∀ (k : Nat) (v : volumeInfo) (e : GoError), volumes[k]? = some v →
      g.validatePVCForGroup env c v.namespace_ v.name = some e →
      (∀ (j : Nat) (vj : volumeInfo), j < k → volumes[j]? = some vj →
        g.validatePVCForGroup env c vj.namespace_ vj.name = none) →
      g.CreateVolumeGroupSnapshot env c req =
        (Except.error (Failure.status Code.FailedPrecondition
          ("PVC validation failed for volume " ++ toString k ++ ": " ++ e.msg)), c)) := by
  refine ⟨fun v _ => validatePVCForGroup_none_iff g env c v.namespace_ v.name, ?_, ?_⟩
  · intro v _ hfault
    rw [validatePVCForGroup_none_iff]
    constructor
    · rintro ⟨pvc, hget, hrest⟩
      exact ⟨pvc, (getPVC_ok_iff env c _ _ pvc hfault).mp hget, hrest⟩
    · rintro ⟨pvc, hfind, hrest⟩
      exact ⟨pvc, (getPVC_ok_iff env c _ _ pvc hfault).mpr hfind, hrest⟩
  · intro k v e hk he hprev
    have := validatePVCs_error_at g env c volumes 0 k v e hprev hk he
    rw [Nat.zero_add] at this
    exact create_validate_error g env c req volumes _ hname hids hparse this

/-- C6 at two volumes of which the second is pending: the failure names index 1. -/
theorem CreateVolumeGroupSnapshot_pvc_validation_witness :
    requestTwo.Name ≠ "" ∧ requestTwo.SourceVolumeIds ≠ [] ∧
    parseVolumes 0 requestTwo.SourceVolumeIds = Except.ok [volumeOne, volumeTwo] ∧
    sampleServer.CreateVolumeGroupSnapshot sampleEnv clusterPending requestTwo =
      (Except.error (Failure.status Code.FailedPrecondition
        "PVC validation failed for volume 1: PVC not bound, current phase: Pending"),
        clusterPending) :=
  ⟨by decide, by decide, by decide,
    (CreateVolumeGroupSnapshot_pvc_validation sampleServer sampleEnv clusterPending requestTwo
      [volumeOne, volumeTwo] (by decide) (by decide) (by decide)).2.2 1 volumeTwo
      (Errorf "PVC not bound, current phase: Pending") (by decide) (by decide)
      (by
        intro j vj hj hget
        obtain rfl : j = 0 := by omega
        simp only [List.getElem?_cons_zero, Option.some.injEq] at hget
        subst hget
        decide)⟩

/-! ## CreateVolumeGroupSnapshot: discovery, health validation and the later phases -/

/-- Clusters with the same name and endpoint list pass the two comparisons of the code. -/
theorem agrees_of_sameCluster (first info : ClusterInfo) (h : sameCluster first info) :
    agrees first info :=
  ⟨h.1, by rw [h.2]⟩

/-- The loop walks over volumes that pass and agree with the first cluster. -/
theorem discoverClusters_skip (g : GroupControllerServer) (env : Env) (c : Cluster)
    (pre : List volumeInfo) (infos : List ClusterInfo) (rest : List volumeInfo) (i : Nat)
    (fn : String) (fe : List String) (acc : List clusterInfo) (hi : i ≠ 0)
    (hpass : List.Forall₂ (passes g env c) pre infos)
    (hag : ∀ x, x ∈ infos → x.Name = fn ∧ x.Endpoints.length = fe.length) :
    discoverClusters g env c i (pre ++ rest) fn fe acc =
      discoverClusters g env c (i + pre.length) rest fn fe (acc ++ entries i pre infos) := by
  induction hpass generalizing i acc with
  | nil => simp [entries]
  | @cons v x pre' infos' hvx _ ih =>
    obtain ⟨hname, hlen⟩ := hag x (List.mem_cons_self _ _)
    have hstep : discoverClusters g env c i (v :: (pre' ++ rest)) fn fe acc =
        discoverClusters g env c (i + 1) (pre' ++ rest) fn fe
          (acc ++ [{ index := i, info := x, volumeInfo := v }]) := by
      rw [discoverClusters]
      simp only [hvx.1, hvx.2, hi, if_false, hname, hlen, ne_eq, not_true_eq_false]
    have hrest := ih (i + 1) (acc ++ [({ index := i, info := x, volumeInfo := v } : clusterInfo)])
      (Nat.succ_ne_zero i) (fun y hy => hag y (List.mem_cons_of_mem _ hy))
    rw [List.cons_append, hstep, hrest]
    simp only [entries, List.length_cons, List.append_assoc, List.singleton_append]
    have : i + 1 + pre'.length = i + (pre'.length + 1) := by omega
    rw [this]

/-- From the start, the loop walks over a prefix of volumes that pass and agree with the
first of them. -/
theorem discoverClusters_prefix (g : GroupControllerServer) (env : Env) (c : Cluster)
    (pre : List volumeInfo) (infos : List ClusterInfo) (rest : List volumeInfo)
    (hpass : List.Forall₂ (passes g env c) pre infos)
    (hag : ∀ first, infos.head? = some first → ∀ x, x ∈ infos → agrees first x) :
    discoverClusters g env c 0 (pre ++ rest) "" [] [] =
      discoverClusters g env c pre.length rest (firstNameOf infos) (firstEndpointsOf infos)
        (entries 0 pre infos) := by
  cases hpass with
  | nil => simp [entries, firstNameOf, firstEndpointsOf]
  | @cons v x pre' infos' hvx htail =>
    have hstep : discoverClusters g env c 0 (v :: (pre' ++ rest)) "" [] [] =
        discoverClusters g env c 1 (pre' ++ rest) x.Name x.Endpoints
          [{ index := 0, info := x, volumeInfo := v }] := by
      rw [discoverClusters]
      simp only [hvx.1, hvx.2, if_true, List.nil_append, Nat.zero_add]
    have hrest := discoverClusters_skip g env c pre' infos' rest 1 x.Name x.Endpoints
      [({ index := 0, info := x, volumeInfo := v } : clusterInfo)] (by decide) htail
      (fun y hy => hag x rfl y (List.mem_cons_of_mem _ hy))
    rw [List.cons_append, hstep, hrest]
    simp only [entries, firstNameOf, firstEndpointsOf, List.length_cons, List.singleton_append,
      Nat.zero_add]
    have : 1 + pre'.length = pre'.length + 1 := by omega
    rw [this]

/-- The loop at a volume whose discovery fails. -/
theorem discoverClusters_discovery_error (g : GroupControllerServer) (env : Env) (c : Cluster)
    (vol : volumeInfo) (post : List volumeInfo) (i : Nat) (fn : String) (fe : List String)
    (acc : List clusterInfo) (e : GoError)
    (h : g.discovery.DiscoverCluster env c vol.namespace_ vol.name = Except.error e) :
    discoverClusters g env c i (vol :: post) fn fe acc =
      Except.error (Failure.status Code.Internal
        ("ETCD discovery failed for volume " ++ toString i ++ ": " ++ e.msg)) := by
  rw [discoverClusters]
  simp only [h]

/-- The loop at a volume whose health validation returns an error. -/
theorem discoverClusters_health_error (g : GroupControllerServer) (env : Env) (c : Cluster)
    (vol : volumeInfo) (post : List volumeInfo) (i : Nat) (fn : String) (fe : List String)
    (acc : List clusterInfo) (info : ClusterInfo) (e : GoError)
    (hd : g.discovery.DiscoverCluster env c vol.namespace_ vol.name = Except.ok info)
    (hh : g.discovery.ValidateClusterHealth env info = Except.error (Throw.error e)) :
    discoverClusters g env c i (vol :: post) fn fe acc =
      Except.error (Failure.status Code.FailedPrecondition
        ("ETCD cluster health validation failed for volume " ++ toString i ++ ": " ++ e.msg)) := by
  rw [discoverClusters]
  simp only [hd, hh]

/-- The loop at a later volume whose cluster name differs from the first. -/
theorem discoverClusters_name_mismatch (g : GroupControllerServer) (env : Env) (c : Cluster)
    (vol : volumeInfo) (post : List volumeInfo) (i : Nat) (fn : String) (fe : List String)
    (acc : List clusterInfo) (info : ClusterInfo) (hi : i ≠ 0)
    (hp : passes g env c vol info) (hne : info.Name ≠ fn) :
    discoverClusters g env c i (vol :: post) fn fe acc =
      Except.error (Failure.status Code.FailedPrecondition
        ("all PVCs must belong to the same ETCD cluster: expected " ++ fn ++ ", got "
          ++ info.Name)) := by
  rw [discoverClusters]
  simp only [hp.1, hp.2, hi, if_false, hne, ne_eq, not_false_eq_true, if_true]

/-- The loop at a later volume with the first cluster name and another endpoint count. -/
theorem discoverClusters_count_mismatch (g : GroupControllerServer) (env : Env) (c : Cluster)
    (vol : volumeInfo) (post : List volumeInfo) (i : Nat) (fn : String) (fe : List String)
    (acc : List clusterInfo) (info : ClusterInfo) (hi : i ≠ 0)
    (hp : passes g env c vol info) (heq : info.Name = fn)
    (hne : info.Endpoints.length ≠ fe.length) :
    discoverClusters g env c i (vol :: post) fn fe acc =
      Except.error (Failure.status Code.FailedPrecondition
        "all PVCs must belong to the same ETCD cluster: endpoints differ") := by
  rw [discoverClusters]
  simp only [hp.1, hp.2, hi, if_false, heq, hne, ne_eq, not_true_eq_false, not_false_eq_true,
    if_true]

/-- The loop over volumes that all pass and agree with the first runs to its end. -/
theorem discoverClusters_all_pass (g : GroupControllerServer) (env : Env) (c : Cluster)
    (volumes : List volumeInfo) (infos : List ClusterInfo)
    (hpass : List.Forall₂ (passes g env c) volumes infos)
    (hag : ∀ first, infos.head? = some first → ∀ x, x ∈ infos → agrees first x) :
    discoverClusters g env c 0 volumes "" [] [] =
      Except.ok (entries 0 volumes infos, firstNameOf infos, firstEndpointsOf infos) := by
  have := discoverClusters_prefix g env c volumes infos [] hpass hag
  rw [List.append_nil] at this
  rw [this, discoverClusters]

/-- The PVC loop runs to its end when every volume is accepted, and then the conditions
of phases 1 to 3 are met. -/
theorem create_reaches_ensure (g : GroupControllerServer) (env : Env) (c : Cluster)
    (req : CreateVolumeGroupSnapshotRequest) (volumes : List volumeInfo)
    (firstCluster : clusterInfo) (more : List clusterInfo) (fn : String) (fe : List String)
    (hname : req.Name ≠ "") (hids : req.SourceVolumeIds ≠ [])
    (hparse : parseVolumes 0 req.SourceVolumeIds = Except.ok volumes)
    (hval : validatePVCs g env c 0 volumes = none)
    (hdisc : discoverClusters g env c 0 volumes "" [] [] =
      Except.ok (firstCluster :: more, fn, fe)) :
    (∀ e c1, g.snapshotPVCProvisioner.EnsureSnapshotPVC env c firstCluster.volumeInfo.namespace_
        = (Except.error e, c1) →
      g.CreateVolumeGroupSnapshot env c req =
        (Except.error (Failure.status Code.Internal
          ("failed to prepare snapshot storage: " ++ e.msg)), c1)) ∧
    (∀ pvcName c1 res e c2,
      g.snapshotPVCProvisioner.EnsureSnapshotPVC env c firstCluster.volumeInfo.namespace_
        = (Except.ok pvcName, c1) →
      ExecuteSnapshotJob env c1
          (GenerateSnapshotSaveJob (saveJobConfig g.cfg (snapshotIDOf env req) firstCluster pvcName))
          g.cfg.SnapshotTimeout = ((res, some e), c2) →
      g.CreateVolumeGroupSnapshot env c req =
        (Except.error (Failure.status Code.Internal
          ("snapshot creation failed: " ++ e.msg)), c2)) ∧
    (∀ pvcName c1 res c2 id0 ids,
      g.snapshotPVCProvisioner.EnsureSnapshotPVC env c firstCluster.volumeInfo.namespace_
        = (Except.ok pvcName, c1) →
      ExecuteSnapshotJob env c1
          (GenerateSnapshotSaveJob (saveJobConfig g.cfg (snapshotIDOf env req) firstCluster pvcName))
          g.cfg.SnapshotTimeout = ((res, none), c2) →
      req.SourceVolumeIds = id0 :: ids →
      ∃ c4 t0 t1, g.CreateVolumeGroupSnapshot env c req =
        (Except.ok
          { GroupSnapshot :=
              { GroupSnapshotId := req.Name ++ "-" ++ toString (env.now 0).Unix
                Snapshots :=
                  [ { SizeBytes := 0
                      SnapshotId := snapshotIDOf env req
                      SourceVolumeId := id0
                      CreationTime := t0
                      ReadyToUse := true
                      GroupSnapshotId := "" } ]
                CreationTime := t1
                ReadyToUse := true } }, c4)) := by
  have hlen : ¬ req.SourceVolumeIds.length = 0 := fun h0 => hids (List.length_eq_zero.mp h0)
  refine ⟨?_, ?_, ?_⟩
  · intro e c1 hens
    unfold GroupControllerServer.CreateVolumeGroupSnapshot
    simp only [hname, hlen, if_false, hparse, hval, hdisc, hens]
  · intro pvcName c1 res e c2 hens hjob
    unfold snapshotIDOf at hjob
    unfold GroupControllerServer.CreateVolumeGroupSnapshot
    simp only [hname, hlen, if_false, hparse, hval, hdisc, hens, hjob]
  · intro pvcName c1 res c2 id0 ids hens hjob hsrc
    unfold snapshotIDOf at hjob
    unfold GroupControllerServer.CreateVolumeGroupSnapshot
    simp only [hname, hlen, if_false, hparse, hval, hdisc, hens, hjob]
    simp only [hsrc, snapshotIDOf]
    exact ⟨_, _, _, rfl⟩

/-- Ticks that read neither a success nor a failure end in the context error. -/
theorem pollJob_unfinished (snapshotID : String) (ctxErr : ContextError)
    (polls : List (Except GoError JobStatus))
    (h : ∀ p, p ∈ polls → ∀ st, p = Except.ok st → ¬ st.Succeeded > 0 ∧ ¬ st.Failed > 0) :
    (pollJob snapshotID ctxErr polls).2 = some ctxErr.toError := by
  induction polls with
  | nil => simp [pollJob]
  | cons p rest ih =>
    have hrest := ih (fun q hq => h q (List.mem_cons_of_mem _ hq))
    cases p with
    | error e => simpa [pollJob] using hrest
    | ok st =>
      obtain ⟨h1, h2⟩ := h (Except.ok st) (List.mem_cons_self _ _) st rfl
      simp only [pollJob, h1, h2, if_false]
      exact hrest

/-- A Job that is accepted and does not finish before the deadline makes
`ExecuteSnapshotJob` return the context error. -/
theorem ExecuteSnapshotJob_unfinished (env : Env) (c : Cluster) (job : Job) (timeout : Int)
    (hfault : env.apiFault (ApiCall.createJob job.Namespace job.Name) = none)
    (h : ∀ p, p ∈ env.jobPolls job.Namespace job.Name → ∀ st, p = Except.ok st →
      ¬ st.Succeeded > 0 ∧ ¬ st.Failed > 0) :
    ∃ res c1, ExecuteSnapshotJob env c job timeout =
      ((res, some (env.ctxErr job.Namespace job.Name).toError), c1) := by
  have hpoll := pollJob_unfinished ((mapGet job.Labels "snapshot-id").getD "")
    (env.ctxErr job.Namespace job.Name) (env.jobPolls job.Namespace job.Name) h
  have hwait : (waitForJobCompletion env job).2 =
      some (env.ctxErr job.Namespace job.Name).toError := hpoll
  cases hw : waitForJobCompletion env job with
  | mk result oerr =>
    rw [hw] at hwait
    simp only at hwait
    subst hwait
    by_cases hany : c.jobs.any (fun j => decide (j.Namespace = job.Namespace ∧ j.Name = job.Name))
        = true
    · refine ⟨{ result with Duration := env.elapsed job.Namespace job.Name }, c, ?_⟩
      unfold ExecuteSnapshotJob Jobs.Create
      simp only [hfault]
      rw [if_pos hany]
      simp only [alreadyExists, if_true, hw]
    · refine ⟨{ result with Duration := env.elapsed job.Namespace job.Name },
        { c with jobs := c.jobs ++ [job] }, ?_⟩
      unfold ExecuteSnapshotJob Jobs.Create
      simp only [hfault]
      rw [if_neg hany]
      simp only [hw]

/-- C7: in a request that passes input and PVC validation the first failing step decides
the error.  With every earlier volume passing discovery and health validation and having
the cluster name and endpoint list of the first: a discovery error at volume `pre.length`
gives Internal naming that index, a health validation error there gives FailedPrecondition
naming that index.  With all volumes passing: a failure to ensure the snapshot PVC gives
Internal, an error of the save Job gives Internal, and so does a save Job that is accepted
and reports no outcome before the context is done (the context error, DeadlineExceeded on
timeout). -/
theorem CreateVolumeGroupSnapshot_error_kinds (g : GroupControllerServer) (env : Env)
    (c : Cluster) (req : CreateVolumeGroupSnapshotRequest) (volumes : List volumeInfo)
    (hname : req.Name ≠ "") (hids : req.SourceVolumeIds ≠ [])
    (hparse : parseVolumes 0 req.SourceVolumeIds = Except.ok volumes)
    (hpvc : ∀ v, v ∈ volumes → g.validatePVCForGroup env c v.namespace_ v.name = none) :
    (∀ (pre : List volumeInfo) (vol : volumeInfo) (post : List volumeInfo)
        (infos : List ClusterInfo) (e : GoError),
      volumes = pre ++ vol :: post → List.Forall₂ (passes g env c) pre infos →
      (∀ first, infos.head? = some first → ∀ x, x ∈ infos → sameCluster first x) →
      g.discovery.DiscoverCluster env c vol.namespace_ vol.name = Except.error e →
      g.CreateVolumeGroupSnapshot env c req =
        (Except.error (Failure.status Code.Internal
          ("ETCD discovery failed for volume " ++ toString pre.length ++ ": " ++ e.msg)), c)) ∧
    (∀ (pre : List volumeInfo) (vol : volumeInfo) (post : List volumeInfo)
        (infos : List ClusterInfo) (info : ClusterInfo) (e : GoError),
      volumes = pre ++ vol :: post → List.Forall₂ (passes g env c) pre infos →
      (∀ first, infos.head? = some first → ∀ x, x ∈ infos → sameCluster first x) →
      g.discovery.DiscoverCluster env c vol.namespace_ vol.name = Except.ok info →
      g.discovery.ValidateClusterHealth env info = Except.error (Throw.error e) →
      g.CreateVolumeGroupSnapshot env c req =
        (Except.error (Failure.status Code.FailedPrecondition
          ("ETCD cluster health validation failed for volume " ++ toString pre.length ++ ": "
            ++ e.msg)), c)) ∧
    (∀ (v0 : volumeInfo) (more : List volumeInfo) (first : ClusterInfo)
        (infos : List ClusterInfo),
      volumes = v0 :: more → List.Forall₂ (passes g env c) volumes (first :: infos) →
      (∀ x, x ∈ infos → sameCluster first x) →
      (∀ (e : GoError) (c1 : Cluster),
        g.snapshotPVCProvisioner.EnsureSnapshotPVC env c v0.namespace_ = (Except.error e, c1) →
        g.CreateVolumeGroupSnapshot env c req =
          (Except.error (Failure.status Code.Internal
            ("failed to prepare snapshot storage: " ++ e.msg)), c1)) ∧
      (∀ (pvcName : String) (c1 : Cluster) (res : JobResult) (e : GoError) (c2 : Cluster),
        g.snapshotPVCProvisioner.EnsureSnapshotPVC env c v0.namespace_
          = (Except.ok pvcName, c1) →
        ExecuteSnapshotJob env c1
            (GenerateSnapshotSaveJob (saveJobConfig g.cfg (snapshotIDOf env req)
              { index := 0, info := first, volumeInfo := v0 } pvcName))
            g.cfg.SnapshotTimeout = ((res, some e), c2) →
        g.CreateVolumeGroupSnapshot env c req =
          (Except.error (Failure.status Code.Internal
            ("snapshot creation failed: " ++ e.msg)), c2)) ∧
      (∀ (pvcName : String) (c1 : Cluster),
        g.snapshotPVCProvisioner.EnsureSnapshotPVC env c v0.namespace_
          = (Except.ok pvcName, c1) →
        env.apiFault (ApiCall.createJob v0.namespace_
          ("etcd-snapshot-save-" ++ snapshotIDOf env req)) = none →
        (∀ p, p ∈ env.jobPolls v0.namespace_ ("etcd-snapshot-save-" ++ snapshotIDOf env req) →
          ∀ st, p = Except.ok st → ¬ st.Succeeded > 0 ∧ ¬ st.Failed > 0) →
        (g.CreateVolumeGroupSnapshot env c req).1 =
          Except.error (Failure.status Code.Internal
            ("snapshot creation failed: " ++ (env.ctxErr v0.namespace_
              ("etcd-snapshot-save-" ++ snapshotIDOf env req)).toError.msg)))) := by
  have hval : validatePVCs g env c 0 volumes = none :=
    (validatePVCs_none_iff g env c volumes 0).mpr hpvc
  refine ⟨?_, ?_, ?_⟩
  · intro pre vol post infos e hsplit hpass hag he
    have h := discoverClusters_prefix g env c pre infos (vol :: post) hpass
      (fun f hf x hx => agrees_of_sameCluster f x (hag f hf x hx))
    rw [← hsplit, discoverClusters_discovery_error g env c vol post _ _ _ _ e he] at h
    exact create_discover_error g env c req volumes _ hname hids hparse hval h
  · intro pre vol post infos info e hsplit hpass hag hd hh
    have h := discoverClusters_prefix g env c pre infos (vol :: post) hpass
      (fun f hf x hx => agrees_of_sameCluster f x (hag f hf x hx))
    rw [← hsplit, discoverClusters_health_error g env c vol post _ _ _ _ info e hd hh] at h
    exact create_discover_error g env c req volumes _ hname hids hparse hval h
  · intro v0 more first infos hvol hpass hag
    have hag' : ∀ f, (first :: infos).head? = some f → ∀ x, x ∈ first :: infos → agrees f x := by
      intro f hf x hx
      simp only [List.head?_cons, Option.some.injEq] at hf
      subst hf
      rcases List.mem_cons.mp hx with rfl | hmem
      · exact ⟨rfl, rfl⟩
      · exact agrees_of_sameCluster _ x (hag x hmem)
    have hdisc := discoverClusters_all_pass g env c volumes (first :: infos) hpass hag'
    rw [hvol] at hdisc
    simp only [entries] at hdisc
    rw [← hvol] at hdisc
    obtain ⟨h1, h2, _⟩ := create_reaches_ensure g env c req volumes
      { index := 0, info := first, volumeInfo := v0 } _ _ _ hname hids hparse hval hdisc
    refine ⟨h1, h2, ?_⟩
    intro pvcName c1 hens hfault hpolls
    obtain ⟨res, c2, hjob⟩ := ExecuteSnapshotJob_unfinished env c1
      (GenerateSnapshotSaveJob (saveJobConfig g.cfg (snapshotIDOf env req)
        { index := 0, info := first, volumeInfo := v0 } pvcName)) g.cfg.SnapshotTimeout
      hfault hpolls
    rw [h2 pvcName c1 res _ c2 hens hjob]
    rfl

/-- C7 at scenario A with a save Job that reports no outcome before the deadline: the
call fails with Internal and the text of the deadline error. -/
theorem CreateVolumeGroupSnapshot_error_kinds_witness :
    requestOne.Name ≠ "" ∧ requestOne.SourceVolumeIds ≠ [] ∧
    parseVolumes 0 requestOne.SourceVolumeIds = Except.ok [volumeOne] ∧
    (∀ v, v ∈ [volumeOne] →
      sampleServer.validatePVCForGroup timeoutEnv clusterOne v.namespace_ v.name = none) ∧
    (sampleServer.CreateVolumeGroupSnapshot timeoutEnv clusterOne requestOne).1 =
      Except.error (Failure.status Code.Internal
        "snapshot creation failed: context deadline exceeded") := by
  have hpvc : ∀ v, v ∈ [volumeOne] →
      sampleServer.validatePVCForGroup timeoutEnv clusterOne v.namespace_ v.name = none := by
    intro v hv
    rw [List.mem_singleton] at hv
    subst hv
    decide
  refine ⟨by decide, by decide, by decide, hpvc, ?_⟩
  exact ((CreateVolumeGroupSnapshot_error_kinds sampleServer timeoutEnv clusterOne requestOne
    [volumeOne] (by decide) (by decide) (by decide) hpvc).2.2 volumeOne [] infoOne [] rfl
      (List.Forall₂.cons ⟨by decide, by decide⟩ List.Forall₂.nil)
      (fun x hx => absurd hx (List.not_mem_nil x))).2.2 "etcd-snapshots"
        (sampleServer.snapshotPVCProvisioner.EnsureSnapshotPVC timeoutEnv clusterOne "ns1").2
        (by decide) rfl (fun p hp => absurd hp (List.not_mem_nil p))

/-! ## CreateVolumeGroupSnapshot: success -/

/-- C8: when the request passes validation, every volume passes discovery and health
validation and has the cluster name and endpoint list of the first, the snapshot PVC is
ensured and the save Job ends without error, the call returns a group snapshot with
exactly one snapshot, both ready to use, whose source volume is the first source volume ID
of the request.  Nothing is assumed about the two metadata stores, so this holds also when
they fail. -/
theorem CreateVolumeGroupSnapshot_success (g : GroupControllerServer) (env : Env)
    (c : Cluster) (req : CreateVolumeGroupSnapshotRequest) (volumes : List volumeInfo)
    (v0 : volumeInfo) (more : List volumeInfo) (first : ClusterInfo)
    (infos : List ClusterInfo) (pvcName : String) (c1 : Cluster) (res : JobResult)
    (c2 : Cluster)
    (hname : req.Name ≠ "") (hids : req.SourceVolumeIds ≠ [])
    (hparse : parseVolumes 0 req.SourceVolumeIds = Except.ok volumes)
    (hpvc : ∀ v, v ∈ volumes → g.validatePVCForGroup env c v.namespace_ v.name = none)
    (hvol : volumes = v0 :: more)
    (hpass : List.Forall₂ (passes g env c) volumes (first :: infos))
    (hag : ∀ x, x ∈ infos → sameCluster first x)
    (hens : g.snapshotPVCProvisioner.EnsureSnapshotPVC env c v0.namespace_
      = (Except.ok pvcName, c1))
    (hjob : ExecuteSnapshotJob env c1
      (GenerateSnapshotSaveJob (saveJobConfig g.cfg (snapshotIDOf env req)
        { index := 0, info := first, volumeInfo := v0 } pvcName))
      g.cfg.SnapshotTimeout = ((res, none), c2)) :
    ∃ resp snap, (g.CreateVolumeGroupSnapshot env c req).1 = Except.ok resp ∧
      resp.GroupSnapshot.Snapshots = [snap] ∧ snap.ReadyToUse = true ∧
      resp.GroupSnapshot.ReadyToUse = true ∧
      req.SourceVolumeIds.head? = some snap.SourceVolumeId := by
  have hval : validatePVCs g env c 0 volumes = none :=
    (validatePVCs_none_iff g env c volumes 0).mpr hpvc
  have hag' : ∀ f, (first :: infos).head? = some f → ∀ x, x ∈ first :: infos → agrees f x := by
    intro f hf x hx
    simp only [List.head?_cons, Option.some.injEq] at hf
    subst hf
    rcases List.mem_cons.mp hx with rfl | hmem
    · exact ⟨rfl, rfl⟩
    · exact agrees_of_sameCluster _ x (hag x hmem)
  have hdisc := discoverClusters_all_pass g env c volumes (first :: infos) hpass hag'
  rw [hvol] at hdisc
  simp only [entries] at hdisc
  rw [← hvol] at hdisc
  obtain ⟨id0, ids, hsrc⟩ := List.exists_cons_of_ne_nil hids
  obtain ⟨c4, t0, t1, hres⟩ := (create_reaches_ensure g env c req volumes
    { index := 0, info := first, volumeInfo := v0 } _ _ _ hname hids hparse hval hdisc).2.2
    pvcName c1 res c2 id0 ids hens hjob hsrc
  rw [hres]
  exact ⟨_, _, rfl, rfl, rfl, rfl, by rw [hsrc]; rfl⟩

set_option maxRecDepth 100000 in
/-- C8 at scenario A with an API server that refuses every ConfigMap write: the call
succeeds and leaves no metadata document behind. -/
theorem CreateVolumeGroupSnapshot_success_witness :
    (requestOne.Name ≠ "" ∧ requestOne.SourceVolumeIds ≠ [] ∧
      parseVolumes 0 requestOne.SourceVolumeIds = Except.ok [volumeOne]) ∧
    (sampleServer.CreateVolumeGroupSnapshot storeFailEnv clusterOne requestOne).2.configMaps = [] ∧
    ∃ resp snap,
      (sampleServer.CreateVolumeGroupSnapshot storeFailEnv clusterOne requestOne).1
        = Except.ok resp ∧
      resp.GroupSnapshot.Snapshots = [snap] ∧ snap.ReadyToUse = true ∧
      resp.GroupSnapshot.ReadyToUse = true ∧
      requestOne.SourceVolumeIds.head? = some snap.SourceVolumeId := by
  refine ⟨⟨by decide, by decide, by decide⟩, by decide, ?_⟩
  exact CreateVolumeGroupSnapshot_success sampleServer storeFailEnv clusterOne requestOne
    [volumeOne] volumeOne [] infoOne [] "etcd-snapshots"
    (sampleServer.snapshotPVCProvisioner.EnsureSnapshotPVC storeFailEnv clusterOne "ns1").2
    (ExecuteSnapshotJob storeFailEnv
      (sampleServer.snapshotPVCProvisioner.EnsureSnapshotPVC storeFailEnv clusterOne "ns1").2
      (GenerateSnapshotSaveJob (saveJobConfig sampleServer.cfg
        (snapshotIDOf storeFailEnv requestOne)
        { index := 0, info := infoOne, volumeInfo := volumeOne } "etcd-snapshots"))
      sampleServer.cfg.SnapshotTimeout).1.1
    (ExecuteSnapshotJob storeFailEnv
      (sampleServer.snapshotPVCProvisioner.EnsureSnapshotPVC storeFailEnv clusterOne "ns1").2
      (GenerateSnapshotSaveJob (saveJobConfig sampleServer.cfg
        (snapshotIDOf storeFailEnv requestOne)
        { index := 0, info := infoOne, volumeInfo := volumeOne } "etcd-snapshots"))
      sampleServer.cfg.SnapshotTimeout).2
    (by decide) (by decide) (by decide)
    (by
      intro v hv
      rw [List.mem_singleton] at hv
      subst hv
      decide)
    rfl (List.Forall₂.cons ⟨by decide, by decide⟩ List.Forall₂.nil)
    (fun x hx => absurd hx (List.not_mem_nil x)) (by decide) (by decide)

/-! ## CreateVolumeGroupSnapshot: no effect of an early failure; DeleteVolumeGroupSnapshot -/

/-- A result with the code `InvalidArgument` or `FailedPrecondition` comes with the
cluster as it was. -/
theorem create_early_code_frame (g : GroupControllerServer) (env : Env) (c : Cluster)
    (req : CreateVolumeGroupSnapshotRequest) (code : Code) (msg : String)
    (h : (g.CreateVolumeGroupSnapshot env c req).1 = Except.error (Failure.status code msg))
    (hcode : code = Code.InvalidArgument ∨ code = Code.FailedPrecondition) :
    (g.CreateVolumeGroupSnapshot env c req).2 = c := by
  by_cases hname : req.Name = ""
  · rw [create_name_empty g env c req hname]
  by_cases hids : req.SourceVolumeIds = []
  · rw [create_sources_empty g env c req hname hids]
  cases hparse : parseVolumes 0 req.SourceVolumeIds with
  | error f => rw [create_parse_error g env c req f hname hids hparse]
  | ok volumes =>
    cases hval : validatePVCs g env c 0 volumes with
    | some f => rw [create_validate_error g env c req volumes f hname hids hparse hval]
    | none =>
      cases hdisc : discoverClusters g env c 0 volumes "" [] [] with
      | error f => rw [create_discover_error g env c req volumes f hname hids hparse hval hdisc]
      | ok r =>
        exfalso
        rcases create_late_phases g env c req volumes r hname hids hparse hval hdisc with
          ⟨m, hm⟩ | ⟨m, hm⟩ | ⟨m, hm⟩
        · rw [hm] at h
          simp only [Except.error.injEq, Failure.status.injEq] at h
          rcases hcode with hc | hc <;> rw [hc] at h <;> exact absurd h.1 (by decide)
        · rw [hm] at h
          simp at h
        · rw [hm] at h
          simp at h

/-- C9: a call that fails in input validation, PVC validation, discovery, health
validation or the consistency check (phase 1, or one of the three loops) returns that
failure and leaves the cluster as it was: no PVC, Job or ConfigMap is created or updated.
In particular every InvalidArgument and every FailedPrecondition result comes with the
cluster unchanged. -/
theorem CreateVolumeGroupSnapshot_early_failure_no_effect (g : GroupControllerServer)
    (env : Env) (c : Cluster) (req : CreateVolumeGroupSnapshotRequest) :
    ((req.Name = "" ∨ req.SourceVolumeIds = [] ∨
        (∃ f, parseVolumes 0 req.SourceVolumeIds = Except.error f) ∨
        (∃ volumes, parseVolumes 0 req.SourceVolumeIds = Except.ok volumes ∧
          ((∃ f, validatePVCs g env c 0 volumes = some f) ∨
            (∃ f, discoverClusters g env c 0 volumes "" [] [] = Except.error f)))) →
      (∃ f, (g.CreateVolumeGroupSnapshot env c req).1 = Except.error f) ∧
      (g.CreateVolumeGroupSnapshot env c req).2 = c) ∧
    (∀ (code : Code) (msg : String),
      (g.CreateVolumeGroupSnapshot env c req).1 = Except.error (Failure.status code msg) →
      code = Code.InvalidArgument ∨ code = Code.FailedPrecondition →
      (g.CreateVolumeGroupSnapshot env c req).2 = c ∧
      (g.CreateVolumeGroupSnapshot env c req).2.pvcs = c.pvcs ∧
      (g.CreateVolumeGroupSnapshot env c req).2.jobs = c.jobs ∧
      (g.CreateVolumeGroupSnapshot env c req).2.configMaps = c.configMaps) := by
  constructor
  · intro h
    by_cases hname : req.Name = ""
    · rw [create_name_empty g env c req hname]
      exact ⟨⟨_, rfl⟩, rfl⟩
    by_cases hids : req.SourceVolumeIds = []
    · rw [create_sources_empty g env c req hname hids]
      exact ⟨⟨_, rfl⟩, rfl⟩
    rcases h with h | h | ⟨f, hf⟩ | ⟨volumes, hparse, hloop⟩
    · exact absurd h hname
    · exact absurd h hids
    · rw [create_parse_error g env c req f hname hids hf]
      exact ⟨⟨_, rfl⟩, rfl⟩
    · cases hval : validatePVCs g env c 0 volumes with
      | some f =>
        rw [create_validate_error g env c req volumes f hname hids hparse hval]
        exact ⟨⟨_, rfl⟩, rfl⟩
      | none =>
        rcases hloop with ⟨f, hf⟩ | ⟨f, hf⟩
        · rw [hval] at hf
          cases hf
        · rw [create_discover_error g env c req volumes f hname hids hparse hval hf]
          exact ⟨⟨_, rfl⟩, rfl⟩
  · intro code msg h hcode
    have := create_early_code_frame g env c req code msg h hcode
    rw [this]
    exact ⟨rfl, rfl, rfl, rfl⟩

/-- C10: for a non-empty group snapshot ID, DeleteVolumeGroupSnapshot returns the empty
response without error in every environment and cluster state, and so does a second call
on the state that the first one leaves behind. -/
theorem DeleteVolumeGroupSnapshot_always_succeeds (g : GroupControllerServer) (env : Env)
    (c : Cluster) (id : String) (hid : id ≠ "") :
    (g.DeleteVolumeGroupSnapshot env c { GroupSnapshotId := id }).1 = Except.ok {} ∧
    ∀ (g' : GroupControllerServer) (env' : Env),
      (g'.DeleteVolumeGroupSnapshot env'
        (g.DeleteVolumeGroupSnapshot env c { GroupSnapshotId := id }).2
        { GroupSnapshotId := id }).1 = Except.ok {} := by
  have key : ∀ (g0 : GroupControllerServer) (env0 : Env) (c0 : Cluster),
      (g0.DeleteVolumeGroupSnapshot env0 c0 { GroupSnapshotId := id }).1 = Except.ok {} := by
    intro g0 env0 c0
    unfold GroupControllerServer.DeleteVolumeGroupSnapshot
    simp only [hid, if_false]
    split <;> rfl
  exact ⟨key g env c, fun g' env' => key g' env' _⟩

set_option maxRecDepth 100000 in
/-- C10 at the group snapshot that scenario A stored: the record is there, the first
Delete succeeds, and the second Delete on the state it leaves behind succeeds too. -/
theorem DeleteVolumeGroupSnapshot_always_succeeds_witness :
    "daily-1700000000" ≠ "" ∧
    sampleServer.snapshotManager.RetrieveGroupSnapshotMetadata sampleEnv storedCluster
      "daily-1700000000" = Except.ok sampleGroupRecord ∧
    (sampleServer.DeleteVolumeGroupSnapshot sampleEnv storedCluster
      { GroupSnapshotId := "daily-1700000000" }).1 = Except.ok {} ∧
    (sampleServer.DeleteVolumeGroupSnapshot sampleEnv
      (sampleServer.DeleteVolumeGroupSnapshot sampleEnv storedCluster
        { GroupSnapshotId := "daily-1700000000" }).2
      { GroupSnapshotId := "daily-1700000000" }).1 = Except.ok {} :=
  ⟨by decide, by decide,
    (DeleteVolumeGroupSnapshot_always_succeeds sampleServer sampleEnv storedCluster
      "daily-1700000000" (by decide)).1,
    (DeleteVolumeGroupSnapshot_always_succeeds sampleServer sampleEnv storedCluster
      "daily-1700000000" (by decide)).2 sampleServer sampleEnv⟩

/-! ## CreateVolumeGroupSnapshot: the consistency check -/

set_option maxRecDepth 100000 in
/-- C1 on two volumes whose clusters have the same name and one endpoint each, in two
namespaces: both volumes pass PVC validation, discovery and health validation, the two
endpoint lists differ, and the call returns a response, not FailedPrecondition. -/
theorem CreateVolumeGroupSnapshot_accepts_differing_endpoints :
    parseVolumes 0 requestTwoNamespaces.SourceVolumeIds = Except.ok [volumeOne, volumeOther] ∧
    sampleServer.validatePVCForGroup sampleEnv clusterTwoNamespaces "ns1" "pvc-a" = none ∧
    sampleServer.validatePVCForGroup sampleEnv clusterTwoNamespaces "ns2" "pvc-b" = none ∧
    passes sampleServer sampleEnv clusterTwoNamespaces volumeOne infoOne ∧
    passes sampleServer sampleEnv clusterTwoNamespaces volumeOther infoOther ∧
    infoOther.Name = infoOne.Name ∧
    infoOther.Endpoints.length = infoOne.Endpoints.length ∧
    infoOther.Endpoints ≠ infoOne.Endpoints ∧
    (sampleServer.CreateVolumeGroupSnapshot sampleEnv clusterTwoNamespaces
      requestTwoNamespaces).1 =
      Except.ok
        { GroupSnapshot :=
            { GroupSnapshotId := "daily-1700000000"
              Snapshots :=
                [ { SizeBytes := 0
                    SnapshotId := "daily-1700000000-1700000000"
                    SourceVolumeId := "ns1/pvc-a"
                    CreationTime := { sec := 1700000000, nsec := 0 }
                    ReadyToUse := true
                    GroupSnapshotId := "" } ]
              CreationTime := { sec := 1700000000, nsec := 0 }
              ReadyToUse := true } } :=
  ⟨by decide, by decide, by decide, ⟨by decide, by decide⟩, ⟨by decide, by decide⟩, by decide,
    by decide, by decide, by decide⟩

set_option maxRecDepth 100000 in
/-- C2 as stated fails on three volumes: all pass PVC validation, discovery and health
validation, the cluster name of volume 2 differs from that of volume 0, but volume 1 (same
name, another endpoint count) stops the call first, and its message names no cluster. -/
theorem CreateVolumeGroupSnapshot_name_mismatch_counterexample :
    parseVolumes 0 requestThree.SourceVolumeIds
      = Except.ok [volumeOne, volumeOther, volumeThird] ∧
    sampleServer.validatePVCForGroup sampleEnv clusterThree "ns1" "pvc-a" = none ∧
    sampleServer.validatePVCForGroup sampleEnv clusterThree "ns2" "pvc-b" = none ∧
    sampleServer.validatePVCForGroup sampleEnv clusterThree "ns1" "pvc-c" = none ∧
    passes sampleServer sampleEnv clusterThree volumeOne infoOne ∧
    passes sampleServer sampleEnv clusterThree volumeOther infoOtherTwoPods ∧
    passes sampleServer sampleEnv clusterThree volumeThird infoThird ∧
    infoThird.Name ≠ infoOne.Name ∧
    (sampleServer.CreateVolumeGroupSnapshot sampleEnv clusterThree requestThree).1 =
      Except.error (Failure.status Code.FailedPrecondition
        "all PVCs must belong to the same ETCD cluster: endpoints differ") ∧
    ¬ Contains "all PVCs must belong to the same ETCD cluster: endpoints differ" infoOne.Name ∧
    ¬ Contains "all PVCs must belong to the same ETCD cluster: endpoints differ" infoThird.Name :=
  ⟨by decide, by decide, by decide, by decide, ⟨by decide, by decide⟩, ⟨by decide, by decide⟩,
    ⟨by decide, by decide⟩, by decide, by decide, by decide, by decide⟩

/-- Two related lists split at the first element of the second that fails a predicate. -/
theorem forall₂_lowest_failing {α β : Type} (R : α → β → Prop) (P : β → Prop)
    (xs : List α) (ys : List β) (h : List.Forall₂ R xs ys) (hex : ∃ y, y ∈ ys ∧ ¬ P y) :
    ∃ (preX : List α) (x : α) (postX : List α) (preY : List β) (y : β) (postY : List β),
      xs = preX ++ x :: postX ∧ ys = preY ++ y :: postY ∧ List.Forall₂ R preX preY ∧
      R x y ∧ ¬ P y ∧ ∀ z, z ∈ preY → P z := by
  induction h with
  | nil =>
    obtain ⟨y, hy, _⟩ := hex
    exact absurd hy (List.not_mem_nil y)
  | @cons a b as bs hab htail ih =>
    by_cases hb : P b
    · have hex' : ∃ y, y ∈ bs ∧ ¬ P y := by
        obtain ⟨y, hy, hpy⟩ := hex
        rcases List.mem_cons.mp hy with rfl | hmem
        · exact absurd hb hpy
        · exact ⟨y, hmem, hpy⟩
      obtain ⟨preX, x, postX, preY, y, postY, h1, h2, h3, h4, h5, h6⟩ := ih hex'
      refine ⟨a :: preX, x, postX, b :: preY, y, postY, by rw [h1]; rfl, by rw [h2]; rfl,
        List.Forall₂.cons hab h3, h4, h5, ?_⟩
      intro z hz
      rcases List.mem_cons.mp hz with rfl | hmem
      · exact hb
      · exact h6 z hmem
    · exact ⟨[], a, as, [], b, bs, rfl, rfl, List.Forall₂.nil, hab, hb,
        fun z hz => absurd hz (List.not_mem_nil z)⟩

/-- The second of four concatenated parts is contained in the whole. -/
theorem contains_second (a b c d : String) : Contains (a ++ b ++ c ++ d) b := by
  unfold Contains
  exact ⟨a.data, c.data ++ d.data, by simp [String.data_append]⟩

/-- The last part of a concatenation is contained in it. -/
theorem contains_last (a b : String) : Contains (a ++ b) b := by
  unfold Contains
  exact ⟨a.data, [], by simp [String.data_append]⟩

/-- The call at a later volume that passes and whose cluster name differs, after volumes
that pass and agree with the first. -/
theorem create_name_mismatch_at (g : GroupControllerServer) (env : Env) (c : Cluster)
    (req : CreateVolumeGroupSnapshotRequest) (volumes : List volumeInfo) (v0 : volumeInfo)
    (first : ClusterInfo) (pre : List volumeInfo) (vol : volumeInfo) (post : List volumeInfo)
    (preInfos : List ClusterInfo) (info : ClusterInfo)
    (hname : req.Name ≠ "") (hids : req.SourceVolumeIds ≠ [])
    (hparse : parseVolumes 0 req.SourceVolumeIds = Except.ok volumes)
    (hval : validatePVCs g env c 0 volumes = none)
    (hvol : volumes = v0 :: (pre ++ vol :: post)) (h0 : passes g env c v0 first)
    (hpre : List.Forall₂ (passes g env c) pre preInfos)
    (hag : ∀ x, x ∈ preInfos → agrees first x) (hp : passes g env c vol info) :
    (info.Name ≠ first.Name →
      g.CreateVolumeGroupSnapshot env c req =
        (Except.error (Failure.status Code.FailedPrecondition
          ("all PVCs must belong to the same ETCD cluster: expected " ++ first.Name ++ ", got "
            ++ info.Name)), c)) ∧
    (info.Name = first.Name → info.Endpoints.length ≠ first.Endpoints.length →
      g.CreateVolumeGroupSnapshot env c req =
        (Except.error (Failure.status Code.FailedPrecondition
          "all PVCs must belong to the same ETCD cluster: endpoints differ"), c)) := by
  have hag' : ∀ f, (first :: preInfos).head? = some f →
      ∀ x, x ∈ first :: preInfos → agrees f x := by
    intro f hf x hx
    simp only [List.head?_cons, Option.some.injEq] at hf
    subst hf
    rcases List.mem_cons.mp hx with rfl | hmem
    · exact ⟨rfl, rfl⟩
    · exact hag x hmem
  have hprefix := discoverClusters_prefix g env c (v0 :: pre) (first :: preInfos) (vol :: post)
    (List.Forall₂.cons h0 hpre) hag'
  rw [List.cons_append, ← hvol] at hprefix
  simp only [firstNameOf, firstEndpointsOf, List.length_cons] at hprefix
  constructor
  · intro hne
    rw [discoverClusters_name_mismatch g env c vol post _ _ _ _ info (Nat.succ_ne_zero _) hp hne]
      at hprefix
    exact create_discover_error g env c req volumes _ hname hids hparse hval hprefix
  · intro heq hlen
    rw [discoverClusters_count_mismatch g env c vol post _ _ _ _ info (Nat.succ_ne_zero _) hp heq
      hlen] at hprefix
    exact create_discover_error g env c req volumes _ hname hids hparse hval hprefix

/-- C2, amended: in a request whose volumes all pass PVC validation, discovery and health
validation, if the cluster name of some later volume differs from that of volume 0, the
call fails with FailedPrecondition and leaves the cluster as it was (no Job is submitted);
and when the volumes before the differing one have the cluster name and endpoint list of
the first, the message names both clusters, the first one and the differing one. -/
theorem CreateVolumeGroupSnapshot_cluster_name_mismatch (g : GroupControllerServer)
    (env : Env) (c : Cluster) (req : CreateVolumeGroupSnapshotRequest)
    (volumes : List volumeInfo) (v0 : volumeInfo) (more : List volumeInfo)
    (first : ClusterInfo) (infos : List ClusterInfo)
    (hname : req.Name ≠ "") (hids : req.SourceVolumeIds ≠ [])
    (hparse : parseVolumes 0 req.SourceVolumeIds = Except.ok volumes)
    (hpvc : ∀ v, v ∈ volumes → g.validatePVCForGroup env c v.namespace_ v.name = none)
    (hvol : volumes = v0 :: more)
    (hpass : List.Forall₂ (passes g env c) volumes (first :: infos))
    (hdiff : ∃ x, x ∈ infos ∧ x.Name ≠ first.Name) :
    (∃ msg, g.CreateVolumeGroupSnapshot env c req =
      (Except.error (Failure.status Code.FailedPrecondition msg), c)) ∧
    (∀ (pre : List volumeInfo) (vol : volumeInfo) (post : List volumeInfo)
        (preInfos : List ClusterInfo) (info : ClusterInfo),
      more = pre ++ vol :: post → List.Forall₂ (passes g env c) pre preInfos →
      (∀ x, x ∈ preInfos → sameCluster first x) → passes g env c vol info →
      info.Name ≠ first.Name →
      g.CreateVolumeGroupSnapshot env c req =
        (Except.error (Failure.status Code.FailedPrecondition
          ("all PVCs must belong to the same ETCD cluster: expected " ++ first.Name ++ ", got "
            ++ info.Name)), c) ∧
      Contains ("all PVCs must belong to the same ETCD cluster: expected " ++ first.Name
        ++ ", got " ++ info.Name) first.Name ∧
      Contains ("all PVCs must belong to the same ETCD cluster: expected " ++ first.Name
        ++ ", got " ++ info.Name) info.Name) := by
  have hval : validatePVCs g env c 0 volumes = none :=
    (validatePVCs_none_iff g env c volumes 0).mpr hpvc
  rw [hvol] at hpass
  obtain ⟨h0, htail⟩ := List.forall₂_cons.mp hpass
  constructor
  · have hex : ∃ y, y ∈ infos ∧ ¬ agrees first y := by
      obtain ⟨x, hx, hne⟩ := hdiff
      exact ⟨x, hx, fun hagx => hne hagx.1⟩
    obtain ⟨pre, vol, post, preInfos, info, _, hsplit, _, hpre, hp, hnot, hag⟩ :=
      forall₂_lowest_failing (passes g env c) (agrees first) more infos htail hex
    have hat := create_name_mismatch_at g env c req volumes v0 first pre vol post preInfos info
      hname hids hparse hval (by rw [hvol, hsplit]) h0 hpre hag hp
    by_cases hn : info.Name = first.Name
    · have hlen : info.Endpoints.length ≠ first.Endpoints.length := fun hl => hnot ⟨hn, hl⟩
      exact ⟨_, hat.2 hn hlen⟩
    · exact ⟨_, hat.1 hn⟩
  · intro pre vol post preInfos info hsplit hpre hag hp hne
    have hat := create_name_mismatch_at g env c req volumes v0 first pre vol post preInfos info
      hname hids hparse hval (by rw [hvol, hsplit]) h0 hpre
      (fun x hx => agrees_of_sameCluster first x (hag x hx)) hp
    exact ⟨hat.1 hne, contains_second _ _ _ _, contains_last _ _⟩

set_option maxRecDepth 100000 in
/-- C2, amended, at scenario C: two volumes of `cluster-x` and `cluster-y`; the message
names both and the cluster is unchanged. -/
theorem CreateVolumeGroupSnapshot_cluster_name_mismatch_witness :
    (requestMixed.Name ≠ "" ∧ requestMixed.SourceVolumeIds ≠ [] ∧
      parseVolumes 0 requestMixed.SourceVolumeIds = Except.ok [volumeOne, volumeThird] ∧
      passes sampleServer sampleEnv clusterThree volumeOne infoOne ∧
      passes sampleServer sampleEnv clusterThree volumeThird infoThird ∧
      infoThird.Name ≠ infoOne.Name) ∧
    sampleServer.CreateVolumeGroupSnapshot sampleEnv clusterThree requestMixed =
      (Except.error (Failure.status Code.FailedPrecondition
        "all PVCs must belong to the same ETCD cluster: expected cluster-x, got cluster-y"),
        clusterThree) := by
  have h1 : passes sampleServer sampleEnv clusterThree volumeOne infoOne :=
    ⟨by decide, by decide⟩
  have h2 : passes sampleServer sampleEnv clusterThree volumeThird infoThird :=
    ⟨by decide, by decide⟩
  have hpvc : ∀ v, v ∈ [volumeOne, volumeThird] →
      sampleServer.validatePVCForGroup sampleEnv clusterThree v.namespace_ v.name = none := by
    intro v hv
    rcases List.mem_cons.mp hv with rfl | hv
    · decide
    · rw [List.mem_singleton] at hv
      subst hv
      decide
  refine ⟨⟨by decide, by decide, by decide, h1, h2, by decide⟩, ?_⟩
  exact ((CreateVolumeGroupSnapshot_cluster_name_mismatch sampleServer sampleEnv clusterThree
    requestMixed [volumeOne, volumeThird] volumeOne [volumeThird] infoOne [infoThird]
    (by decide) (by decide) (by decide) hpvc rfl
    (List.Forall₂.cons h1 (List.Forall₂.cons h2 List.Forall₂.nil))
    ⟨infoThird, List.mem_singleton.mpr rfl, by decide⟩).2 [] volumeThird [] [] infoThird rfl
      List.Forall₂.nil (fun x hx => absurd hx (List.not_mem_nil x)) h2 (by decide)).1

/-! ## The ConfigMap documents -/

/-- A deleted key reads as absent. -/
theorem mapGet_mapDelete_self (m : List (String × String)) (k : String) :
    mapGet (mapDelete m k) k = none := by
  induction m with
  | nil => rfl
  | cons kv rest ih =>
    obtain ⟨k0, v0⟩ := kv
    unfold mapDelete at ih ⊢
    by_cases h : k0 = k
    · simp only [List.filter, h, ne_eq, not_true_eq_false, decide_False]
      exact ih
    · simp only [List.filter, h, ne_eq, not_false_eq_true, decide_True, mapGet, if_false]
      exact ih

/-- Deleting a key leaves the other keys as they were. -/
theorem mapGet_mapDelete_ne (m : List (String × String)) (k k' : String) (h : k' ≠ k) :
    mapGet (mapDelete m k) k' = mapGet m k' := by
  induction m with
  | nil => rfl
  | cons kv rest ih =>
    obtain ⟨k0, v0⟩ := kv
    unfold mapDelete at ih ⊢
    by_cases h0 : k0 = k
    · have hne : ¬ k0 = k' := fun h1 => h (h1.symm.trans h0)
      simp only [List.filter, h0, ne_eq, not_true_eq_false, decide_False, mapGet]
      rw [if_neg (by rw [← h0]; exact hne)]
      exact ih
    · simp only [List.filter, h0, ne_eq, not_false_eq_true, decide_True, mapGet]
      by_cases h1 : k0 = k'
      · simp only [h1, if_true]
      · simp only [h1, if_false]
        exact ih

/-- An assigned key reads as the assigned value. -/
theorem mapGet_mapSet_self (m : List (String × String)) (k v : String) :
    mapGet (mapSet m k v) k = some v := by
  simp [mapSet, mapGet]

/-- Assigning a key leaves the other keys as they were. -/
theorem mapGet_mapSet_ne (m : List (String × String)) (k v k' : String) (h : k' ≠ k) :
    mapGet (mapSet m k v) k' = mapGet m k' := by
  unfold mapSet
  simp only [mapGet]
  rw [if_neg (fun h1 => h h1.symm)]
  exact mapGet_mapDelete_ne m k k' h

/-- What a successful Get tells: the request was not refused and the cluster holds the
document under the name. -/
theorem configMapsGet_ok (env : Env) (c : Cluster) (ns name : String) (cm : ConfigMap)
    (h : ConfigMaps.Get env c ns name = Except.ok cm) :
    env.apiFault (ApiCall.getConfigMap ns name) = none ∧
    c.configMaps.find? (fun m => decide (m.Namespace = ns ∧ m.Name = name)) = some cm ∧
    cm.Namespace = ns ∧ cm.Name = name := by
  unfold ConfigMaps.Get at h
  cases hf : env.apiFault (ApiCall.getConfigMap ns name) with
  | some e => rw [hf] at h; cases h
  | none =>
    rw [hf] at h
    simp only at h
    cases hfind : c.configMaps.find? (fun m => decide (m.Namespace = ns ∧ m.Name = name)) with
    | none => rw [hfind] at h; cases h
    | some m =>
      rw [hfind] at h
      simp only [Except.ok.injEq] at h
      subst h
      have := List.find?_some hfind
      simp only [decide_eq_true_eq] at this
      exact ⟨rfl, rfl, this.1, this.2⟩

/-- A Get reads nothing but the ConfigMaps. -/
theorem configMapsGet_congr (env : Env) (c c' : Cluster) (ns name : String)
    (h : c'.configMaps = c.configMaps) :
    ConfigMaps.Get env c' ns name = ConfigMaps.Get env c ns name := by
  unfold ConfigMaps.Get
  rw [h]

/-- Replacing the documents of a name by one of that name: the lookup of the name. -/
theorem find?_replace_same (l : List ConfigMap) (ns name : String) (cm' : ConfigMap)
    (h' : cm'.Namespace = ns ∧ cm'.Name = name) :
    (l.map (fun m => if m.Namespace = ns ∧ m.Name = name then cm' else m)).find?
        (fun m => decide (m.Namespace = ns ∧ m.Name = name)) =
      (l.find? (fun m => decide (m.Namespace = ns ∧ m.Name = name))).map (fun _ => cm') := by
  induction l with
  | nil => rfl
  | cons x rest ih =>
    by_cases hx : x.Namespace = ns ∧ x.Name = name
    · simp [List.find?, hx, h']
    · simp only [List.map, hx, if_false, List.find?, decide_False]
      exact ih

/-- Replacing the documents of a name: the lookup of another name. -/
theorem find?_replace_other (l : List ConfigMap) (ns name : String) (cm' : ConfigMap)
    (ns' name' : String) (hcm : cm'.Name = name) (h : name' ≠ name) :
    (l.map (fun m => if m.Namespace = ns ∧ m.Name = name then cm' else m)).find?
        (fun m => decide (m.Namespace = ns' ∧ m.Name = name')) =
      l.find? (fun m => decide (m.Namespace = ns' ∧ m.Name = name')) := by
  induction l with
  | nil => rfl
  | cons x rest ih =>
    by_cases hx : x.Namespace = ns ∧ x.Name = name
    · have h1 : ¬ (cm'.Namespace = ns' ∧ cm'.Name = name') := fun hc => h (hc.2.symm.trans hcm)
      have h2 : ¬ (x.Namespace = ns' ∧ x.Name = name') := fun hc => h (hc.2.symm.trans hx.2)
      rw [List.map_cons, if_pos hx, List.find?_cons_of_neg _ (by simpa using h1),
        List.find?_cons_of_neg _ (by simpa using h2)]
      exact ih
    · rw [List.map_cons, if_neg hx]
      by_cases hq : x.Namespace = ns' ∧ x.Name = name'
      · rw [List.find?_cons_of_pos _ (by simpa using hq),
          List.find?_cons_of_pos _ (by simpa using hq)]
      · rw [List.find?_cons_of_neg _ (by simpa using hq),
          List.find?_cons_of_neg _ (by simpa using hq)]
        exact ih

/-- An Update that is not refused, of the document that a Get returned with new data. -/
theorem configMapsUpdate_accepted (env : Env) (c : Cluster) (ns name : String)
    (cm : ConfigMap) (d : List (String × String))
    (hget : ConfigMaps.Get env c ns name = Except.ok cm)
    (hupd : env.apiFault (ApiCall.updateConfigMap ns name) = none) :
    ConfigMaps.Update env c ns { cm with Data := d } =
      (Except.ok { cm with Data := d },
        { c with configMaps := replaceDocument ns name { cm with Data := d } c.configMaps }) := by
  obtain ⟨_, hfind, hns, hnm⟩ := configMapsGet_ok env c ns name cm hget
  have hany : c.configMaps.any (fun m => decide (m.Namespace = ns ∧ m.Name = name)) = true :=
    List.any_eq_true.mpr ⟨cm, List.mem_of_find?_eq_some hfind, by simp [hns, hnm]⟩
  unfold ConfigMaps.Update replaceDocument
  simp only [hnm, hupd, hany, if_true]

/-- After the documents of a name were replaced by `cm'`, a Get of the name returns `cm'`. -/
theorem configMapsGet_replaced (env : Env) (c : Cluster) (ns name : String)
    (cm cm' : ConfigMap) (hget : ConfigMaps.Get env c ns name = Except.ok cm)
    (h' : cm'.Namespace = ns ∧ cm'.Name = name) :
    ConfigMaps.Get env { c with configMaps := replaceDocument ns name cm' c.configMaps } ns name =
      Except.ok cm' := by
  obtain ⟨hfault, hfind, _, _⟩ := configMapsGet_ok env c ns name cm hget
  unfold ConfigMaps.Get replaceDocument
  simp only [hfault, find?_replace_same c.configMaps ns name cm' h', hfind, Option.map_some']

/-- After the documents of a name were replaced, a Get of another name returns what it
returned before. -/
theorem configMapsGet_replaced_other (env : Env) (c : Cluster) (ns name : String)
    (cm' : ConfigMap) (ns' name' : String) (hcm : cm'.Name = name) (h : name' ≠ name) :
    ConfigMaps.Get env { c with configMaps := replaceDocument ns name cm' c.configMaps }
      ns' name' = ConfigMaps.Get env c ns' name' := by
  unfold ConfigMaps.Get replaceDocument
  simp only [find?_replace_other c.configMaps ns name cm' ns' name' hcm h]

/-- An Update leaves the documents of other names, and every other object, as they were. -/
theorem configMapsUpdate_frame (env : Env) (c : Cluster) (ns : String) (cm : ConfigMap) :
    (∀ ns' name', name' ≠ cm.Name →
      ConfigMaps.Get env (ConfigMaps.Update env c ns cm).2 ns' name' =
        ConfigMaps.Get env c ns' name') ∧
    (ConfigMaps.Update env c ns cm).2.pvcs = c.pvcs ∧
    (ConfigMaps.Update env c ns cm).2.pods = c.pods ∧
    (ConfigMaps.Update env c ns cm).2.jobs = c.jobs := by
  unfold ConfigMaps.Update
  cases env.apiFault (ApiCall.updateConfigMap ns cm.Name) with
  | some e => exact ⟨fun _ _ _ => rfl, rfl, rfl, rfl⟩
  | none =>
    by_cases hany : c.configMaps.any (fun m => decide (m.Namespace = ns ∧ m.Name = cm.Name)) = true
    · rw [if_pos hany]
      exact ⟨fun ns' name' h => configMapsGet_replaced_other env c ns cm.Name cm ns' name' rfl h,
        rfl, rfl, rfl⟩
    · rw [if_neg hany]
      exact ⟨fun _ _ _ => rfl, rfl, rfl, rfl⟩

/-- A Create leaves the documents of other names, and every other object, as they were. -/
theorem configMapsCreate_frame (env : Env) (c : Cluster) (ns : String) (cm : ConfigMap) :
    (∀ ns' name', name' ≠ cm.Name →
      ConfigMaps.Get env (ConfigMaps.Create env c ns cm).2 ns' name' =
        ConfigMaps.Get env c ns' name') ∧
    (ConfigMaps.Create env c ns cm).2.pvcs = c.pvcs ∧
    (ConfigMaps.Create env c ns cm).2.pods = c.pods ∧
    (ConfigMaps.Create env c ns cm).2.jobs = c.jobs := by
  unfold ConfigMaps.Create
  cases env.apiFault (ApiCall.createConfigMap ns cm.Name) with
  | some e => exact ⟨fun _ _ _ => rfl, rfl, rfl, rfl⟩
  | none =>
    by_cases hany : c.configMaps.any (fun m => decide (m.Namespace = ns ∧ m.Name = cm.Name)) = true
    · rw [if_pos hany]
      exact ⟨fun _ _ _ => rfl, rfl, rfl, rfl⟩
    · rw [if_neg hany]
      refine ⟨fun ns' name' h => ?_, rfl, rfl, rfl⟩
      unfold ConfigMaps.Get
      have hq : List.find? (fun m => decide (m.Namespace = ns' ∧ m.Name = name')) [cm] = none := by
        rw [List.find?_cons_of_neg, List.find?_nil]
        simpa using fun (_ : cm.Namespace = ns') (h2 : cm.Name = name') => h h2.symm
      simp only [List.find?_append, hq, Option.or_none]

/-! ## The shared bodies of the metadata store -/

/-- An Update that returns a document was not refused and replaced the documents of the name. -/
theorem configMapsUpdate_ok_inv (env : Env) (c c1 : Cluster) (ns : String) (cm r : ConfigMap)
    (h : ConfigMaps.Update env c ns cm = (Except.ok r, c1)) :
    env.apiFault (ApiCall.updateConfigMap ns cm.Name) = none ∧
    c.configMaps.any (fun m => decide (m.Namespace = ns ∧ m.Name = cm.Name)) = true ∧
    c1 = { c with configMaps := replaceDocument ns cm.Name cm c.configMaps } := by
  unfold ConfigMaps.Update at h
  cases hf : env.apiFault (ApiCall.updateConfigMap ns cm.Name) with
  | some e => rw [hf] at h; cases h
  | none =>
    rw [hf] at h
    by_cases hany : c.configMaps.any (fun m => decide (m.Namespace = ns ∧ m.Name = cm.Name)) = true
    · rw [if_pos hany] at h
      refine ⟨rfl, hany, ?_⟩
      exact (congrArg Prod.snd h).symm
    · rw [if_neg hany] at h; cases h

/-- A Create that returns a document was not refused, found no document of the name and
appended the new one. -/
theorem configMapsCreate_ok_inv (env : Env) (c c1 : Cluster) (ns : String) (cm r : ConfigMap)
    (h : ConfigMaps.Create env c ns cm = (Except.ok r, c1)) :
    env.apiFault (ApiCall.createConfigMap ns cm.Name) = none ∧
    c.configMaps.any (fun m => decide (m.Namespace = ns ∧ m.Name = cm.Name)) = false ∧
    c1 = { c with configMaps := c.configMaps ++ [cm] } := by
  unfold ConfigMaps.Create at h
  cases hf : env.apiFault (ApiCall.createConfigMap ns cm.Name) with
  | some e => rw [hf] at h; cases h
  | none =>
    rw [hf] at h
    by_cases hany : c.configMaps.any (fun m => decide (m.Namespace = ns ∧ m.Name = cm.Name)) = true
    · rw [if_pos hany] at h; cases h
    · rw [if_neg hany] at h
      refine ⟨rfl, by simpa using hany, ?_⟩
      exact (congrArg Prod.snd h).symm

/-- A Get of the name of a document that was appended to documents of other names. -/
theorem configMapsGet_appended (env : Env) (c : Cluster) (ns : String) (cm : ConfigMap)
    (hns : cm.Namespace = ns)
    (hget : env.apiFault (ApiCall.getConfigMap ns cm.Name) = none)
    (hany : c.configMaps.any (fun m => decide (m.Namespace = ns ∧ m.Name = cm.Name)) = false) :
    ConfigMaps.Get env { c with configMaps := c.configMaps ++ [cm] } ns cm.Name = Except.ok cm := by
  have hnone : c.configMaps.find? (fun m => decide (m.Namespace = ns ∧ m.Name = cm.Name)) = none := by
    rw [List.find?_eq_none]
    intro x hx hp
    have : c.configMaps.any (fun m => decide (m.Namespace = ns ∧ m.Name = cm.Name)) = true :=
      List.any_eq_true.mpr ⟨x, hx, hp⟩
    rw [hany] at this
    cases this
  have hq : List.find? (fun m => decide (m.Namespace = ns ∧ m.Name = cm.Name)) [cm] = some cm := by
    rw [List.find?_cons_of_pos]
    simp [hns]
  unfold ConfigMaps.Get
  simp only [hget, List.find?_append, hnone, hq, Option.none_or]

/-- The delete body on a document that holds the key, when the Update is not refused:
the key is dropped from the document. -/
theorem deleteFromConfigMap_present (m : Manager) (env : Env) (c : Cluster)
    (name key text : String) (cm : ConfigMap) (v : String)
    (hget : ConfigMaps.Get env c m.namespace_ name = Except.ok cm)
    (hkey : mapGet cm.Data key = some v)
    (hupd : env.apiFault (ApiCall.updateConfigMap m.namespace_ name) = none) :
    deleteFromConfigMap m env c name key text =
      (none, { c with configMaps :=
        replaceDocument m.namespace_ name { cm with Data := mapDelete cm.Data key } c.configMaps }) := by
  unfold deleteFromConfigMap
  simp only [hget, hkey]
  rw [configMapsUpdate_accepted env c m.namespace_ name cm _ hget hupd]

/-- The delete body when the document cannot be read or does not hold the key: no error
and no change. -/
theorem deleteFromConfigMap_absent (m : Manager) (env : Env) (c : Cluster)
    (name key text : String)
    (h : (∃ e, ConfigMaps.Get env c m.namespace_ name = Except.error e) ∨
      (∃ cm, ConfigMaps.Get env c m.namespace_ name = Except.ok cm ∧ mapGet cm.Data key = none)) :
    deleteFromConfigMap m env c name key text = (none, c) := by
  unfold deleteFromConfigMap
  rcases h with ⟨e, he⟩ | ⟨cm, hcm, hk⟩
  · simp only [he]
  · simp only [hcm, hk]

/-- After the delete body returned no error, the document of the name cannot be read or
does not hold the key. -/
theorem deleteFromConfigMap_after (m : Manager) (env : Env) (c : Cluster)
    (name key text : String)
    (h : (deleteFromConfigMap m env c name key text).1 = none) :
    (∃ e, ConfigMaps.Get env (deleteFromConfigMap m env c name key text).2 m.namespace_ name =
        Except.error e ∧ ConfigMaps.Get env c m.namespace_ name = Except.error e) ∨
    (∃ cm, ConfigMaps.Get env (deleteFromConfigMap m env c name key text).2 m.namespace_ name =
        Except.ok cm ∧ mapGet cm.Data key = none) := by
  unfold deleteFromConfigMap at h ⊢
  cases hget : ConfigMaps.Get env c m.namespace_ name with
  | error e =>
    left
    exact ⟨e, by simp only [hget], rfl⟩
  | ok cm =>
    right
    obtain ⟨_, _, hns, hnm⟩ := configMapsGet_ok env c m.namespace_ name cm hget
    subst hnm
    cases hk : mapGet cm.Data key with
    | none => exact ⟨cm, by simp only [hk, hget], hk⟩
    | some v =>
      simp only [hget, hk] at h ⊢
      cases hu : ConfigMaps.Update env c m.namespace_ { cm with Data := mapDelete cm.Data key } with
      | mk r c1 =>
        cases r with
        | error err => rw [hu] at h; cases h
        | ok r =>
          obtain ⟨_, _, hc1⟩ := configMapsUpdate_ok_inv env c c1 m.namespace_ _ r hu
          refine ⟨{ cm with Data := mapDelete cm.Data key }, ?_, mapGet_mapDelete_self cm.Data key⟩
          simp only [hc1]
          exact configMapsGet_replaced env c m.namespace_ cm.Name cm _ hget ⟨hns, rfl⟩

/-- The delete body leaves the documents of other names, and every other object, as they
were. -/
theorem deleteFromConfigMap_frame (m : Manager) (env : Env) (c : Cluster)
    (name key text : String) :
    (∀ ns' name', name' ≠ name →
      ConfigMaps.Get env (deleteFromConfigMap m env c name key text).2 ns' name' =
        ConfigMaps.Get env c ns' name') ∧
    (deleteFromConfigMap m env c name key text).2.pvcs = c.pvcs ∧
    (deleteFromConfigMap m env c name key text).2.pods = c.pods ∧
    (deleteFromConfigMap m env c name key text).2.jobs = c.jobs := by
  unfold deleteFromConfigMap
  cases hget : ConfigMaps.Get env c m.namespace_ name with
  | error e => exact ⟨fun _ _ _ => rfl, rfl, rfl, rfl⟩
  | ok cm =>
    obtain ⟨_, _, _, hnm⟩ := configMapsGet_ok env c m.namespace_ name cm hget
    subst hnm
    dsimp only
    cases hk : mapGet cm.Data key with
    | none => exact ⟨fun _ _ _ => rfl, rfl, rfl, rfl⟩
    | some v =>
      dsimp only
      have hfr := configMapsUpdate_frame env c m.namespace_ { cm with Data := mapDelete cm.Data key }
      cases hu : ConfigMaps.Update env c m.namespace_ { cm with Data := mapDelete cm.Data key } with
      | mk r c1 =>
        rw [hu] at hfr
        cases r with
        | error err => exact hfr
        | ok r => exact hfr

/-- The store body leaves the documents of other names, and every other object, as they
were. -/
theorem storeInConfigMap_frame (m : Manager) (env : Env) (c : Cluster)
    (name key data createText updateText : String) :
    (∀ ns' name', name' ≠ name →
      ConfigMaps.Get env (storeInConfigMap m env c name key data createText updateText).2 ns' name' =
        ConfigMaps.Get env c ns' name') ∧
    (storeInConfigMap m env c name key data createText updateText).2.pvcs = c.pvcs ∧
    (storeInConfigMap m env c name key data createText updateText).2.pods = c.pods ∧
    (storeInConfigMap m env c name key data createText updateText).2.jobs = c.jobs := by
  unfold storeInConfigMap
  cases hget : ConfigMaps.Get env c m.namespace_ name with
  | error e =>
    dsimp only
    have hfr := configMapsCreate_frame env c m.namespace_
      { Name := name, Namespace := m.namespace_, Labels := [("app", "etcd-snapshot-driver")],
        Data := [(key, data)] }
    cases hu : ConfigMaps.Create env c m.namespace_
      { Name := name, Namespace := m.namespace_, Labels := [("app", "etcd-snapshot-driver")],
        Data := [(key, data)] } with
    | mk r c1 =>
      rw [hu] at hfr
      cases r with
      | error err => exact hfr
      | ok r => exact hfr
  | ok cm =>
    obtain ⟨_, _, _, hnm⟩ := configMapsGet_ok env c m.namespace_ name cm hget
    subst hnm
    dsimp only
    have hfr := configMapsUpdate_frame env c m.namespace_ { cm with Data := mapSet cm.Data key data }
    cases hu : ConfigMaps.Update env c m.namespace_ { cm with Data := mapSet cm.Data key data } with
    | mk r c1 =>
      rw [hu] at hfr
      cases r with
      | error err => exact hfr
      | ok r => exact hfr

/-- The store body that returned no error on a document that a Get returned: the key is
set in that document. -/
theorem storeInConfigMap_existing (m : Manager) (env : Env) (c : Cluster)
    (name key data createText updateText : String) (cm : ConfigMap)
    (hget : ConfigMaps.Get env c m.namespace_ name = Except.ok cm)
    (h : (storeInConfigMap m env c name key data createText updateText).1 = none) :
    (storeInConfigMap m env c name key data createText updateText).2 =
      { c with configMaps :=
        replaceDocument m.namespace_ name { cm with Data := mapSet cm.Data key data } c.configMaps } ∧
    ConfigMaps.Get env (storeInConfigMap m env c name key data createText updateText).2
      m.namespace_ name = Except.ok { cm with Data := mapSet cm.Data key data } := by
  obtain ⟨_, _, hns, hnm⟩ := configMapsGet_ok env c m.namespace_ name cm hget
  subst hnm
  unfold storeInConfigMap at h ⊢
  simp only [hget] at h ⊢
  cases hu : ConfigMaps.Update env c m.namespace_ { cm with Data := mapSet cm.Data key data } with
  | mk r c1 =>
    cases r with
    | error err => rw [hu] at h; cases h
    | ok r =>
      obtain ⟨_, _, hc1⟩ := configMapsUpdate_ok_inv env c c1 m.namespace_ _ r hu
      refine ⟨hc1, ?_⟩
      simp only [hc1]
      exact configMapsGet_replaced env c m.namespace_ cm.Name cm _ hget ⟨hns, rfl⟩

/-- The store body that returned no error when the Get of the document failed: the
document is created with the one key. -/
theorem storeInConfigMap_created (m : Manager) (env : Env) (c : Cluster)
    (name key data createText updateText : String) (e : GoError)
    (hget : ConfigMaps.Get env c m.namespace_ name = Except.error e)
    (h : (storeInConfigMap m env c name key data createText updateText).1 = none) :
    (storeInConfigMap m env c name key data createText updateText).2 =
      { c with configMaps := c.configMaps ++
        [{ Name := name, Namespace := m.namespace_, Labels := [("app", "etcd-snapshot-driver")], Data := [(key, data)] }] } ∧
    c.configMaps.any (fun d => decide (d.Namespace = m.namespace_ ∧ d.Name = name)) = false := by
  unfold storeInConfigMap at h ⊢
  simp only [hget] at h ⊢
  cases hu : ConfigMaps.Create env c m.namespace_
      { Name := name, Namespace := m.namespace_, Labels := [("app", "etcd-snapshot-driver")],
        Data := [(key, data)] } with
  | mk r c1 =>
    cases r with
    | error err => rw [hu] at h; cases h
    | ok r =>
      obtain ⟨_, hany, hc1⟩ := configMapsCreate_ok_inv env c c1 m.namespace_ _ r hu
      exact ⟨hc1, hany⟩

/-- After the store body returned no error, a Get of the document that is not refused
returns a document in which the key holds the data. -/
theorem storeInConfigMap_after (m : Manager) (env : Env) (c : Cluster)
    (name key data createText updateText : String)
    (hfault : env.apiFault (ApiCall.getConfigMap m.namespace_ name) = none)
    (h : (storeInConfigMap m env c name key data createText updateText).1 = none) :
    ∃ cm, ConfigMaps.Get env (storeInConfigMap m env c name key data createText updateText).2
      m.namespace_ name = Except.ok cm ∧ mapGet cm.Data key = some data := by
  cases hget : ConfigMaps.Get env c m.namespace_ name with
  | ok cm =>
    obtain ⟨_, h2⟩ := storeInConfigMap_existing m env c name key data createText updateText cm hget h
    exact ⟨_, h2, mapGet_mapSet_self cm.Data key data⟩
  | error e =>
    obtain ⟨h1, hany⟩ := storeInConfigMap_created m env c name key data createText updateText e hget h
    refine ⟨⟨name, m.namespace_, [("app", "etcd-snapshot-driver")], [(key, data)]⟩, ?_, ?_⟩
    · rw [h1]
      exact configMapsGet_appended env c m.namespace_
        { Name := name, Namespace := m.namespace_, Labels := [("app", "etcd-snapshot-driver")],
          Data := [(key, data)] } rfl hfault hany
    · simp [mapGet]

/-! ## The backing documents -/

/-- A Get reads the document of the name unless the request is refused. -/
theorem configMapsGet_document (env : Env) (c : Cluster) (ns name : String) :
    ConfigMaps.Get env c ns name =
      match env.apiFault (ApiCall.getConfigMap ns name) with
      | some e => Except.error e
      | none =>
        match document c ns name with
        | some m => Except.ok m
        | none => Except.error (notFound "configmaps" name) := rfl

/-- A Get that returns a document returns the document of the name. -/
theorem document_of_get (env : Env) (c : Cluster) (ns name : String) (cm : ConfigMap)
    (h : ConfigMaps.Get env c ns name = Except.ok cm) : document c ns name = some cm :=
  (configMapsGet_ok env c ns name cm h).2.1

/-- A Get of a name without document fails. -/
theorem get_error_of_document_none (env : Env) (c : Cluster) (ns name : String)
    (h : document c ns name = none) : ∃ e, ConfigMaps.Get env c ns name = Except.error e := by
  rw [configMapsGet_document, h]
  cases env.apiFault (ApiCall.getConfigMap ns name) with
  | some e => exact ⟨e, rfl⟩
  | none => exact ⟨_, rfl⟩

/-- A name has a document exactly when some document of the store has the name. -/
theorem document_none_iff (c : Cluster) (ns name : String) :
    document c ns name = none ↔
      c.configMaps.any (fun m => decide (m.Namespace = ns ∧ m.Name = name)) = false := by
  unfold document
  rw [List.find?_eq_none, Bool.eq_false_iff, Ne, List.any_eq_true]
  constructor
  · rintro h ⟨x, hx, hp⟩
    exact h x hx hp
  · intro h x hx hp
    exact h ⟨x, hx, hp⟩

/-- The document of a name after the documents of the name were replaced. -/
theorem document_replaced (c : Cluster) (ns name : String) (cm cm' : ConfigMap)
    (h : document c ns name = some cm) (h' : cm'.Namespace = ns ∧ cm'.Name = name) :
    document { c with configMaps := replaceDocument ns name cm' c.configMaps } ns name =
      some cm' := by
  unfold document at h ⊢
  unfold replaceDocument
  simp only [find?_replace_same c.configMaps ns name cm' h', h, Option.map_some']

/-- The document of another name after the documents of a name were replaced. -/
theorem document_replaced_other (c : Cluster) (ns name : String) (cm' : ConfigMap)
    (ns' name' : String) (hcm : cm'.Name = name) (h : name' ≠ name) :
    document { c with configMaps := replaceDocument ns name cm' c.configMaps } ns' name' =
      document c ns' name' := by
  unfold document replaceDocument
  exact find?_replace_other c.configMaps ns name cm' ns' name' hcm h

/-- The documents after a new document was appended: the new document under its name
when the name had none, and the documents of other names as before. -/
theorem document_appended (c : Cluster) (ns : String) (cm : ConfigMap)
    (hns : cm.Namespace = ns) (h : document c ns cm.Name = none) :
    document { c with configMaps := c.configMaps ++ [cm] } ns cm.Name = some cm ∧
    ∀ ns' name', name' ≠ cm.Name →
      document { c with configMaps := c.configMaps ++ [cm] } ns' name' = document c ns' name' := by
  unfold document at h ⊢
  constructor
  · have hq : List.find? (fun m => decide (m.Namespace = ns ∧ m.Name = cm.Name)) [cm] = some cm := by
      rw [List.find?_cons_of_pos]
      simp [hns]
    simp only [List.find?_append, h, hq, Option.none_or]
  · intro ns' name' hne
    have hq : List.find? (fun m => decide (m.Namespace = ns' ∧ m.Name = name')) [cm] = none := by
      rw [List.find?_cons_of_neg, List.find?_nil]
      simpa using fun (_ : cm.Namespace = ns') (h2 : cm.Name = name') => hne h2.symm
    simp only [List.find?_append, hq, Option.or_none]

/-- A part of a text is a part of the text with more appended. -/
theorem contains_append_left (a b sub : String) (h : Contains a sub) : Contains (a ++ b) sub := by
  unfold Contains at h ⊢
  obtain ⟨s, t, hst⟩ := h
  exact ⟨s, t ++ b.data, by simp [String.data_append, ← hst]⟩

/-- The document of a name has that name and namespace. -/
theorem document_some (c : Cluster) (ns name : String) (cm : ConfigMap)
    (h : document c ns name = some cm) : cm.Namespace = ns ∧ cm.Name = name := by
  unfold document at h
  simpa using List.find?_some h

/-- The store body that returned no error, in terms of the documents: an existing
document has the key set, a missing document is created with the one key. -/
theorem storeInConfigMap_document (m : Manager) (env : Env) (c : Cluster)
    (name key data createText updateText : String)
    (h : (storeInConfigMap m env c name key data createText updateText).1 = none) :
    (∀ cm, document c m.namespace_ name = some cm →
      (storeInConfigMap m env c name key data createText updateText).2 =
        { c with configMaps := (replaceDocument m.namespace_ name
            { cm with Data := mapSet cm.Data key data } c.configMaps) }) ∧
    (document c m.namespace_ name = none →
      (storeInConfigMap m env c name key data createText updateText).2 =
        { c with configMaps := c.configMaps ++
            [⟨name, m.namespace_, [("app", "etcd-snapshot-driver")], [(key, data)]⟩] }) := by
  cases hget : ConfigMaps.Get env c m.namespace_ name with
  | ok cm0 =>
    have hdoc := document_of_get env c m.namespace_ name cm0 hget
    refine ⟨fun cm hcm => ?_, fun hnone => ?_⟩
    · rw [hdoc] at hcm
      cases hcm
      exact (storeInConfigMap_existing m env c name key data createText updateText cm0 hget h).1
    · rw [hdoc] at hnone
      cases hnone
  | error e =>
    obtain ⟨h1, hany⟩ :=
      storeInConfigMap_created m env c name key data createText updateText e hget h
    have hdoc := (document_none_iff c m.namespace_ name).mpr hany
    refine ⟨fun cm hcm => ?_, fun _ => h1⟩
    rw [hdoc] at hcm
    cases hcm

/-- The store body leaves the documents of other names as they were. -/
theorem storeInConfigMap_document_frame (m : Manager) (env : Env) (c : Cluster)
    (name key data createText updateText : String)
    (h : (storeInConfigMap m env c name key data createText updateText).1 = none)
    (ns' name' : String) (hne : name' ≠ name) :
    document (storeInConfigMap m env c name key data createText updateText).2 ns' name' =
      document c ns' name' := by
  obtain ⟨h1, h2⟩ := storeInConfigMap_document m env c name key data createText updateText h
  cases hdoc : document c m.namespace_ name with
  | some cm =>
    rw [h1 cm hdoc]
    exact document_replaced_other c m.namespace_ name _ ns' name'
      (document_some c m.namespace_ name cm hdoc).2 hne
  | none =>
    rw [h2 hdoc]
    exact (document_appended c m.namespace_
      ⟨name, m.namespace_, [("app", "etcd-snapshot-driver")], [(key, data)]⟩ rfl hdoc).2
        ns' name' hne

/-- The store body that returned no error: the key is merged into the document of the
name, or the document is created with the one key, and nothing else changes. -/
theorem storeInConfigMap_effect (m : Manager) (env : Env) (c : Cluster)
    (name key data createText updateText : String)
    (h : (storeInConfigMap m env c name key data createText updateText).1 = none) :
    (∀ cm, document c m.namespace_ name = some cm →
      ∃ cm', document (storeInConfigMap m env c name key data createText updateText).2
          m.namespace_ name = some cm' ∧
        mapGet cm'.Data key = some data ∧
        ∀ k, k ≠ key → mapGet cm'.Data k = mapGet cm.Data k) ∧
    (document c m.namespace_ name = none →
      document (storeInConfigMap m env c name key data createText updateText).2
          m.namespace_ name =
        some ⟨name, m.namespace_, [("app", "etcd-snapshot-driver")], [(key, data)]⟩) ∧
    (∀ ns' name', name' ≠ name →
      document (storeInConfigMap m env c name key data createText updateText).2 ns' name' =
        document c ns' name') ∧
    (storeInConfigMap m env c name key data createText updateText).2.pvcs = c.pvcs ∧
    (storeInConfigMap m env c name key data createText updateText).2.pods = c.pods ∧
    (storeInConfigMap m env c name key data createText updateText).2.jobs = c.jobs := by
  obtain ⟨h1, h2⟩ := storeInConfigMap_document m env c name key data createText updateText h
  obtain ⟨_, f1, f2, f3⟩ := storeInConfigMap_frame m env c name key data createText updateText
  refine ⟨fun cm hcm => ?_, fun hnone => ?_,
    storeInConfigMap_document_frame m env c name key data createText updateText h, f1, f2, f3⟩
  · obtain ⟨hns, hnm⟩ := document_some c m.namespace_ name cm hcm
    refine ⟨{ cm with Data := mapSet cm.Data key data }, ?_, mapGet_mapSet_self cm.Data key data,
      fun k hk => mapGet_mapSet_ne cm.Data key data k hk⟩
    rw [h1 cm hcm]
    exact document_replaced c m.namespace_ name cm _ hcm ⟨hns, hnm⟩
  · rw [h2 hnone]
    exact (document_appended c m.namespace_
      ⟨name, m.namespace_, [("app", "etcd-snapshot-driver")], [(key, data)]⟩ rfl hnone).1

/-- The delete body on a key that no document holds: no error and no change. -/
theorem deleteFromConfigMap_never_stored (m : Manager) (env : Env) (c : Cluster)
    (name key text : String)
    (h : document c m.namespace_ name = none ∨
      ∃ cm, document c m.namespace_ name = some cm ∧ mapGet cm.Data key = none) :
    deleteFromConfigMap m env c name key text = (none, c) := by
  apply deleteFromConfigMap_absent
  cases hget : ConfigMaps.Get env c m.namespace_ name with
  | error e => exact Or.inl ⟨e, rfl⟩
  | ok cm0 =>
    right
    have hdoc := document_of_get env c m.namespace_ name cm0 hget
    rcases h with h | ⟨cm, hcm, hk⟩
    · rw [hdoc] at h
      cases h
    · rw [hdoc] at hcm
      cases hcm
      exact ⟨cm0, rfl, hk⟩

/-! ## The metadata store: round trip, deletion and merge -/

/-- C16: for every ID that was never stored, DeleteSnapshotMetadata and
DeleteGroupSnapshotMetadata return no error and leave the platform state, and so the
store, exactly as it was, both when the backing document is absent and when it exists
without that key; this holds whatever the API server answers. -/
theorem DeleteMetadata_never_stored (m : Manager) (env : Env) (c : Cluster) (id : String) :
    ((document c m.namespace_ "etcd-snapshot-metadata" = none ∨
        ∃ cm, document c m.namespace_ "etcd-snapshot-metadata" = some cm ∧
          mapGet cm.Data id = none) →
      m.DeleteSnapshotMetadata env c id = (none, c)) ∧
    ((document c m.namespace_ "etcd-group-snapshot-metadata" = none ∨
        ∃ cm, document c m.namespace_ "etcd-group-snapshot-metadata" = some cm ∧
          mapGet cm.Data id = none) →
      m.DeleteGroupSnapshotMetadata env c id = (none, c)) :=
  ⟨fun h => deleteFromConfigMap_never_stored m env c _ id _ h,
    fun h => deleteFromConfigMap_never_stored m env c _ id _ h⟩

set_option maxRecDepth 100000 in
/-- C16 on a store without documents and on the store that scenario A leaves behind: the
ID "weekly-1" was never stored, and both deletions return no error and change nothing. -/
theorem DeleteMetadata_never_stored_witness :
    document clusterOne "kube-system" "etcd-snapshot-metadata" = none ∧
    (NewManager "kube-system").DeleteSnapshotMetadata sampleEnv clusterOne "weekly-1" =
      (none, clusterOne) ∧
    (∃ cm, document storedCluster "kube-system" "etcd-group-snapshot-metadata" = some cm ∧
      mapGet cm.Data "weekly-1" = none) ∧
    (NewManager "kube-system").DeleteGroupSnapshotMetadata sampleEnv storedCluster "weekly-1" =
      (none, storedCluster) := by
  have h1 : document clusterOne "kube-system" "etcd-snapshot-metadata" = none := by decide
  have h2 : ∃ cm, document storedCluster "kube-system" "etcd-group-snapshot-metadata" = some cm ∧
      mapGet cm.Data "weekly-1" = none :=
    ⟨⟨"etcd-group-snapshot-metadata", "kube-system", [("app", "etcd-snapshot-driver")],
      [("daily-1700000000", "daily-1700000000")]⟩, by decide, by decide⟩
  exact ⟨h1,
    (DeleteMetadata_never_stored (NewManager "kube-system") sampleEnv clusterOne "weekly-1").1
      (Or.inl h1),
    h2,
    (DeleteMetadata_never_stored (NewManager "kube-system") sampleEnv storedCluster "weekly-1").2
      (Or.inr h2)⟩

/-- After the delete body returned no error, a lookup of the key in the document fails,
with a text that says "not found" unless the Get was refused. -/
theorem retrieve_after_delete_body (m : Manager) (env : Env) (c : Cluster)
    (name key text : String)
    (h : (deleteFromConfigMap m env c name key text).1 = none) :
    (∃ e, ConfigMaps.Get env (deleteFromConfigMap m env c name key text).2 m.namespace_ name =
        Except.error e ∧
      (env.apiFault (ApiCall.getConfigMap m.namespace_ name) = none →
        e = notFound "configmaps" name)) ∨
    (∃ cm, ConfigMaps.Get env (deleteFromConfigMap m env c name key text).2 m.namespace_ name =
        Except.ok cm ∧ mapGet cm.Data key = none) := by
  rcases deleteFromConfigMap_after m env c name key text h with ⟨e, h1, h2⟩ | h3
  · left
    refine ⟨e, h1, fun hf => ?_⟩
    rw [configMapsGet_document, hf] at h2
    cases hd : document c m.namespace_ name with
    | some d => rw [hd] at h2; cases h2
    | none =>
      rw [hd] at h2
      cases h2
      rfl
  · exact Or.inr h3

/-- C15: for every ID and every state of the store, after a DeleteSnapshotMetadata that
returned no error the call RetrieveSnapshotMetadata of the same ID fails, and its error
says "not found" unless the API server refuses the Get of the document; likewise for
DeleteGroupSnapshotMetadata followed by RetrieveGroupSnapshotMetadata. -/
theorem Retrieve_after_Delete_not_found (m : Manager) (env : Env) (c : Cluster) (id : String) :
    ((m.DeleteSnapshotMetadata env c id).1 = none →
      ∃ e, m.RetrieveSnapshotMetadata env (m.DeleteSnapshotMetadata env c id).2 id =
          Except.error e ∧
        (env.apiFault (ApiCall.getConfigMap m.namespace_ "etcd-snapshot-metadata") = none →
          Contains e.msg "not found")) ∧
    ((m.DeleteGroupSnapshotMetadata env c id).1 = none →
      ∃ e, m.RetrieveGroupSnapshotMetadata env (m.DeleteGroupSnapshotMetadata env c id).2 id =
          Except.error e ∧
        (env.apiFault (ApiCall.getConfigMap m.namespace_ "etcd-group-snapshot-metadata") = none →
          Contains e.msg "not found")) := by
  constructor
  · intro h
    unfold Manager.DeleteSnapshotMetadata at h ⊢
    unfold Manager.RetrieveSnapshotMetadata
    rcases retrieve_after_delete_body m env c _ id _ h with ⟨e, h1, h2⟩ | ⟨cm, h1, h2⟩
    · refine ⟨_, by rw [h1], fun hf => ?_⟩
      rw [h2 hf]
      decide
    · refine ⟨Errorf ("snapshot metadata not found: " ++ id), by rw [h1]; simp only [h2],
        fun _ => ?_⟩
      exact contains_append_left _ id _ (by decide)
  · intro h
    unfold Manager.DeleteGroupSnapshotMetadata at h ⊢
    unfold Manager.RetrieveGroupSnapshotMetadata
    rcases retrieve_after_delete_body m env c _ id _ h with ⟨e, h1, h2⟩ | ⟨cm, h1, h2⟩
    · refine ⟨_, by rw [h1], fun hf => ?_⟩
      rw [h2 hf]
      decide
    · refine ⟨Errorf ("group snapshot metadata not found: " ++ id), by rw [h1]; simp only [h2],
        fun _ => ?_⟩
      exact contains_append_left _ id _ (by decide)

set_option maxRecDepth 100000 in
/-- C15 on the store that scenario A leaves behind: both deletions return no error, and
the two records are then reported as not found. -/
theorem Retrieve_after_Delete_not_found_witness :
    ((NewManager "kube-system").DeleteSnapshotMetadata sampleEnv storedCluster
      "daily-1700000000-1700000000").1 = none ∧
    (∃ e, (NewManager "kube-system").RetrieveSnapshotMetadata sampleEnv
        ((NewManager "kube-system").DeleteSnapshotMetadata sampleEnv storedCluster
          "daily-1700000000-1700000000").2 "daily-1700000000-1700000000" = Except.error e ∧
      (sampleEnv.apiFault (ApiCall.getConfigMap "kube-system" "etcd-snapshot-metadata") = none →
        Contains e.msg "not found")) ∧
    ((NewManager "kube-system").DeleteGroupSnapshotMetadata sampleEnv storedCluster
      "daily-1700000000").1 = none ∧
    (∃ e, (NewManager "kube-system").RetrieveGroupSnapshotMetadata sampleEnv
        ((NewManager "kube-system").DeleteGroupSnapshotMetadata sampleEnv storedCluster
          "daily-1700000000").2 "daily-1700000000" = Except.error e ∧
      (sampleEnv.apiFault (ApiCall.getConfigMap "kube-system" "etcd-group-snapshot-metadata") =
          none →
        Contains e.msg "not found")) :=
  ⟨by decide,
    (Retrieve_after_Delete_not_found (NewManager "kube-system") sampleEnv storedCluster
      "daily-1700000000-1700000000").1 (by decide),
    by decide,
    (Retrieve_after_Delete_not_found (NewManager "kube-system") sampleEnv storedCluster
      "daily-1700000000").2 (by decide)⟩

/-- C14: for every snapshot record R and every state of the store, if
StoreSnapshotMetadata(R) returns no error, then RetrieveSnapshotMetadata(R.SnapshotID) on
the state it leaves returns a record equal to R, given that the JSON codec reads back
what it wrote for R and that the API server does not refuse the Get of the document; the
same holds for StoreGroupSnapshotMetadata and RetrieveGroupSnapshotMetadata keyed by
GroupSnapshotID. -/
theorem Retrieve_after_Store_round_trip (m : Manager) (env : Env) (c : Cluster) :
    (∀ R : SnapshotMetadata,
      (∀ data, env.marshalSnapshot R = Except.ok data → env.unmarshalSnapshot data = Except.ok R) →
      env.apiFault (ApiCall.getConfigMap m.namespace_ "etcd-snapshot-metadata") = none →
      (m.StoreSnapshotMetadata env c R).1 = none →
      m.RetrieveSnapshotMetadata env (m.StoreSnapshotMetadata env c R).2 R.SnapshotID =
        Except.ok R) ∧
    (∀ G : GroupSnapshotMetadata,
      (∀ data, env.marshalGroup G = Except.ok data → env.unmarshalGroup data = Except.ok G) →
      env.apiFault (ApiCall.getConfigMap m.namespace_ "etcd-group-snapshot-metadata") = none →
      (m.StoreGroupSnapshotMetadata env c G).1 = none →
      m.RetrieveGroupSnapshotMetadata env (m.StoreGroupSnapshotMetadata env c G).2
        G.GroupSnapshotID = Except.ok G) := by
  constructor
  · intro R hcodec hfault h
    unfold Manager.StoreSnapshotMetadata at h ⊢
    unfold Manager.RetrieveSnapshotMetadata
    cases hm : env.marshalSnapshot R with
    | error err => rw [hm] at h; cases h
    | ok data =>
      rw [hm] at h
      dsimp only at h ⊢
      obtain ⟨cm, h1, h2⟩ := storeInConfigMap_after m env c _ R.SnapshotID data _ _ hfault h
      rw [h1]
      simp only [h2, hcodec data hm]
  · intro G hcodec hfault h
    unfold Manager.StoreGroupSnapshotMetadata at h ⊢
    unfold Manager.RetrieveGroupSnapshotMetadata
    cases hm : env.marshalGroup G with
    | error err => rw [hm] at h; cases h
    | ok data =>
      rw [hm] at h
      dsimp only at h ⊢
      obtain ⟨cm, h1, h2⟩ := storeInConfigMap_after m env c _ G.GroupSnapshotID data _ _ hfault h
      rw [h1]
      simp only [h2, hcodec data hm]

set_option maxRecDepth 100000 in
/-- C14 on the two records of scenario A: stored into a store without documents and into
the store that already holds them, each record is read back unchanged. -/
theorem Retrieve_after_Store_round_trip_witness :
    (∀ data, sampleEnv.marshalSnapshot sampleSnapshotRecord = Except.ok data →
      sampleEnv.unmarshalSnapshot data = Except.ok sampleSnapshotRecord) ∧
    ((NewManager "kube-system").StoreSnapshotMetadata sampleEnv clusterOne
      sampleSnapshotRecord).1 = none ∧
    (NewManager "kube-system").RetrieveSnapshotMetadata sampleEnv
      ((NewManager "kube-system").StoreSnapshotMetadata sampleEnv clusterOne
        sampleSnapshotRecord).2 sampleSnapshotRecord.SnapshotID = Except.ok sampleSnapshotRecord ∧
    (∀ data, sampleEnv.marshalGroup sampleGroupRecord = Except.ok data →
      sampleEnv.unmarshalGroup data = Except.ok sampleGroupRecord) ∧
    ((NewManager "kube-system").StoreGroupSnapshotMetadata sampleEnv storedCluster
      sampleGroupRecord).1 = none ∧
    (NewManager "kube-system").RetrieveGroupSnapshotMetadata sampleEnv
      ((NewManager "kube-system").StoreGroupSnapshotMetadata sampleEnv storedCluster
        sampleGroupRecord).2 sampleGroupRecord.GroupSnapshotID = Except.ok sampleGroupRecord := by
  have hs : ∀ data, sampleEnv.marshalSnapshot sampleSnapshotRecord = Except.ok data →
      sampleEnv.unmarshalSnapshot data = Except.ok sampleSnapshotRecord := by
    intro data h
    cases h
    decide
  have hg : ∀ data, sampleEnv.marshalGroup sampleGroupRecord = Except.ok data →
      sampleEnv.unmarshalGroup data = Except.ok sampleGroupRecord := by
    intro data h
    cases h
    decide
  exact ⟨hs, by decide,
    (Retrieve_after_Store_round_trip (NewManager "kube-system") sampleEnv clusterOne).1
      sampleSnapshotRecord hs (by decide) (by decide),
    hg, by decide,
    (Retrieve_after_Store_round_trip (NewManager "kube-system") sampleEnv storedCluster).2
      sampleGroupRecord hg (by decide) (by decide)⟩

/-- C17: for every StoreSnapshotMetadata(R) that returns no error, R was marshalled to
some data, and (a) on an existing backing document the document afterwards maps R's ID to
that data, whatever the key held before, and every other key to its previous value;
(b) when the document is absent it is created holding only R's key; (c) every document of
another name, in particular the document of the group records, and all other objects are
unchanged.  The same holds for StoreGroupSnapshotMetadata with the two documents
exchanged. -/
theorem StoreMetadata_merges_key (m : Manager) (env : Env) (c : Cluster) :
    (∀ R : SnapshotMetadata, (m.StoreSnapshotMetadata env c R).1 = none →
      ∃ data, env.marshalSnapshot R = Except.ok data ∧
        (∀ cm, document c m.namespace_ "etcd-snapshot-metadata" = some cm →
          ∃ cm', document (m.StoreSnapshotMetadata env c R).2 m.namespace_
              "etcd-snapshot-metadata" = some cm' ∧
            mapGet cm'.Data R.SnapshotID = some data ∧
            ∀ k, k ≠ R.SnapshotID → mapGet cm'.Data k = mapGet cm.Data k) ∧
        (document c m.namespace_ "etcd-snapshot-metadata" = none →
          document (m.StoreSnapshotMetadata env c R).2 m.namespace_ "etcd-snapshot-metadata" =
            some ⟨"etcd-snapshot-metadata", m.namespace_, [("app", "etcd-snapshot-driver")],
              [(R.SnapshotID, data)]⟩) ∧
        document (m.StoreSnapshotMetadata env c R).2 m.namespace_
            "etcd-group-snapshot-metadata" =
          document c m.namespace_ "etcd-group-snapshot-metadata" ∧
        (∀ ns' name', name' ≠ "etcd-snapshot-metadata" →
          document (m.StoreSnapshotMetadata env c R).2 ns' name' = document c ns' name') ∧
        (m.StoreSnapshotMetadata env c R).2.pvcs = c.pvcs ∧
        (m.StoreSnapshotMetadata env c R).2.pods = c.pods ∧
        (m.StoreSnapshotMetadata env c R).2.jobs = c.jobs) ∧
    (∀ G : GroupSnapshotMetadata, (m.StoreGroupSnapshotMetadata env c G).1 = none →
      ∃ data, env.marshalGroup G = Except.ok data ∧
        (∀ cm, document c m.namespace_ "etcd-group-snapshot-metadata" = some cm →
          ∃ cm', document (m.StoreGroupSnapshotMetadata env c G).2 m.namespace_
              "etcd-group-snapshot-metadata" = some cm' ∧
            mapGet cm'.Data G.GroupSnapshotID = some data ∧
            ∀ k, k ≠ G.GroupSnapshotID → mapGet cm'.Data k = mapGet cm.Data k) ∧
        (document c m.namespace_ "etcd-group-snapshot-metadata" = none →
          document (m.StoreGroupSnapshotMetadata env c G).2 m.namespace_
              "etcd-group-snapshot-metadata" =
            some ⟨"etcd-group-snapshot-metadata", m.namespace_, [("app", "etcd-snapshot-driver")],
              [(G.GroupSnapshotID, data)]⟩) ∧
        document (m.StoreGroupSnapshotMetadata env c G).2 m.namespace_
            "etcd-snapshot-metadata" =
          document c m.namespace_ "etcd-snapshot-metadata" ∧
        (∀ ns' name', name' ≠ "etcd-group-snapshot-metadata" →
          document (m.StoreGroupSnapshotMetadata env c G).2 ns' name' = document c ns' name') ∧
        (m.StoreGroupSnapshotMetadata env c G).2.pvcs = c.pvcs ∧
        (m.StoreGroupSnapshotMetadata env c G).2.pods = c.pods ∧
        (m.StoreGroupSnapshotMetadata env c G).2.jobs = c.jobs) := by
  constructor
  · intro R h
    unfold Manager.StoreSnapshotMetadata at h ⊢
    cases hm : env.marshalSnapshot R with
    | error err => rw [hm] at h; cases h
    | ok data =>
      rw [hm] at h
      dsimp only at h ⊢
      obtain ⟨e1, e2, e3, e4, e5, e6⟩ :=
        storeInConfigMap_effect m env c _ R.SnapshotID data _ _ h
      exact ⟨data, rfl, e1, e2, e3 _ _ (by decide), e3, e4, e5, e6⟩
  · intro G h
    unfold Manager.StoreGroupSnapshotMetadata at h ⊢
    cases hm : env.marshalGroup G with
    | error err => rw [hm] at h; cases h
    | ok data =>
      rw [hm] at h
      dsimp only at h ⊢
      obtain ⟨e1, e2, e3, e4, e5, e6⟩ :=
        storeInConfigMap_effect m env c _ G.GroupSnapshotID data _ _ h
      exact ⟨data, rfl, e1, e2, e3 _ _ (by decide), e3, e4, e5, e6⟩

set_option maxRecDepth 100000 in
/-- C17 on the store that scenario A leaves behind, for a second snapshot record with the
ID "weekly-1700000001": the document keeps its other keys and gains the new one, and the
document of the group records is unchanged; and on a store without documents, where the
group record of scenario A is stored into a new document that holds only its key. -/
theorem StoreMetadata_merges_key_witness :
    ((NewManager "kube-system").StoreSnapshotMetadata sampleEnv storedCluster
      { sampleSnapshotRecord with SnapshotID := "weekly-1700000001" }).1 = none ∧
    (∃ data, sampleEnv.marshalSnapshot
        { sampleSnapshotRecord with SnapshotID := "weekly-1700000001" } = Except.ok data ∧
      (∀ cm, document storedCluster "kube-system" "etcd-snapshot-metadata" = some cm →
        ∃ cm', document ((NewManager "kube-system").StoreSnapshotMetadata sampleEnv storedCluster
              { sampleSnapshotRecord with SnapshotID := "weekly-1700000001" }).2 "kube-system"
              "etcd-snapshot-metadata" = some cm' ∧
          mapGet cm'.Data "weekly-1700000001" = some data ∧
          ∀ k, k ≠ "weekly-1700000001" → mapGet cm'.Data k = mapGet cm.Data k) ∧
      document ((NewManager "kube-system").StoreSnapshotMetadata sampleEnv storedCluster
          { sampleSnapshotRecord with SnapshotID := "weekly-1700000001" }).2 "kube-system"
          "etcd-group-snapshot-metadata" =
        document storedCluster "kube-system" "etcd-group-snapshot-metadata") ∧
    ((NewManager "kube-system").StoreGroupSnapshotMetadata sampleEnv clusterOne
      sampleGroupRecord).1 = none ∧
    document clusterOne "kube-system" "etcd-group-snapshot-metadata" = none ∧
    (∃ data, sampleEnv.marshalGroup sampleGroupRecord = Except.ok data ∧
      document ((NewManager "kube-system").StoreGroupSnapshotMetadata sampleEnv clusterOne
          sampleGroupRecord).2 "kube-system" "etcd-group-snapshot-metadata" =
        some ⟨"etcd-group-snapshot-metadata", "kube-system", [("app", "etcd-snapshot-driver")],
          [("daily-1700000000", data)]⟩) := by
  obtain ⟨data, hd, h1, _, h3, _⟩ :=
    (StoreMetadata_merges_key (NewManager "kube-system") sampleEnv storedCluster).1
      { sampleSnapshotRecord with SnapshotID := "weekly-1700000001" } (by decide)
  obtain ⟨data', hd', _, h2', _⟩ :=
    (StoreMetadata_merges_key (NewManager "kube-system") sampleEnv clusterOne).2
      sampleGroupRecord (by decide)
  have hnone : document clusterOne "kube-system" "etcd-group-snapshot-metadata" = none := by
    decide
  exact ⟨by decide, ⟨data, hd, h1, h3⟩, by decide, hnone, ⟨data', hd', h2' hnone⟩⟩

/-! ## DeleteVolumeGroupSnapshot and GetVolumeGroupSnapshot -/

/-- C12: DeleteVolumeGroupSnapshot and GetVolumeGroupSnapshot called with an empty
group-snapshot ID both return no response and the InvalidArgument error
"group_snapshot_id required"; the answer is the same for every environment and every
platform state, so nothing is read, and Delete returns the state it was given. -/
theorem empty_group_snapshot_id_invalid_argument (g : GroupControllerServer) (env : Env)
    (c : Cluster) :
    g.DeleteVolumeGroupSnapshot env c { GroupSnapshotId := "" } =
      (Except.error (Failure.status Code.InvalidArgument "group_snapshot_id required"), c) ∧
    g.GetVolumeGroupSnapshot env c { GroupSnapshotId := "" } =
      Except.error (Failure.status Code.InvalidArgument "group_snapshot_id required") ∧
    Contains "group_snapshot_id required" "group_snapshot_id required" := by
  refine ⟨?_, ?_, by decide⟩
  · unfold GroupControllerServer.DeleteVolumeGroupSnapshot
    simp only [if_true]
  · unfold GroupControllerServer.GetVolumeGroupSnapshot
    simp only [if_true]

/-- A lookup of a group ID that no document holds fails. -/
theorem retrieveGroup_never_stored (m : Manager) (env : Env) (c : Cluster) (id : String)
    (h : document c m.namespace_ "etcd-group-snapshot-metadata" = none ∨
      ∃ cm, document c m.namespace_ "etcd-group-snapshot-metadata" = some cm ∧
        mapGet cm.Data id = none) :
    ∃ e, m.RetrieveGroupSnapshotMetadata env c id = Except.error e := by
  unfold Manager.RetrieveGroupSnapshotMetadata
  cases hget : ConfigMaps.Get env c m.namespace_ "etcd-group-snapshot-metadata" with
  | error e => exact ⟨_, rfl⟩
  | ok cm0 =>
    have hdoc := document_of_get env c m.namespace_ _ cm0 hget
    rcases h with h | ⟨cm, hcm, hk⟩
    · rw [hdoc] at h
      cases h
    · rw [hdoc] at hcm
      cases hcm
      exact ⟨Errorf ("group snapshot metadata not found: " ++ id), by simp only [hk]⟩

/-- C13: for every non-empty group-snapshot ID that has no record in the group metadata
store (backing document absent, or key absent in it), GetVolumeGroupSnapshot returns no
response and a NotFound error whose message is "group snapshot not found: " followed by
the ID, so it contains "group snapshot not found" and the ID. -/
theorem GetVolumeGroupSnapshot_not_found (g : GroupControllerServer) (env : Env) (c : Cluster)
    (id : String) (hid : id ≠ "")
    (h : document c g.snapshotManager.namespace_ "etcd-group-snapshot-metadata" = none ∨
      ∃ cm, document c g.snapshotManager.namespace_ "etcd-group-snapshot-metadata" = some cm ∧
        mapGet cm.Data id = none) :
    g.GetVolumeGroupSnapshot env c { GroupSnapshotId := id } =
      Except.error (Failure.status Code.NotFound ("group snapshot not found: " ++ id)) ∧
    Contains ("group snapshot not found: " ++ id) "group snapshot not found" ∧
    Contains ("group snapshot not found: " ++ id) id := by
  obtain ⟨e, he⟩ := retrieveGroup_never_stored g.snapshotManager env c id h
  refine ⟨?_, contains_append_left _ id _ (by decide), contains_last _ id⟩
  unfold GroupControllerServer.GetVolumeGroupSnapshot
  simp only [hid, if_false, he]

set_option maxRecDepth 100000 in
/-- C13 on the unknown ID of scenario D, on a store without documents and on the store
that scenario A leaves behind. -/
theorem GetVolumeGroupSnapshot_not_found_witness :
    "non-existent-group-snapshot" ≠ "" ∧
    document clusterOne sampleServer.snapshotManager.namespace_
      "etcd-group-snapshot-metadata" = none ∧
    sampleServer.GetVolumeGroupSnapshot sampleEnv clusterOne
        { GroupSnapshotId := "non-existent-group-snapshot" } =
      Except.error (Failure.status Code.NotFound
        "group snapshot not found: non-existent-group-snapshot") ∧
    (∃ cm, document storedCluster sampleServer.snapshotManager.namespace_
        "etcd-group-snapshot-metadata" = some cm ∧
      mapGet cm.Data "non-existent-group-snapshot" = none) ∧
    sampleServer.GetVolumeGroupSnapshot sampleEnv storedCluster
        { GroupSnapshotId := "non-existent-group-snapshot" } =
      Except.error (Failure.status Code.NotFound
        "group snapshot not found: non-existent-group-snapshot") := by
  have h1 : document clusterOne sampleServer.snapshotManager.namespace_
      "etcd-group-snapshot-metadata" = none := by decide
  have h2 : ∃ cm, document storedCluster sampleServer.snapshotManager.namespace_
        "etcd-group-snapshot-metadata" = some cm ∧
      mapGet cm.Data "non-existent-group-snapshot" = none :=
    ⟨⟨"etcd-group-snapshot-metadata", "kube-system", [("app", "etcd-snapshot-driver")],
      [("daily-1700000000", "daily-1700000000")]⟩, by decide, by decide⟩
  exact ⟨by decide, h1,
    (GetVolumeGroupSnapshot_not_found sampleServer sampleEnv clusterOne
      "non-existent-group-snapshot" (by decide) (Or.inl h1)).1,
    h2,
    (GetVolumeGroupSnapshot_not_found sampleServer sampleEnv storedCluster
      "non-existent-group-snapshot" (by decide) (Or.inr h2)).1⟩

/-- Submitting a Job leaves the documents as they were. -/
theorem jobsCreate_configMaps (env : Env) (c : Cluster) (ns : String) (job : Job) :
    (Jobs.Create env c ns job).2.configMaps = c.configMaps := by
  unfold Jobs.Create
  split
  · rfl
  · split <;> rfl

/-- Running a Job leaves the documents as they were. -/
theorem executeSnapshotJob_configMaps (env : Env) (c : Cluster) (job : Job) (timeout : Int) :
    (ExecuteSnapshotJob env c job timeout).2.configMaps = c.configMaps := by
  have hc := jobsCreate_configMaps env c job.Namespace job
  unfold ExecuteSnapshotJob
  cases hj : Jobs.Create env c job.Namespace job with
  | mk r c1 =>
    rw [hj] at hc
    cases r with
    | error err =>
      dsimp only
      split
      · split <;> exact hc
      · exact hc
    | ok created =>
      dsimp only
      split <;> exact hc

/-- A lookup that returns a snapshot record found its key in the document. -/
theorem retrieveSnapshot_ok_inv (m : Manager) (env : Env) (c : Cluster) (id : String)
    (S : SnapshotMetadata) (h : m.RetrieveSnapshotMetadata env c id = Except.ok S) :
    ∃ cm data, ConfigMaps.Get env c m.namespace_ "etcd-snapshot-metadata" = Except.ok cm ∧
      mapGet cm.Data id = some data ∧ env.unmarshalSnapshot data = Except.ok S := by
  unfold Manager.RetrieveSnapshotMetadata at h
  cases hget : ConfigMaps.Get env c m.namespace_ "etcd-snapshot-metadata" with
  | error e => rw [hget] at h; cases h
  | ok cm =>
    rw [hget] at h
    dsimp only at h
    cases hk : mapGet cm.Data id with
    | none => rw [hk] at h; cases h
    | some data =>
      rw [hk] at h
      dsimp only at h
      cases hu : env.unmarshalSnapshot data with
      | error e => rw [hu] at h; cases h
      | ok S' =>
        rw [hu] at h
        cases h
        exact ⟨cm, data, rfl, hk, hu⟩

/-- A lookup that returns a group record found its key in the document. -/
theorem retrieveGroup_ok_inv (m : Manager) (env : Env) (c : Cluster) (id : String)
    (G : GroupSnapshotMetadata) (h : m.RetrieveGroupSnapshotMetadata env c id = Except.ok G) :
    ∃ cm data, ConfigMaps.Get env c m.namespace_ "etcd-group-snapshot-metadata" = Except.ok cm ∧
      mapGet cm.Data id = some data ∧ env.unmarshalGroup data = Except.ok G := by
  unfold Manager.RetrieveGroupSnapshotMetadata at h
  cases hget : ConfigMaps.Get env c m.namespace_ "etcd-group-snapshot-metadata" with
  | error e => rw [hget] at h; cases h
  | ok cm =>
    rw [hget] at h
    dsimp only at h
    cases hk : mapGet cm.Data id with
    | none => rw [hk] at h; cases h
    | some data =>
      rw [hk] at h
      dsimp only at h
      cases hu : env.unmarshalGroup data with
      | error e => rw [hu] at h; cases h
      | ok G' =>
        rw [hu] at h
        cases h
        exact ⟨cm, data, rfl, hk, hu⟩

/-- The method `cleanupSnapshot` leaves every document but the one of the snapshot records
as it was. -/
theorem cleanupSnapshot_frame (g : GroupControllerServer) (env : Env) (c : Cluster)
    (snapshotID : String) (ns' name' : String) (hne : name' ≠ "etcd-snapshot-metadata") :
    ConfigMaps.Get env (g.cleanupSnapshot env c snapshotID).2 ns' name' =
      ConfigMaps.Get env c ns' name' := by
  unfold GroupControllerServer.cleanupSnapshot
  cases hr : g.snapshotManager.RetrieveSnapshotMetadata env c snapshotID with
  | error e => rfl
  | ok S =>
    dsimp only
    have h1 := jobsCreate_configMaps env c S.Namespace
      (GenerateSnapshotDeleteJob (deleteJobConfig snapshotID S))
    cases hj : Jobs.Create env c S.Namespace
        (GenerateSnapshotDeleteJob (deleteJobConfig snapshotID S)) with
    | mk r ca =>
      rw [hj] at h1
      cases r with
      | error err => exact configMapsGet_congr env c ca ns' name' h1
      | ok created =>
        dsimp only
        have h2 := executeSnapshotJob_configMaps env ca created (60 * 1000000000)
        cases he : ExecuteSnapshotJob env ca created (60 * 1000000000) with
        | mk out cb =>
          rw [he] at h2
          have h3 : cb.configMaps = c.configMaps := h2.trans h1
          obtain ⟨res, oerr⟩ := out
          cases oerr with
          | some err => exact configMapsGet_congr env c cb ns' name' h3
          | none =>
            dsimp only
            have h4 := (deleteFromConfigMap_frame g.snapshotManager env cb
              "etcd-snapshot-metadata" snapshotID "failed to update ConfigMap: ").1 ns' name' hne
            unfold Manager.DeleteSnapshotMetadata
            cases hd : deleteFromConfigMap g.snapshotManager env cb
                "etcd-snapshot-metadata" snapshotID "failed to update ConfigMap: " with
            | mk o cd =>
              rw [hd] at h4
              cases o with
              | some err => exact h4.trans (configMapsGet_congr env c cb ns' name' h3)
              | none => exact h4.trans (configMapsGet_congr env c cb ns' name' h3)

/-- The method `cleanupSnapshot` when the record is stored, the delete Job is created and
ends without error, and the update of the document is accepted: the key of the snapshot is
dropped from the document of the snapshot records. -/
theorem cleanupSnapshot_completed (g : GroupControllerServer) (env : Env) (c : Cluster)
    (snapshotID : String) (S : SnapshotMetadata) (created : Job) (ca cb : Cluster)
    (res : JobResult)
    (hS : g.snapshotManager.RetrieveSnapshotMetadata env c snapshotID = Except.ok S)
    (hupd : env.apiFault
      (ApiCall.updateConfigMap g.snapshotManager.namespace_ "etcd-snapshot-metadata") = none)
    (hj : Jobs.Create env c S.Namespace
      (GenerateSnapshotDeleteJob (deleteJobConfig snapshotID S)) = (Except.ok created, ca))
    (he : ExecuteSnapshotJob env ca created (60 * 1000000000) = ((res, none), cb)) :
    ∃ cm, ConfigMaps.Get env (g.cleanupSnapshot env c snapshotID).2
        g.snapshotManager.namespace_ "etcd-snapshot-metadata" = Except.ok cm ∧
      mapGet cm.Data snapshotID = none := by
  obtain ⟨cmS, dS, hget, hk, _⟩ := retrieveSnapshot_ok_inv g.snapshotManager env c snapshotID S hS
  obtain ⟨_, _, hns, hnm⟩ := configMapsGet_ok env c _ _ cmS hget
  have h1 : ca.configMaps = c.configMaps := by
    have := jobsCreate_configMaps env c S.Namespace
      (GenerateSnapshotDeleteJob (deleteJobConfig snapshotID S))
    rw [hj] at this
    exact this
  have h2 : cb.configMaps = c.configMaps := by
    have := executeSnapshotJob_configMaps env ca created (60 * 1000000000)
    rw [he] at this
    exact this.trans h1
  have hgetb : ConfigMaps.Get env cb g.snapshotManager.namespace_ "etcd-snapshot-metadata" =
      Except.ok cmS := (configMapsGet_congr env c cb _ _ h2).trans hget
  have hd := deleteFromConfigMap_present g.snapshotManager env cb "etcd-snapshot-metadata"
    snapshotID "failed to update ConfigMap: " cmS dS hgetb hk hupd
  refine ⟨{ cmS with Data := mapDelete cmS.Data snapshotID }, ?_,
    mapGet_mapDelete_self cmS.Data snapshotID⟩
  unfold GroupControllerServer.cleanupSnapshot
  simp only [hS, hj, he]
  unfold Manager.DeleteSnapshotMetadata
  rw [hd]
  exact configMapsGet_replaced env cb _ _ cmS _ hgetb ⟨hns, hnm⟩

/-- C11, amended: for every DeleteVolumeGroupSnapshot call on a non-empty group ID whose
group record and child snapshot record are both stored, with a metadata store that
accepts the updates of both documents: after the call the group-level record is not
retrievable, also when the delete Job cannot be created, fails or times out; and the
snapshot-level record is not retrievable when the delete Job is created and ends without
error. -/
theorem DeleteVolumeGroupSnapshot_removes_records (g : GroupControllerServer) (env : Env)
    (c : Cluster) (id : String) (G : GroupSnapshotMetadata) (S : SnapshotMetadata)
    (hid : id ≠ "")
    (hG : g.snapshotManager.RetrieveGroupSnapshotMetadata env c id = Except.ok G)
    (hS : g.snapshotManager.RetrieveSnapshotMetadata env c G.SnapshotID = Except.ok S)
    (hupdS : env.apiFault
      (ApiCall.updateConfigMap g.snapshotManager.namespace_ "etcd-snapshot-metadata") = none)
    (hupdG : env.apiFault
      (ApiCall.updateConfigMap g.snapshotManager.namespace_ "etcd-group-snapshot-metadata") =
        none) :
    g.snapshotManager.RetrieveGroupSnapshotMetadata env
        (g.DeleteVolumeGroupSnapshot env c { GroupSnapshotId := id }).2 id =
      Except.error (Errorf ("group snapshot metadata not found: " ++ id)) ∧
    ∀ (created : Job) (ca : Cluster) (res : JobResult) (cb : Cluster),
      Jobs.Create env c S.Namespace
        (GenerateSnapshotDeleteJob (deleteJobConfig G.SnapshotID S)) = (Except.ok created, ca) →
      ExecuteSnapshotJob env ca created (60 * 1000000000) = ((res, none), cb) →
      g.snapshotManager.RetrieveSnapshotMetadata env
          (g.DeleteVolumeGroupSnapshot env c { GroupSnapshotId := id }).2 G.SnapshotID =
        Except.error (Errorf ("snapshot metadata not found: " ++ G.SnapshotID)) := by
  have hdel : (g.DeleteVolumeGroupSnapshot env c { GroupSnapshotId := id }).2 =
      (deleteFromConfigMap g.snapshotManager env (g.cleanupSnapshot env c G.SnapshotID).2
        "etcd-group-snapshot-metadata" id "failed to update group snapshot ConfigMap: ").2 := by
    unfold GroupControllerServer.DeleteVolumeGroupSnapshot Manager.DeleteGroupSnapshotMetadata
    simp only [hid, if_false, hG]
  obtain ⟨cmG, dG, hgetG, hkG, _⟩ := retrieveGroup_ok_inv g.snapshotManager env c id G hG
  obtain ⟨_, _, hns, hnm⟩ := configMapsGet_ok env c _ _ cmG hgetG
  have hgetG1 : ConfigMaps.Get env (g.cleanupSnapshot env c G.SnapshotID).2
      g.snapshotManager.namespace_ "etcd-group-snapshot-metadata" = Except.ok cmG :=
    (cleanupSnapshot_frame g env c G.SnapshotID _ _ (by decide)).trans hgetG
  have hdg := deleteFromConfigMap_present g.snapshotManager env
    (g.cleanupSnapshot env c G.SnapshotID).2 "etcd-group-snapshot-metadata" id
    "failed to update group snapshot ConfigMap: " cmG dG hgetG1 hkG hupdG
  constructor
  · rw [hdel, hdg]
    unfold Manager.RetrieveGroupSnapshotMetadata
    dsimp only
    rw [configMapsGet_replaced env _ _ _ cmG { cmG with Data := mapDelete cmG.Data id } hgetG1
      ⟨hns, hnm⟩]
    simp only [mapGet_mapDelete_self]
  · intro created ca res cb hj he
    obtain ⟨cm, hcm, hk⟩ := cleanupSnapshot_completed g env c G.SnapshotID S created ca cb res
      hS hupdS hj he
    have hfr := (deleteFromConfigMap_frame g.snapshotManager env
      (g.cleanupSnapshot env c G.SnapshotID).2 "etcd-group-snapshot-metadata" id
      "failed to update group snapshot ConfigMap: ").1 g.snapshotManager.namespace_
      "etcd-snapshot-metadata" (by decide)
    rw [hdel]
    unfold Manager.RetrieveSnapshotMetadata
    rw [hfr, hcm]
    simp only [hk]

set_option maxRecDepth 100000 in
/-- C11 as stated fails when the delete Job times out: on the store that scenario A leaves
behind, with an API server that refuses nothing, both records are stored, the delete Job
is created but does not finish before the deadline, `cleanupSnapshot` returns that error
before it reaches the snapshot-level record, the call succeeds and removes the group-level
record, and the snapshot-level record is still retrievable afterwards.  It also fails on
the empty group ID: the call is rejected and a record filed under the empty key stays. -/
theorem DeleteVolumeGroupSnapshot_keeps_snapshot_record :
    sampleServer.snapshotManager.RetrieveGroupSnapshotMetadata timeoutEnv storedCluster
      "daily-1700000000" = Except.ok sampleGroupRecord ∧
    sampleServer.snapshotManager.RetrieveSnapshotMetadata timeoutEnv storedCluster
      sampleGroupRecord.SnapshotID = Except.ok sampleSnapshotRecord ∧
    (∀ call, timeoutEnv.apiFault call = none) ∧
    (sampleServer.cleanupSnapshot timeoutEnv storedCluster sampleGroupRecord.SnapshotID).1 =
      some (Errorf "cleanup job failed: context deadline exceeded") ∧
    (sampleServer.DeleteVolumeGroupSnapshot timeoutEnv storedCluster
      { GroupSnapshotId := "daily-1700000000" }).1 = Except.ok {} ∧
    sampleServer.snapshotManager.RetrieveGroupSnapshotMetadata timeoutEnv
      (sampleServer.DeleteVolumeGroupSnapshot timeoutEnv storedCluster
        { GroupSnapshotId := "daily-1700000000" }).2 "daily-1700000000" =
      Except.error (Errorf "group snapshot metadata not found: daily-1700000000") ∧
    sampleServer.snapshotManager.RetrieveSnapshotMetadata timeoutEnv
      (sampleServer.DeleteVolumeGroupSnapshot timeoutEnv storedCluster
        { GroupSnapshotId := "daily-1700000000" }).2 sampleGroupRecord.SnapshotID =
      Except.ok sampleSnapshotRecord ∧
    sampleServer.snapshotManager.RetrieveGroupSnapshotMetadata sampleEnv emptyKeyCluster "" =
      Except.ok sampleGroupRecord ∧
    sampleServer.snapshotManager.RetrieveSnapshotMetadata sampleEnv emptyKeyCluster
      sampleGroupRecord.SnapshotID = Except.ok sampleSnapshotRecord ∧
    sampleServer.snapshotManager.RetrieveGroupSnapshotMetadata sampleEnv
      (sampleServer.DeleteVolumeGroupSnapshot sampleEnv emptyKeyCluster
        { GroupSnapshotId := "" }).2 "" = Except.ok sampleGroupRecord :=
  ⟨by decide, by decide, fun _ => rfl, by decide, by decide, by decide, by decide, by decide,
    by decide, by decide⟩

set_option maxRecDepth 100000 in
/-- The amended C11 on the store that scenario A leaves behind, with a delete Job that
succeeds at the first tick: both records are stored before the call and neither is
retrievable after it. -/
theorem DeleteVolumeGroupSnapshot_removes_records_witness :
    "daily-1700000000" ≠ "" ∧
    sampleServer.snapshotManager.RetrieveGroupSnapshotMetadata sampleEnv storedCluster
      "daily-1700000000" = Except.ok sampleGroupRecord ∧
    sampleServer.snapshotManager.RetrieveSnapshotMetadata sampleEnv storedCluster
      sampleGroupRecord.SnapshotID = Except.ok sampleSnapshotRecord ∧
    (ExecuteSnapshotJob sampleEnv (Jobs.Create sampleEnv storedCluster "ns1" sampleDeleteJob).2
      sampleDeleteJob (60 * 1000000000)).1.2 = none ∧
    sampleServer.snapshotManager.RetrieveGroupSnapshotMetadata sampleEnv
      (sampleServer.DeleteVolumeGroupSnapshot sampleEnv storedCluster
        { GroupSnapshotId := "daily-1700000000" }).2 "daily-1700000000" =
      Except.error (Errorf "group snapshot metadata not found: daily-1700000000") ∧
    sampleServer.snapshotManager.RetrieveSnapshotMetadata sampleEnv
      (sampleServer.DeleteVolumeGroupSnapshot sampleEnv storedCluster
        { GroupSnapshotId := "daily-1700000000" }).2 sampleGroupRecord.SnapshotID =
      Except.error (Errorf "snapshot metadata not found: daily-1700000000-1700000000") :=
  ⟨by decide, by decide, by decide, by decide,
    (DeleteVolumeGroupSnapshot_removes_records sampleServer sampleEnv storedCluster
      "daily-1700000000" sampleGroupRecord sampleSnapshotRecord (by decide) (by decide)
      (by decide) rfl rfl).1,
    (DeleteVolumeGroupSnapshot_removes_records sampleServer sampleEnv storedCluster
      "daily-1700000000" sampleGroupRecord sampleSnapshotRecord (by decide) (by decide)
      (by decide) rfl rfl).2 sampleDeleteJob
      (Jobs.Create sampleEnv storedCluster "ns1" sampleDeleteJob).2
      (ExecuteSnapshotJob sampleEnv (Jobs.Create sampleEnv storedCluster "ns1" sampleDeleteJob).2
        sampleDeleteJob (60 * 1000000000)).1.1
      (ExecuteSnapshotJob sampleEnv (Jobs.Create sampleEnv storedCluster "ns1" sampleDeleteJob).2
        sampleDeleteJob (60 * 1000000000)).2
      (by decide) (by decide)⟩

/-- The first loop of `ValidateHealth` counts the members that are not learners. -/
theorem countVoting_eq (members : List Member) (n : Nat) :
    countVoting members n = n + (members.filter (fun member => !member.IsLearner)).length := by
  induction members generalizing n with
  | nil => simp [countVoting]
  | cons member rest ih =>
    unfold countVoting
    cases hl : member.IsLearner with
    | true => simp [ih, hl]
    | false =>
      simp [ih, hl]
      omega

/-- The second loop of `ValidateHealth` when every voting member can be probed: it counts
the voting members that answer and looks for the header's member ID among the voting
members. -/
theorem probeMembers_complete (env : Env) (headerMemberId : Nat) (members : List Member)
    (h : ∀ member, member ∈ members.filter (fun member => !member.IsLearner) →
      ∃ memberEndpoint rest, member.ClientURLs = memberEndpoint :: rest ∧
        env.etcdNew [memberEndpoint] = none)
    (healthyMembers : Nat) (hasLeader : Bool) :
    probeMembers env headerMemberId members healthyMembers hasLeader =
      Except.ok
        (healthyMembers +
          ((members.filter (fun member => !member.IsLearner)).filter
            (answersLivenessRead env)).length,
         hasLeader || (members.filter (fun member => !member.IsLearner)).any
            (fun member => decide (headerMemberId = member.ID))) := by
  induction members generalizing healthyMembers hasLeader with
  | nil => simp [probeMembers]
  | cons member rest ih =>
    unfold probeMembers
    cases hl : member.IsLearner with
    | true =>
      have h' : ∀ member, member ∈ rest.filter (fun member => !member.IsLearner) →
          ∃ memberEndpoint rest, member.ClientURLs = memberEndpoint :: rest ∧
            env.etcdNew [memberEndpoint] = none := by
        intro x hx
        apply h x
        simp only [List.filter_cons, hl]
        simpa using hx
      simp [ih h', hl]
    | false =>
      have hmem : member ∈ (member :: rest).filter (fun member => !member.IsLearner) := by
        simp [List.filter_cons, hl]
      have h' : ∀ member, member ∈ rest.filter (fun member => !member.IsLearner) →
          ∃ memberEndpoint rest, member.ClientURLs = memberEndpoint :: rest ∧
            env.etcdNew [memberEndpoint] = none := by
        intro x hx
        apply h x
        simp only [List.filter_cons, hl]
        simp only [Bool.not_false, if_true]
        exact List.mem_cons_of_mem _ hx
      obtain ⟨url, tl, hurl, hnew⟩ := h member hmem
      simp only [Bool.false_eq_true, if_false, hurl, hnew]
      cases hget : env.etcdGet url with
      | none =>
        simp only [ih h']
        by_cases hid : headerMemberId = member.ID
        · simp [List.filter_cons, hl, answersLivenessRead, hurl, hnew, hget, hid]
          omega
        · simp [List.filter_cons, hl, answersLivenessRead, hurl, hnew, hget, hid]
          omega
      | some e =>
        simp only [ih h']
        by_cases hid : headerMemberId = member.ID
        · simp [List.filter_cons, hl, answersLivenessRead, hurl, hnew, hget, hid]
        · simp [List.filter_cons, hl, answersLivenessRead, hurl, hnew, hget, hid]

/-- The healthy voting members are among the voting members. -/
theorem healthyCount_le (env : Env) (memberList : MemberListResponse) :
    healthyCount env memberList ≤ (votingMembersOf memberList).length :=
  List.length_filter_le _ _

/-- On a retrieved member list whose voting members can all be probed, `ValidateHealth`
returns nil exactly when the healthy voting members reach the quorum and a leader is
identified, and an error otherwise. -/
theorem ValidateHealth_of_probes_complete (hv : HealthValidator) (env : Env)
    (endpoints : List String) (memberList : MemberListResponse)
    (hne : endpoints.length ≠ 0) (hnew : env.etcdNew endpoints = none)
    (hml : env.etcdMemberList endpoints = Except.ok memberList)
    (hprobe : probesComplete env memberList) :
    (hv.ValidateHealth env endpoints = Except.ok () ↔
      quorumRequired (votingMembersOf memberList).length ≤ healthyCount env memberList ∧
        leaderIdentified memberList = true) ∧
    (¬ (quorumRequired (votingMembersOf memberList).length ≤ healthyCount env memberList ∧
        leaderIdentified memberList = true) →
      ∃ e, hv.ValidateHealth env endpoints = Except.error (Throw.error e)) := by
  have hle := healthyCount_le env memberList
  have hcount : countVoting memberList.Members 0 = (votingMembersOf memberList).length := by
    rw [countVoting_eq, Nat.zero_add]
    rfl
  have hloop := probeMembers_complete env memberList.Header.MemberId memberList.Members hprobe
    0 false
  rw [Nat.zero_add, Bool.false_or] at hloop
  change probeMembers env memberList.Header.MemberId memberList.Members 0 false =
    Except.ok (healthyCount env memberList, leaderIdentified memberList) at hloop
  unfold HealthValidator.ValidateHealth
  simp only [hne, if_false, hnew, hml, hcount, hloop]
  by_cases h0 : memberList.Members.length = 0
  · have hv0 : (votingMembersOf memberList).length = 0 := by
      unfold votingMembersOf
      rw [List.length_eq_zero] at h0
      rw [h0]
      rfl
    have hq : ¬ (quorumRequired (votingMembersOf memberList).length ≤
        healthyCount env memberList) := by
      unfold quorumRequired
      omega
    simp only [h0, if_true]
    refine ⟨⟨?_, ?_⟩, ?_⟩
    · intro h
      cases h
    · intro h
      exact absurd h.1 hq
    · intro _
      exact ⟨_, rfl⟩
  · simp only [h0, if_false]
    by_cases hv0 : (votingMembersOf memberList).length = 0
    · have hq : ¬ (quorumRequired (votingMembersOf memberList).length ≤
          healthyCount env memberList) := by
        unfold quorumRequired
        omega
      simp only [hv0, if_true]
      rw [hv0] at hq
      refine ⟨⟨?_, ?_⟩, ?_⟩
      · intro h
        cases h
      · intro h
        exact absurd h.1 hq
      · intro _
        exact ⟨_, rfl⟩
    · simp only [hv0, if_false]
      by_cases hq : healthyCount env memberList <
          quorumRequired (votingMembersOf memberList).length
      · simp only [hq, if_true]
        refine ⟨⟨?_, ?_⟩, ?_⟩
        · intro h
          cases h
        · intro h
          exact absurd h.1 (by omega)
        · intro _
          exact ⟨_, rfl⟩
      · simp only [hq, if_false]
        have hq' : quorumRequired (votingMembersOf memberList).length ≤
            healthyCount env memberList := by omega
        cases hl : leaderIdentified memberList with
        | false =>
          simp only [Bool.not_false, if_true]
          refine ⟨⟨?_, ?_⟩, ?_⟩
          · intro h
            cases h
          · intro h
            simp at h
          · intro _
            exact ⟨_, rfl⟩
        | true =>
          simp only [Bool.not_true, Bool.false_eq_true, if_false]
          refine ⟨⟨?_, ?_⟩, ?_⟩
          · intro _
            exact ⟨hq', trivial⟩
          · intro _
            trivial
          · intro h
            exact absurd ⟨hq', trivial⟩ h

/-! ## ValidateHealth: quorum and leader -/

/-- C18 fails on a member list with a voting member that cannot be probed.  With three
voting members of which one is down (no client for its URL can be constructed), two
members answer the liveness read, the quorum is two and the leader is identified, yet
`ValidateHealth` returns neither nil nor an error: it calls `Close` on the nil client and
panics.  With four voting members of which one advertises no client URL, three answer,
the quorum is three and the leader is identified, and `ValidateHealth` panics on
`ClientURLs[0]`. -/
theorem ValidateHealth_panics_with_quorum :
    memberDownEnv.etcdMemberList ["https://etcd-0:2379"] = Except.ok threeMembers ∧
    (votingMembersOf threeMembers).length = 3 ∧
    healthyCount memberDownEnv threeMembers = 2 ∧
    quorumRequired (votingMembersOf threeMembers).length = 2 ∧
    leaderIdentified threeMembers = true ∧
    NewHealthValidator.ValidateHealth memberDownEnv ["https://etcd-0:2379"] =
      Except.error
        (Throw.panic "runtime error: invalid memory address or nil pointer dereference") ∧
    memberUnstartedEnv.etcdMemberList ["https://etcd-0:2379"] = Except.ok fourMembers ∧
    (votingMembersOf fourMembers).length = 4 ∧
    healthyCount memberUnstartedEnv fourMembers = 3 ∧
    quorumRequired (votingMembersOf fourMembers).length = 3 ∧
    leaderIdentified fourMembers = true ∧
    NewHealthValidator.ValidateHealth memberUnstartedEnv ["https://etcd-0:2379"] =
      Except.error (Throw.panic "runtime error: index out of range [0] with length 0") :=
  ⟨by decide, by decide, by decide, by decide, by decide, by decide, by decide, by decide,
    by decide, by decide, by decide, by decide⟩

/-- C19: the quorum threshold `quorumRequired v = v / 2 + 1` of `ValidateHealth` is
monotonic in the number of voting members. -/
theorem quorumRequired_monotone (v v' : Nat) (h : v ≤ v') :
    quorumRequired v ≤ quorumRequired v' := by
  unfold quorumRequired
  exact Nat.add_le_add_right (Nat.div_le_div_right h) 1

/-- C19 from three to four voting members: the threshold goes from two to three. -/
theorem quorumRequired_monotone_witness :
    3 ≤ 4 ∧ quorumRequired 3 = 2 ∧ quorumRequired 4 = 3 ∧ quorumRequired 3 ≤ quorumRequired 4 :=
  ⟨by decide, by decide, by decide, quorumRequired_monotone 3 4 (by decide)⟩

/-- A decimal digit character denotes its digit. -/
theorem digitChar_value (k : Nat) (h : k < 10) : (Nat.digitChar k).toNat - 48 = k := by
  interval_cases k <;> rfl

/-- A decimal digit character is not the separator. -/
theorem digitChar_ne_dash (k : Nat) (h : k < 10) : Nat.digitChar k ≠ '-' := by
  interval_cases k <;> decide

/-- The digits that `Nat.toDigitsCore` writes denote the number. -/
theorem toDigitsCore_value (fuel n : Nat) (ds : List Char) (h : n < fuel) :
    decimalValue 0 (Nat.toDigitsCore 10 fuel n ds) = decimalValue n ds := by
  induction fuel generalizing n ds with
  | zero => omega
  | succ fuel ih =>
    unfold Nat.toDigitsCore
    have hd := digitChar_value (n % 10) (Nat.mod_lt n (by decide))
    by_cases h0 : n / 10 = 0
    · simp only [h0, if_true]
      show decimalValue (10 * 0 + ((Nat.digitChar (n % 10)).toNat - 48)) ds = decimalValue n ds
      rw [hd]
      congr 1
      omega
    · simp only [h0, if_false]
      rw [ih (n / 10) _ (by omega)]
      show decimalValue (10 * (n / 10) + ((Nat.digitChar (n % 10)).toNat - 48)) ds =
        decimalValue n ds
      rw [hd]
      congr 1
      omega

/-- The digits that `Nat.toDigitsCore` writes hold no separator. -/
theorem toDigitsCore_no_dash (fuel n : Nat) (ds : List Char) (h : '-' ∉ ds) :
    '-' ∉ Nat.toDigitsCore 10 fuel n ds := by
  induction fuel generalizing n ds with
  | zero => exact h
  | succ fuel ih =>
    unfold Nat.toDigitsCore
    have hd := digitChar_ne_dash (n % 10) (Nat.mod_lt n (by decide))
    have hcons : '-' ∉ Nat.digitChar (n % 10) :: ds := by
      intro hmem
      rcases List.mem_cons.mp hmem with h1 | h1
      · exact hd h1.symm
      · exact h h1
    by_cases h0 : n / 10 = 0
    · simp only [h0, if_true]
      exact hcons
    · simp only [h0, if_false]
      exact ih _ _ hcons

/-- The decimal text of a natural number denotes the number. -/
theorem decimalValue_toString (n : Nat) : decimalValue 0 (toString n).data = n :=
  toDigitsCore_value (n + 1) n [] (Nat.lt_succ_self n)

/-- The decimal text of a natural number holds no separator. -/
theorem toString_nat_no_dash (n : Nat) : '-' ∉ (toString n).data :=
  toDigitsCore_no_dash (n + 1) n [] (List.not_mem_nil _)

/-- The text that `%d` writes for a number that is not negative is that of a natural
number. -/
theorem toString_int_nonneg (z : Int) (h : 0 ≤ z) : toString z = toString z.toNat := by
  cases z with
  | ofNat k => rfl
  | negSucc k => exact absurd h (by simp)

/-- Two numbers that are not negative and have the same decimal text are equal. -/
theorem toString_int_inj (z z' : Int) (h : 0 ≤ z) (h' : 0 ≤ z')
    (heq : toString z = toString z') : z = z' := by
  rw [toString_int_nonneg z h, toString_int_nonneg z' h'] at heq
  have := congrArg (fun s : String => decimalValue 0 s.data) heq
  simp only [decimalValue_toString] at this
  omega

/-- Two lists that agree and are split at the first occurrence of an element have the
same parts. -/
theorem split_at_first {α : Type} (x : α) (l1 l2 r1 r2 : List α) (h1 : x ∉ l1) (h2 : x ∉ l2)
    (h : l1 ++ x :: r1 = l2 ++ x :: r2) : l1 = l2 ∧ r1 = r2 := by
  induction l1 generalizing l2 with
  | nil =>
    cases l2 with
    | nil => exact ⟨rfl, by simpa using h⟩
    | cons b l2 =>
      have hx : x = b := by simpa using (List.cons.inj h).1
      exact absurd (hx ▸ List.mem_cons_self _ _) h2
  | cons a l1 ih =>
    cases l2 with
    | nil =>
      have hx : a = x := by simpa using (List.cons.inj h).1
      exact absurd (hx ▸ List.mem_cons_self _ _) h1
    | cons b l2 =>
      have hh := List.cons.inj h
      obtain ⟨e1, e2⟩ := ih l2 (fun hm => h1 (List.mem_cons_of_mem _ hm))
        (fun hm => h2 (List.mem_cons_of_mem _ hm)) hh.2
      exact ⟨by rw [hh.1, e1], e2⟩

/-- Two lists that agree and are split at the last occurrence of an element have the same
parts. -/
theorem split_at_last {α : Type} (x : α) (l1 l2 r1 r2 : List α) (h1 : x ∉ r1) (h2 : x ∉ r2)
    (h : l1 ++ x :: r1 = l2 ++ x :: r2) : l1 = l2 ∧ r1 = r2 := by
  have hr := congrArg List.reverse h
  simp only [List.reverse_append, List.reverse_cons, List.append_assoc, List.singleton_append]
    at hr
  obtain ⟨e1, e2⟩ := split_at_first x r1.reverse r2.reverse l1.reverse l2.reverse
    (by simpa using h1) (by simpa using h2) hr
  exact ⟨List.reverse_injective e2, List.reverse_injective e1⟩

/-- An ID `name-seconds` determines the name and the seconds, for seconds that are not
negative. -/
theorem id_eq_iff (a a' : String) (z z' : Int) (h : 0 ≤ z) (h' : 0 ≤ z') :
    a ++ "-" ++ toString z = a' ++ "-" ++ toString z' ↔ a = a' ∧ z = z' := by
  constructor
  · intro heq
    have hd := congrArg String.data heq
    simp only [String.data_append] at hd
    rw [List.append_assoc, List.append_assoc, List.singleton_append,
      List.singleton_append] at hd
    have n1 : '-' ∉ (toString z).data := by
      rw [toString_int_nonneg z h]
      exact toString_nat_no_dash _
    have n2 : '-' ∉ (toString z').data := by
      rw [toString_int_nonneg z' h']
      exact toString_nat_no_dash _
    obtain ⟨e1, e2⟩ := split_at_last '-' _ _ _ _ n1 n2 hd
    exact ⟨String.ext e1, toString_int_inj z z' h h' (String.ext e2)⟩
  · rintro ⟨rfl, rfl⟩
    rfl

/-- The IDs in a response of `CreateVolumeGroupSnapshot` are the ones built from the
request name and the first two clock readings. -/
theorem create_ok_ids (g : GroupControllerServer) (env : Env) (c c' : Cluster)
    (req : CreateVolumeGroupSnapshotRequest) (resp : CreateVolumeGroupSnapshotResponse)
    (h : g.CreateVolumeGroupSnapshot env c req = (Except.ok resp, c')) :
    resp.GroupSnapshot.GroupSnapshotId = groupSnapshotIDOf env req ∧
    resp.GroupSnapshot.Snapshots.map (fun s => s.SnapshotId) = [snapshotIDOf env req] := by
  unfold GroupControllerServer.CreateVolumeGroupSnapshot at h
  dsimp only at h
  split at h
  · cases h
  split at h
  · cases h
  split at h
  · cases h
  split at h
  · cases h
  split at h
  · cases h
  split at h
  · cases h
  split at h
  · cases h
  split at h
  · cases h
  split at h
  · cases h
  cases h
  exact ⟨rfl, rfl⟩

/-! ## The IDs of CreateVolumeGroupSnapshot -/

set_option maxRecDepth 100000 in
/-- C20 as stated fails for two invocations with the same request name within one second
of the clock: scenario A, and the same request again on the state that scenario A left
behind, both return a response, with the same group-snapshot ID and the same snapshot ID.
With a clock before the epoch the text of the seconds starts with the separator, and the
requests "daily" at second -5 and "daily-" at second 5 get the same group-snapshot ID. -/
theorem CreateVolumeGroupSnapshot_same_second_same_ids :
    sampleServer.CreateVolumeGroupSnapshot sampleEnv clusterOne requestOne =
      (Except.ok responseOne, storedCluster) ∧
    (sampleServer.CreateVolumeGroupSnapshot sampleEnv storedCluster requestOne).1 =
      Except.ok responseOne ∧
    (sampleServer.CreateVolumeGroupSnapshot
        { sampleEnv with now := fun _ => { sec := -5, nsec := 0 } } clusterOne requestOne).1.map
      (fun r => r.GroupSnapshot.GroupSnapshotId) = Except.ok "daily--5" ∧
    (sampleServer.CreateVolumeGroupSnapshot
        { sampleEnv with now := fun _ => { sec := 5, nsec := 0 } } clusterOne
        { requestOne with Name := "daily-" }).1.map
      (fun r => r.GroupSnapshot.GroupSnapshotId) = Except.ok "daily--5" :=
  ⟨by decide, by decide, by decide, by decide⟩

/-- C20, amended: two CreateVolumeGroupSnapshot invocations that return a response, with
clock readings not before the epoch, produce different group-snapshot IDs and different
snapshot IDs whenever their request names differ or they start in different seconds of the
clock, including two invocations with the same request name; two invocations with the
same request name that start in the same second produce the same group-snapshot ID, and
the same snapshot ID when their second clock readings fall in the same second too. -/
theorem CreateVolumeGroupSnapshot_ids_differ (g g' : GroupControllerServer) (env env' : Env)
    (c c' d d' : Cluster) (req req' : CreateVolumeGroupSnapshotRequest)
    (resp resp' : CreateVolumeGroupSnapshotResponse)
    (h0 : 0 ≤ (env.now 0).Unix) (h1 : 0 ≤ (env.now 1).Unix)
    (h0' : 0 ≤ (env'.now 0).Unix) (h1' : 0 ≤ (env'.now 1).Unix)
    (hr : g.CreateVolumeGroupSnapshot env c req = (Except.ok resp, d))
    (hr' : g'.CreateVolumeGroupSnapshot env' c' req' = (Except.ok resp', d')) :
    (req.Name ≠ req'.Name ∨ (env.now 0).Unix ≠ (env'.now 0).Unix →
      resp.GroupSnapshot.GroupSnapshotId ≠ resp'.GroupSnapshot.GroupSnapshotId ∧
      ∀ s s', s ∈ resp.GroupSnapshot.Snapshots → s' ∈ resp'.GroupSnapshot.Snapshots →
        s.SnapshotId ≠ s'.SnapshotId) ∧
    (req.Name = req'.Name ∧ (env.now 0).Unix = (env'.now 0).Unix →
      resp.GroupSnapshot.GroupSnapshotId = resp'.GroupSnapshot.GroupSnapshotId ∧
      ((env.now 1).Unix = (env'.now 1).Unix →
        resp.GroupSnapshot.Snapshots.map (fun s => s.SnapshotId) =
          resp'.GroupSnapshot.Snapshots.map (fun s => s.SnapshotId))) := by
  obtain ⟨e1, e2⟩ := create_ok_ids g env c d req resp hr
  obtain ⟨e1', e2'⟩ := create_ok_ids g' env' c' d' req' resp' hr'
  have hgid := id_eq_iff req.Name req'.Name (env.now 0).Unix (env'.now 0).Unix h0 h0'
  have hsid := id_eq_iff (req.Name ++ "-" ++ toString (env.now 0).Unix)
    (req'.Name ++ "-" ++ toString (env'.now 0).Unix) (env.now 1).Unix (env'.now 1).Unix h1 h1'
  constructor
  · intro hne
    have hg : groupSnapshotIDOf env req ≠ groupSnapshotIDOf env' req' := by
      unfold groupSnapshotIDOf
      intro heq
      obtain ⟨n1, n2⟩ := hgid.mp heq
      rcases hne with hne | hne
      · exact hne n1
      · exact hne n2
    refine ⟨by rw [e1, e1']; exact hg, ?_⟩
    intro s s' hs hs' heq
    have m1 : s.SnapshotId ∈ resp.GroupSnapshot.Snapshots.map (fun s => s.SnapshotId) :=
      List.mem_map_of_mem _ hs
    have m2 : s'.SnapshotId ∈ resp'.GroupSnapshot.Snapshots.map (fun s => s.SnapshotId) :=
      List.mem_map_of_mem _ hs'
    rw [e2, List.mem_singleton] at m1
    rw [e2', List.mem_singleton] at m2
    rw [m1, m2] at heq
    unfold snapshotIDOf at heq
    exact hg (hsid.mp heq).1
  · rintro ⟨n1, n2⟩
    refine ⟨?_, fun n3 => ?_⟩
    · rw [e1, e1']
      unfold groupSnapshotIDOf
      rw [n1, n2]
    · rw [e2, e2']
      unfold snapshotIDOf
      rw [n1, n2, n3]

set_option maxRecDepth 100000 in
/-- The amended C20 on scenario A and the same request one second later: both return a
response, and the group-snapshot IDs and the snapshot IDs differ. -/
theorem CreateVolumeGroupSnapshot_ids_differ_witness :
    sampleServer.CreateVolumeGroupSnapshot sampleEnv clusterOne requestOne =
      (Except.ok responseOne, storedCluster) ∧
    (sampleServer.CreateVolumeGroupSnapshot laterEnv storedCluster requestOne).1 =
      Except.ok responseLater ∧
    (sampleEnv.now 0).Unix ≠ (laterEnv.now 0).Unix ∧
    responseOne.GroupSnapshot.GroupSnapshotId ≠ responseLater.GroupSnapshot.GroupSnapshotId ∧
    ∀ s s', s ∈ responseOne.GroupSnapshot.Snapshots → s' ∈ responseLater.GroupSnapshot.Snapshots →
      s.SnapshotId ≠ s'.SnapshotId := by
  have hr : sampleServer.CreateVolumeGroupSnapshot sampleEnv clusterOne requestOne =
      (Except.ok responseOne, storedCluster) := by decide
  have hr' : sampleServer.CreateVolumeGroupSnapshot laterEnv storedCluster requestOne =
      (Except.ok responseLater,
        (sampleServer.CreateVolumeGroupSnapshot laterEnv storedCluster requestOne).2) := by
    decide
  have hne : (sampleEnv.now 0).Unix ≠ (laterEnv.now 0).Unix := by decide
  have h := (CreateVolumeGroupSnapshot_ids_differ sampleServer sampleServer sampleEnv laterEnv
    clusterOne storedCluster storedCluster _ requestOne requestOne responseOne responseLater
    (by decide) (by decide) (by decide) (by decide) hr hr').1 (Or.inr hne)
  exact ⟨hr, by decide, hne, h.1, h.2⟩

/-! ## DiscoverCluster -/

/-- The method `discoverByLabel` when the List call is not refused and some pod matches. -/
theorem discoverByLabel_ok (d : Discovery) (env : Env) (c : Cluster) (ns clusterName : String)
    (hlist : env.apiFault (ApiCall.listPods ns d.clusterLabelKey clusterName) = none)
    (hpods : matchingPods c ns d.clusterLabelKey clusterName ≠ []) :
    d.discoverByLabel env c ns clusterName =
      Except.ok
        { Name := clusterName
          Namespace := ns
          Endpoints := (matchingPods c ns d.clusterLabelKey clusterName).map
            (fun pod => endpointOf pod.Name ns)
          HasQuorum := decide ((matchingPods c ns d.clusterLabelKey clusterName).length ≥ 3) } := by
  have hlen : ¬ (matchingPods c ns d.clusterLabelKey clusterName).length = 0 :=
    fun h0 => hpods (List.length_eq_zero.mp h0)
  unfold Discovery.discoverByLabel Pods.List
  simp only [hlist]
  unfold matchingPods at hlen
  simp only [hlen, if_false]
  rfl

/-- The method `discoverByLabel` when no pod matches. -/
theorem discoverByLabel_no_pods (d : Discovery) (env : Env) (c : Cluster)
    (ns clusterName : String)
    (hpods : matchingPods c ns d.clusterLabelKey clusterName = []) :
    ∃ e, d.discoverByLabel env c ns clusterName = Except.error e := by
  unfold Discovery.discoverByLabel Pods.List
  cases env.apiFault (ApiCall.listPods ns d.clusterLabelKey clusterName) with
  | some e => exact ⟨_, rfl⟩
  | none =>
    unfold matchingPods at hpods
    simp only [hpods, List.length_nil, if_true]
    exact ⟨_, rfl⟩

/-- C21: for every volume whose PVC the API returns with the configured cluster label and
for which the pods of its namespace with the same label value are n >= 1 (the List call
not being refused), DiscoverCluster returns a ClusterInfo whose name is the label value,
whose namespace is that of the volume, whose endpoint list has exactly n entries, the i-th
being "https://<name of pod i>.<namespace>.svc.cluster.local:2379" in pod-list order, and
whose hasQuorum is true exactly when n >= 3; and it fails when the cluster holds no PVC of
that name, when the label is missing, and when no pod matches. -/
theorem DiscoverCluster_by_label (d : Discovery) (env : Env) (c : Cluster)
    (ns name : String) :
    (∀ (pvc : PersistentVolumeClaim) (clusterName : String),
      PersistentVolumeClaims.Get env c ns name = Except.ok pvc →
      mapGet pvc.Labels d.clusterLabelKey = some clusterName →
      env.apiFault (ApiCall.listPods ns d.clusterLabelKey clusterName) = none →
      matchingPods c ns d.clusterLabelKey clusterName ≠ [] →
      ∃ info, d.DiscoverCluster env c ns name = Except.ok info ∧
        info.Name = clusterName ∧ info.Namespace = ns ∧
        info.Endpoints.length = (matchingPods c ns d.clusterLabelKey clusterName).length ∧
        (∀ (i : Nat) (pod : Pod),
          (matchingPods c ns d.clusterLabelKey clusterName)[i]? = some pod →
          info.Endpoints[i]? =
            some ("https://" ++ pod.Name ++ "." ++ ns ++ ".svc.cluster.local:2379")) ∧
        (info.HasQuorum = true ↔
          3 ≤ (matchingPods c ns d.clusterLabelKey clusterName).length)) ∧
    (c.pvcs.find? (fun p => decide (p.Namespace = ns ∧ p.Name = name)) = none →
      ∃ e, d.DiscoverCluster env c ns name = Except.error e) ∧
    (∀ (pvc : PersistentVolumeClaim),
      PersistentVolumeClaims.Get env c ns name = Except.ok pvc →
      mapGet pvc.Labels d.clusterLabelKey = none →
      ∃ e, d.DiscoverCluster env c ns name = Except.error e) ∧
    (∀ (pvc : PersistentVolumeClaim) (clusterName : String),
      PersistentVolumeClaims.Get env c ns name = Except.ok pvc →
      mapGet pvc.Labels d.clusterLabelKey = some clusterName →
      matchingPods c ns d.clusterLabelKey clusterName = [] →
      ∃ e, d.DiscoverCluster env c ns name = Except.error e) := by
  refine ⟨?_, ?_, ?_, ?_⟩
  · intro pvc clusterName hget hlabel hlist hpods
    refine ⟨⟨clusterName, ns,
      (matchingPods c ns d.clusterLabelKey clusterName).map (fun pod => endpointOf pod.Name ns),
      decide ((matchingPods c ns d.clusterLabelKey clusterName).length ≥ 3)⟩,
      ?_, rfl, rfl, ?_, ?_, ?_⟩
    · unfold Discovery.DiscoverCluster
      simp only [hget, hlabel]
      exact discoverByLabel_ok d env c ns clusterName hlist hpods
    · simp only [List.length_map]
    · intro i pod hi
      simp only [List.getElem?_map, hi, Option.map_some']
      rfl
    · simp only [decide_eq_true_eq, ge_iff_le]
  · intro habsent
    unfold Discovery.DiscoverCluster PersistentVolumeClaims.Get
    cases env.apiFault (ApiCall.getPVC ns name) with
    | some e => exact ⟨_, rfl⟩
    | none =>
      simp only [habsent]
      exact ⟨_, rfl⟩
  · intro pvc hget hlabel
    unfold Discovery.DiscoverCluster
    simp only [hget, hlabel]
    exact ⟨_, rfl⟩
  · intro pvc clusterName hget hlabel hpods
    unfold Discovery.DiscoverCluster
    simp only [hget, hlabel]
    exact discoverByLabel_no_pods d env c ns clusterName hpods

set_option maxRecDepth 100000 in
/-- C21 on the cluster of the discovery test: three pods give three endpoints in pod-list
order and quorum; and the PVC `default/other` does not exist, so its discovery fails. -/
theorem DiscoverCluster_by_label_witness :
    PersistentVolumeClaims.Get sampleEnv clusterTest "default" "etcd-pvc" =
      Except.ok (samplePVC "default" "etcd-pvc" "test-cluster" "Bound") ∧
    (matchingPods clusterTest "default" "etcd.io/cluster" "test-cluster").length = 3 ∧
    (∃ info, (NewDiscovery "etcd.io/cluster").DiscoverCluster sampleEnv clusterTest "default"
        "etcd-pvc" = Except.ok info ∧
      info.Name = "test-cluster" ∧ info.Namespace = "default" ∧
      info.Endpoints.length =
        (matchingPods clusterTest "default" "etcd.io/cluster" "test-cluster").length ∧
      (∀ (i : Nat) (pod : Pod),
        (matchingPods clusterTest "default" "etcd.io/cluster" "test-cluster")[i]? = some pod →
        info.Endpoints[i]? =
          some ("https://" ++ pod.Name ++ "." ++ "default" ++ ".svc.cluster.local:2379")) ∧
      (info.HasQuorum = true ↔
        3 ≤ (matchingPods clusterTest "default" "etcd.io/cluster" "test-cluster").length)) ∧
    (NewDiscovery "etcd.io/cluster").DiscoverCluster sampleEnv clusterTest "default" "etcd-pvc" =
      Except.ok
        { Name := "test-cluster"
          Namespace := "default"
          Endpoints :=
            [ "https://etcd-0.default.svc.cluster.local:2379",
              "https://etcd-1.default.svc.cluster.local:2379",
              "https://etcd-2.default.svc.cluster.local:2379" ]
          HasQuorum := true } ∧
    (∃ e, (NewDiscovery "etcd.io/cluster").DiscoverCluster sampleEnv clusterTest "default"
      "other" = Except.error e) :=
  ⟨by decide, by decide,
    (DiscoverCluster_by_label (NewDiscovery "etcd.io/cluster") sampleEnv clusterTest "default"
      "etcd-pvc").1 (samplePVC "default" "etcd-pvc" "test-cluster" "Bound") "test-cluster"
      (by decide) (by decide) rfl (by decide),
    by decide,
    (DiscoverCluster_by_label (NewDiscovery "etcd.io/cluster") sampleEnv clusterTest "default"
      "other").2.1 (by decide)⟩

/-! ## EnsureSnapshotPVC -/

/-- C22: for every namespace in which the API returns a PVC named "etcd-snapshots" (when
the Get is not refused: in which the cluster holds one), EnsureSnapshotPVC returns
"etcd-snapshots" with no error and leaves the platform state unchanged, whatever the
existing PVC is and whatever the configured size string and storage class are. -/
theorem EnsureSnapshotPVC_reuses_existing (p : SnapshotPVCProvisioner) (env : Env)
    (c : Cluster) (ns : String) (pvc : PersistentVolumeClaim) :
    (PersistentVolumeClaims.Get env c ns "etcd-snapshots" = Except.ok pvc →
      p.EnsureSnapshotPVC env c ns = (Except.ok "etcd-snapshots", c)) ∧
    (env.apiFault (ApiCall.getPVC ns "etcd-snapshots") = none →
      c.pvcs.find? (fun q => decide (q.Namespace = ns ∧ q.Name = "etcd-snapshots")) = some pvc →
      p.EnsureSnapshotPVC env c ns = (Except.ok "etcd-snapshots", c)) := by
  have key : PersistentVolumeClaims.Get env c ns "etcd-snapshots" = Except.ok pvc →
      p.EnsureSnapshotPVC env c ns = (Except.ok "etcd-snapshots", c) := by
    intro hget
    unfold SnapshotPVCProvisioner.EnsureSnapshotPVC snapshotPVCName
    simp only [hget]
  exact ⟨key, fun hfault hfind => key ((getPVC_ok_iff env c ns _ pvc hfault).mpr hfind)⟩

set_option maxRecDepth 100000 in
/-- C22 on a namespace whose snapshot PVC is still pending and has another size, access
mode and storage class than the configured ones, also with a size that cannot be parsed. -/
theorem EnsureSnapshotPVC_reuses_existing_witness :
    strictSizeEnv.apiFault (ApiCall.getPVC "test-ns" "etcd-snapshots") = none ∧
    (∃ pvc, clusterPendingSnapshotPVC.pvcs.find?
        (fun q => decide (q.Namespace = "test-ns" ∧ q.Name = "etcd-snapshots")) = some pvc ∧
      pvc.Phase = "Pending") ∧
    (NewSnapshotPVCProvisioner "gp2" "10Gi").EnsureSnapshotPVC strictSizeEnv
      clusterPendingSnapshotPVC "test-ns" = (Except.ok "etcd-snapshots", clusterPendingSnapshotPVC) ∧
    (NewSnapshotPVCProvisioner "" "not-a-size").EnsureSnapshotPVC strictSizeEnv
      clusterPendingSnapshotPVC "test-ns" =
        (Except.ok "etcd-snapshots", clusterPendingSnapshotPVC) :=
  ⟨rfl, ⟨_, rfl, rfl⟩,
    (EnsureSnapshotPVC_reuses_existing (NewSnapshotPVCProvisioner "gp2" "10Gi") strictSizeEnv
      clusterPendingSnapshotPVC "test-ns" _).2 rfl rfl,
    (EnsureSnapshotPVC_reuses_existing (NewSnapshotPVCProvisioner "" "not-a-size") strictSizeEnv
      clusterPendingSnapshotPVC "test-ns" _).2 rfl rfl⟩

/-- A Get of a name that the cluster does not hold, when not refused, reports NotFound. -/
theorem getPVC_absent (env : Env) (c : Cluster) (ns name : String)
    (hfault : env.apiFault (ApiCall.getPVC ns name) = none)
    (habsent : c.pvcs.find? (fun q => decide (q.Namespace = ns ∧ q.Name = name)) = none) :
    PersistentVolumeClaims.Get env c ns name =
      Except.error (notFound "persistentvolumeclaims" name) := by
  unfold PersistentVolumeClaims.Get
  simp only [hfault, habsent]

/-- C23: for every namespace in which the cluster holds no PVC named "etcd-snapshots"
(the Get not being refused): with a configured size that parses, and a Create that is not
refused, EnsureSnapshotPVC returns "etcd-snapshots" and adds exactly one PVC of that name
in that namespace, with access modes exactly [ReadWriteOnce], a storage request equal to
the parsed size, the label app=etcd-snapshot-driver, and a storage class field that is
unset when the configured storage class is the empty string and equal to it otherwise;
with a size that does not parse it fails with an error containing
"invalid snapshot PVC size" and the platform state is unchanged. -/
theorem EnsureSnapshotPVC_creates (p : SnapshotPVCProvisioner) (env : Env) (c : Cluster)
    (ns : String)
    (hfault : env.apiFault (ApiCall.getPVC ns "etcd-snapshots") = none)
    (habsent : c.pvcs.find?
      (fun q => decide (q.Namespace = ns ∧ q.Name = "etcd-snapshots")) = none) :
    (∀ quantity, env.parseQuantity p.pvcSize = Except.ok quantity →
      env.apiFault (ApiCall.createPVC ns "etcd-snapshots") = none →
      p.EnsureSnapshotPVC env c ns =
        (Except.ok "etcd-snapshots",
          { c with pvcs := c.pvcs ++ [snapshotClaim ns quantity p.storageClass] }) ∧
      (snapshotClaim ns quantity p.storageClass).Name = "etcd-snapshots" ∧
      (snapshotClaim ns quantity p.storageClass).Namespace = ns ∧
      (snapshotClaim ns quantity p.storageClass).AccessModes = ["ReadWriteOnce"] ∧
      (snapshotClaim ns quantity p.storageClass).Requests = [("storage", quantity)] ∧
      mapGet (snapshotClaim ns quantity p.storageClass).Labels "app" =
        some "etcd-snapshot-driver" ∧
      (p.storageClass = "" → (snapshotClaim ns quantity p.storageClass).StorageClassName = none) ∧
      (p.storageClass ≠ "" →
        (snapshotClaim ns quantity p.storageClass).StorageClassName = some p.storageClass)) ∧
    (∀ e, env.parseQuantity p.pvcSize = Except.error e →
      p.EnsureSnapshotPVC env c ns =
        (Except.error
          (Errorf ("invalid snapshot PVC size " ++ quoted p.pvcSize ++ ": " ++ e.msg)), c) ∧
      Contains ("invalid snapshot PVC size " ++ quoted p.pvcSize ++ ": " ++ e.msg)
        "invalid snapshot PVC size") := by
  have hget := getPVC_absent env c ns "etcd-snapshots" hfault habsent
  have hany : c.pvcs.any (fun q => decide (q.Namespace = ns ∧ q.Name = "etcd-snapshots")) =
      false := by
    rw [Bool.eq_false_iff, Ne, List.any_eq_true]
    rintro ⟨x, hx, hp⟩
    exact (List.find?_eq_none.mp habsent) x hx hp
  have hex : ¬ ∃ x, x ∈ c.pvcs ∧ x.Namespace = ns ∧ x.Name = "etcd-snapshots" := by
    rintro ⟨x, hx, hp⟩
    exact (List.find?_eq_none.mp habsent) x hx (by simpa using hp)
  constructor
  · intro quantity hparse hcreate
    refine ⟨?_, rfl, rfl, rfl, rfl, rfl, ?_, ?_⟩
    · unfold SnapshotPVCProvisioner.EnsureSnapshotPVC snapshotPVCName
      simp only [hget, hparse]
      by_cases hsc : p.storageClass = ""
      · simp [notFound, PersistentVolumeClaims.Create, hcreate, hex, hsc, snapshotClaim]
      · simp [notFound, PersistentVolumeClaims.Create, hcreate, hex, hsc, snapshotClaim]
    · intro hsc
      simp [snapshotClaim, hsc]
    · intro hsc
      simp [snapshotClaim, hsc]
  · intro e hparse
    constructor
    · unfold SnapshotPVCProvisioner.EnsureSnapshotPVC snapshotPVCName
      simp only [hget, hparse]
      simp [notFound]
    · exact contains_append_left _ _ _ (contains_append_left _ _ _
        (contains_append_left _ _ _ (by decide)))

set_option maxRecDepth 100000 in
/-- C23 on a cluster without objects, as in the tests of the provisioner: storage class
"gp2" and size "10Gi" create the PVC with that class; the empty storage class leaves the
field unset; the size "not-a-size" fails and creates nothing. -/
theorem EnsureSnapshotPVC_creates_witness :
    strictSizeEnv.apiFault (ApiCall.getPVC "test-ns" "etcd-snapshots") = none ∧
    emptyCluster.pvcs.find?
      (fun q => decide (q.Namespace = "test-ns" ∧ q.Name = "etcd-snapshots")) = none ∧
    (NewSnapshotPVCProvisioner "gp2" "10Gi").EnsureSnapshotPVC strictSizeEnv emptyCluster
        "test-ns" =
      (Except.ok "etcd-snapshots",
        { emptyCluster with
          pvcs := emptyCluster.pvcs ++ [snapshotClaim "test-ns" { text := "10Gi" } "gp2"] }) ∧
    (snapshotClaim "test-ns" { text := "10Gi" } "gp2").StorageClassName = some "gp2" ∧
    (NewSnapshotPVCProvisioner "" "10Gi").EnsureSnapshotPVC strictSizeEnv emptyCluster
        "test-ns" =
      (Except.ok "etcd-snapshots",
        { emptyCluster with
          pvcs := emptyCluster.pvcs ++ [snapshotClaim "test-ns" { text := "10Gi" } ""] }) ∧
    (snapshotClaim "test-ns" { text := "10Gi" } "").StorageClassName = none ∧
    (NewSnapshotPVCProvisioner "gp2" "not-a-size").EnsureSnapshotPVC strictSizeEnv emptyCluster
        "test-ns" =
      (Except.error (Errorf
        "invalid snapshot PVC size \"not-a-size\": quantities must match the regular expression"),
        emptyCluster) :=
  ⟨rfl, rfl,
    ((EnsureSnapshotPVC_creates (NewSnapshotPVCProvisioner "gp2" "10Gi") strictSizeEnv
      emptyCluster "test-ns" rfl rfl).1 { text := "10Gi" } (by decide) rfl).1,
    by decide,
    ((EnsureSnapshotPVC_creates (NewSnapshotPVCProvisioner "" "10Gi") strictSizeEnv
      emptyCluster "test-ns" rfl rfl).1 { text := "10Gi" } (by decide) rfl).1,
    by decide,
    ((EnsureSnapshotPVC_creates (NewSnapshotPVCProvisioner "gp2" "not-a-size") strictSizeEnv
      emptyCluster "test-ns" rfl rfl).2
      (Errorf "quantities must match the regular expression") (by decide)).1⟩

/-! ## The Job templates -/

/-- C24: for every JobConfig, the Jobs built by GenerateSnapshotSaveJob and
GenerateSnapshotDeleteJob both have exactly one container, in a pod that runs as non-root,
and the container forbids privilege escalation, drops all capabilities and has a read-only
root filesystem; their backoff limit and active deadline are the BackoffLimit and
ActiveDeadlineSeconds of the config; and their TTL after completion is 3600 seconds. -/
theorem Job_templates_hardened (cfg : JobConfig) :
    ((∃ container, (GenerateSnapshotSaveJob cfg).Spec.Template.Spec.Containers = [container] ∧
        ∃ sc, container.SecurityContext = some sc ∧
          sc.AllowPrivilegeEscalation = some false ∧ sc.CapabilitiesDrop = ["ALL"] ∧
          sc.ReadOnlyRootFilesystem = some true) ∧
      (∃ psc, (GenerateSnapshotSaveJob cfg).Spec.Template.Spec.SecurityContext = some psc ∧
        psc.RunAsNonRoot = some true) ∧
      (GenerateSnapshotSaveJob cfg).Spec.BackoffLimit = some cfg.BackoffLimit ∧
      (GenerateSnapshotSaveJob cfg).Spec.ActiveDeadlineSeconds = some cfg.ActiveDeadlineSeconds ∧
      (GenerateSnapshotSaveJob cfg).Spec.TTLSecondsAfterFinished = some 3600) ∧
    ((∃ container, (GenerateSnapshotDeleteJob cfg).Spec.Template.Spec.Containers = [container] ∧
        ∃ sc, container.SecurityContext = some sc ∧
          sc.AllowPrivilegeEscalation = some false ∧ sc.CapabilitiesDrop = ["ALL"] ∧
          sc.ReadOnlyRootFilesystem = some true) ∧
      (∃ psc, (GenerateSnapshotDeleteJob cfg).Spec.Template.Spec.SecurityContext = some psc ∧
        psc.RunAsNonRoot = some true) ∧
      (GenerateSnapshotDeleteJob cfg).Spec.BackoffLimit = some cfg.BackoffLimit ∧
      (GenerateSnapshotDeleteJob cfg).Spec.ActiveDeadlineSeconds =
        some cfg.ActiveDeadlineSeconds ∧
      (GenerateSnapshotDeleteJob cfg).Spec.TTLSecondsAfterFinished = some 3600) :=
  ⟨⟨⟨_, rfl, containerSecurityContext, rfl, rfl, rfl, rfl⟩,
      ⟨podSecurityContext, rfl, rfl⟩, rfl, rfl, rfl⟩,
    ⟨⟨_, rfl, containerSecurityContext, rfl, rfl, rfl, rfl⟩,
      ⟨podSecurityContext, rfl, rfl⟩, rfl, rfl, rfl⟩⟩

/-- The script that `buildSnapshotCommand` writes, in its three slots. -/
theorem buildSnapshotCommand_eq (cfg : JobConfig) :
    buildSnapshotCommand cfg =
      commandLine (formatStrings cfg.ETCDEndpoints) (conditionalTLSFlags cfg) cfg.SnapshotID := by
  unfold buildSnapshotCommand commandLine
  apply String.ext
  simp only [String.data_append, List.append_assoc]
  rfl

/-- The TLS flags that `conditionalTLSFlags` writes. -/
theorem conditionalTLSFlags_eq (cfg : JobConfig) :
    conditionalTLSFlags cfg = if cfg.TLSEnabled = true then tlsFlags cfg else "" := by
  unfold conditionalTLSFlags tlsFlags
  cases cfg.TLSEnabled <;> simp

/-- A part of the second of two texts is a part of both together. -/
theorem contains_append_right (a b sub : String) (h : Contains b sub) : Contains (a ++ b) sub := by
  unfold Contains at h ⊢
  obtain ⟨s, t, hst⟩ := h
  exact ⟨a.data ++ s, t, by simp [String.data_append, ← hst]⟩

/-- A part of the flags is a part of the script. -/
theorem contains_commandLine_flags (endpoints flags snapshotID sub : String)
    (h : Contains flags sub) : Contains (commandLine endpoints flags snapshotID) sub := by
  unfold commandLine
  exact contains_append_left _ _ _ (contains_append_left _ _ _ (contains_append_left _ _ _
    (contains_append_left _ _ _ (contains_append_left _ _ _ (contains_append_right _ _ _ h)))))

/-- A list without a given element that lies inside two lists joined by that element
lies inside one of them. -/
theorem infix_of_infix_join {α : Type} (x : α) (sub a b : List α) (hx : x ∉ sub)
    (h : sub <:+: a ++ x :: b) : sub <:+: a ∨ sub <:+: b := by
  obtain ⟨s, t, hst⟩ := h
  rw [List.append_assoc] at hst
  rcases List.append_eq_append_iff.mp hst with ⟨a', ha, hb⟩ | ⟨c', ha, hb⟩
  · -- a = s ++ a', sub ++ t = a' ++ x :: b
    rcases List.append_eq_append_iff.mp hb with ⟨a'', h1, h2⟩ | ⟨c'', h1, h2⟩
    · -- a' = sub ++ a''
      left
      exact ⟨s, a'', by rw [ha, h1, List.append_assoc]⟩
    · -- sub = a' ++ c'', x :: b = c'' ++ t
      cases c'' with
      | nil =>
        left
        exact ⟨s, [], by rw [ha, h1]; simp⟩
      | cons y c3 =>
        have hy : x = y := by
          have := congrArg List.head? h2
          simpa using this
        exact absurd (by rw [h1, hy]; simp) hx
  · -- s = a ++ c', x :: b = c' ++ (sub ++ t)
    cases c' with
    | nil =>
      cases sub with
      | nil => exact Or.inl List.nil_infix
      | cons y sub' =>
        have hy : x = y := by
          have := congrArg List.head? hb
          simpa using this
        exact absurd (by rw [hy]; simp) hx
    | cons y c3 =>
      right
      have hb' : b = c3 ++ (sub ++ t) := by
        have := congrArg List.tail hb
        simpa using this
      exact ⟨c3, t, by rw [hb', List.append_assoc]⟩

/-- The characters of the script without TLS flags, cut at the quotes around the endpoint
list and at the separators around the snapshot ID. -/
theorem commandLine_data (endpoints snapshotID : String) :
    (commandLine endpoints "" snapshotID).data =
      "set -e\netcdutl --endpoints ".data ++ '\'' :: (endpoints.data ++ '\'' ::
        (" snapshot save /snapshots".data ++ '/' :: (snapshotID.data ++ '.' ::
          ("db\netcdutl snapshot status /snapshots".data ++ '/' :: (snapshotID.data ++ '.' ::
            "db -w json\n".data))))) := by
  unfold commandLine
  simp only [String.data_append, List.append_assoc]
  rfl

/-- The script without TLS flags holds the name of a TLS flag only if the endpoint list or
the snapshot ID holds it. -/
theorem commandLine_no_flag (endpoints snapshotID flag : String)
    (hflag : flag = "--cacert" ∨ flag = "--cert" ∨ flag = "--key")
    (he : ¬ Contains endpoints flag) (hid : ¬ Contains snapshotID flag) :
    ¬ Contains (commandLine endpoints "" snapshotID) flag := by
  unfold Contains at he hid ⊢
  rw [commandLine_data]
  intro h
  have hq : '\'' ∉ flag.data := by rcases hflag with rfl | rfl | rfl <;> decide
  have hs : '/' ∉ flag.data := by rcases hflag with rfl | rfl | rfl <;> decide
  have hd : '.' ∉ flag.data := by rcases hflag with rfl | rfl | rfl <;> decide
  have h1 : ¬ flag.data <:+: "set -e\netcdutl --endpoints ".data := by
    rcases hflag with rfl | rfl | rfl <;> decide
  have h2 : ¬ flag.data <:+: " snapshot save /snapshots".data := by
    rcases hflag with rfl | rfl | rfl <;> decide
  have h3 : ¬ flag.data <:+: "db\netcdutl snapshot status /snapshots".data := by
    rcases hflag with rfl | rfl | rfl <;> decide
  have h4 : ¬ flag.data <:+: "db -w json\n".data := by
    rcases hflag with rfl | rfl | rfl <;> decide
  rcases infix_of_infix_join _ _ _ _ hq h with h | h
  · exact h1 h
  rcases infix_of_infix_join _ _ _ _ hq h with h | h
  · exact he h
  rcases infix_of_infix_join _ _ _ _ hs h with h | h
  · exact h2 h
  rcases infix_of_infix_join _ _ _ _ hd h with h | h
  · exact hid h
  rcases infix_of_infix_join _ _ _ _ hs h with h | h
  · exact h3 h
  rcases infix_of_infix_join _ _ _ _ hd h with h | h
  · exact hid h
  · exact h4 h

/-- The TLS flags hold each flag with its path. -/
theorem tlsFlags_contains (cfg : JobConfig) :
    Contains (tlsFlags cfg) ("--cacert '" ++ cfg.CAPath ++ "'") ∧
    Contains (tlsFlags cfg) ("--cert '" ++ cfg.ClientCertPath ++ "'") ∧
    Contains (tlsFlags cfg) ("--key '" ++ cfg.ClientKeyPath ++ "'") := by
  unfold Contains tlsFlags
  refine ⟨⟨" ".data, (" --cert '" ++ cfg.ClientCertPath ++ "' --key '" ++ cfg.ClientKeyPath
      ++ "'").data, ?_⟩,
    ⟨(" --cacert '" ++ cfg.CAPath ++ "' ").data, (" --key '" ++ cfg.ClientKeyPath ++ "'").data, ?_⟩,
    ⟨(" --cacert '" ++ cfg.CAPath ++ "' --cert '" ++ cfg.ClientCertPath ++ "' ").data, [], ?_⟩⟩
  · simp only [String.data_append, List.append_assoc]
    rfl
  · simp only [String.data_append, List.append_assoc]
    rfl
  · simp only [String.data_append, List.append_assoc, List.append_nil]
    rfl

/-! ## The Job executor -/

/-- The polling loop passes over ticks after which it continues. -/
theorem pollJob_skip (snapshotID : String) (ctxErr : ContextError)
    (pre rest : List (Except GoError JobStatus)) (h : ∀ p, p ∈ pre → continuesPolling p) :
    pollJob snapshotID ctxErr (pre ++ rest) = pollJob snapshotID ctxErr rest := by
  induction pre with
  | nil => rfl
  | cons p pre ih =>
    have hrest := ih (fun q hq => h q (List.mem_cons_of_mem _ hq))
    have hp := h p (List.mem_cons_self _ _)
    cases p with
    | error e =>
      rw [List.cons_append, pollJob]
      exact hrest
    | ok st =>
      obtain ⟨h1, h2⟩ := hp
      rw [List.cons_append, pollJob]
      simp only [h1, h2, if_false]
      exact hrest

/-- C26: for every sequence of polled Job statuses, waitForJobCompletion stops at the
first successfully read status with succeeded > 0 or failed > 0, passing over failed
status reads and statuses with neither: with succeeded > 0 it returns Success = true and
no error; otherwise with failed = n > 0 it returns Success = false and the error
"job failed after n attempts"; and when no tick before the deadline or the cancellation
reads such a status it returns Success = false together with the error of the context,
which is DeadlineExceeded on timeout and Canceled on cancellation. -/
theorem waitForJobCompletion_outcomes (env : Env) (job : Job) :
    (∀ (pre post : List (Except GoError JobStatus)) (st : JobStatus),
      env.jobPolls job.Namespace job.Name = pre ++ Except.ok st :: post →
      (∀ p, p ∈ pre → continuesPolling p) →
      (st.Succeeded > 0 →
        waitForJobCompletion env job =
          ({ Success := true, SnapshotID := (mapGet job.Labels "snapshot-id").getD ""
             SnapshotSize := 0, Duration := 0, ErrorMessage := "" }, none)) ∧
      (¬ st.Succeeded > 0 → st.Failed > 0 →
        waitForJobCompletion env job =
          ({ Success := false, SnapshotID := (mapGet job.Labels "snapshot-id").getD ""
             SnapshotSize := 0, Duration := 0
             ErrorMessage := "job failed after " ++ toString st.Failed ++ " attempts" },
            some (Errorf ("job failed after " ++ toString st.Failed ++ " attempts"))))) ∧
    ((∀ p, p ∈ env.jobPolls job.Namespace job.Name → continuesPolling p) →
      waitForJobCompletion env job =
        ({ Success := false, SnapshotID := (mapGet job.Labels "snapshot-id").getD ""
           SnapshotSize := 0, Duration := 0, ErrorMessage := "job execution timeout" },
          some (env.ctxErr job.Namespace job.Name).toError) ∧
      (env.ctxErr job.Namespace job.Name = ContextError.DeadlineExceeded →
        (env.ctxErr job.Namespace job.Name).toError.kind = ErrKind.DeadlineExceeded) ∧
      (env.ctxErr job.Namespace job.Name = ContextError.Canceled →
        (env.ctxErr job.Namespace job.Name).toError.kind = ErrKind.Canceled)) := by
  constructor
  · intro pre post st hpolls hpre
    unfold waitForJobCompletion
    rw [hpolls, pollJob_skip _ _ pre _ hpre]
    constructor
    · intro hs
      rw [pollJob]
      simp only [hs, if_true]
    · intro hs hf
      rw [pollJob]
      simp only [hs, hf, if_true, if_false]
  · intro hall
    refine ⟨?_, fun h => by rw [h]; rfl, fun h => by rw [h]; rfl⟩
    unfold waitForJobCompletion
    have := pollJob_skip ((mapGet job.Labels "snapshot-id").getD "")
      (env.ctxErr job.Namespace job.Name) (env.jobPolls job.Namespace job.Name) [] hall
    rw [List.append_nil] at this
    rw [this, pollJob]

set_option maxRecDepth 100000 in
/-- C26 on a Job whose status read fails at the first tick, that is running at the second
and has three failed pods at the third: the loop stops there with
"job failed after 3 attempts", although a later tick would read a success; and on a Job
that reports nothing before the deadline. -/
theorem waitForJobCompletion_outcomes_witness :
    failingJobEnv.jobPolls sampleJob.Namespace sampleJob.Name =
      [Except.error (Errorf "connection refused"),
        Except.ok { Active := 1, Succeeded := 0, Failed := 0 }] ++
      Except.ok { Active := 0, Succeeded := 0, Failed := 3 } ::
        [Except.ok { Active := 0, Succeeded := 1, Failed := 0 }] ∧
    waitForJobCompletion failingJobEnv sampleJob =
      ({ Success := false, SnapshotID := "daily-1700000000-1700000000", SnapshotSize := 0
         Duration := 0, ErrorMessage := "job failed after 3 attempts" },
        some (Errorf "job failed after 3 attempts")) ∧
    waitForJobCompletion timeoutEnv sampleJob =
      ({ Success := false, SnapshotID := "daily-1700000000-1700000000", SnapshotSize := 0
         Duration := 0, ErrorMessage := "job execution timeout" },
        some ⟨ErrKind.DeadlineExceeded, "context deadline exceeded"⟩) := by
  have hpre : ∀ p, p ∈ [Except.error (Errorf "connection refused"),
      Except.ok ({ Active := 1, Succeeded := 0, Failed := 0 } : JobStatus)] →
      continuesPolling p := by
    intro p hp
    simp only [List.mem_cons, List.mem_singleton, List.not_mem_nil, or_false] at hp
    rcases hp with rfl | rfl
    · trivial
    · exact ⟨by decide, by decide⟩
  exact ⟨rfl,
    ((waitForJobCompletion_outcomes failingJobEnv sampleJob).1 _ _
      { Active := 0, Succeeded := 0, Failed := 3 } rfl hpre).2 (by decide) (by decide),
    ((waitForJobCompletion_outcomes timeoutEnv sampleJob).2
      (fun p hp => absurd hp (List.not_mem_nil p))).1⟩

/-- The duration that `ExecuteSnapshotJob` returns: zero when the Job cannot be submitted
(the Create fails with another error than AlreadyExists), and the time since the start of
the call in every other outcome. -/
theorem ExecuteSnapshotJob_duration (env : Env) (c : Cluster) (job : Job) (timeout : Int) :
    (∀ err c1, Jobs.Create env c job.Namespace job = (Except.error err, c1) →
      err.kind ≠ ErrKind.AlreadyExists →
      (ExecuteSnapshotJob env c job timeout).1.1.Duration = 0 ∧
      (ExecuteSnapshotJob env c job timeout).1.2 = some err) ∧
    ((∀ err c1, Jobs.Create env c job.Namespace job = (Except.error err, c1) →
        err.kind = ErrKind.AlreadyExists) →
      (ExecuteSnapshotJob env c job timeout).1.1.Duration = env.elapsed job.Namespace job.Name) := by
  constructor
  · intro err c1 hcreate hkind
    unfold ExecuteSnapshotJob
    simp only [hcreate, hkind, if_false, and_self]
  · intro hall
    unfold ExecuteSnapshotJob
    cases hcreate : Jobs.Create env c job.Namespace job with
    | mk r c1 =>
      cases r with
      | error err =>
        have hkind := hall err c1 hcreate
        simp only [hkind, if_true]
        split <;> rfl
      | ok created =>
        dsimp only
        split <;> rfl

set_option maxRecDepth 100000 in
/-- C27 fails when the Job cannot be submitted: with an API server that refuses to create
Jobs, `ExecuteSnapshotJob` returns the error of the Create and a JobResult whose Duration
is 0, while the time since the start of the call is five seconds.  When the Job is
accepted, the Duration is those five seconds, also on timeout. -/
theorem ExecuteSnapshotJob_submit_failure_zero_duration :
    Jobs.Create jobRefusedEnv emptyCluster sampleJob.Namespace sampleJob =
      (Except.error ⟨ErrKind.Other, "jobs.batch is forbidden"⟩, emptyCluster) ∧
    jobRefusedEnv.elapsed sampleJob.Namespace sampleJob.Name = 5000000000 ∧
    ExecuteSnapshotJob jobRefusedEnv emptyCluster sampleJob 300000000000 =
      (({ Success := false, SnapshotID := "daily-1700000000-1700000000", SnapshotSize := 0
          Duration := 0, ErrorMessage := "failed to create job: jobs.batch is forbidden" },
        some ⟨ErrKind.Other, "jobs.batch is forbidden"⟩), emptyCluster) ∧
    (ExecuteSnapshotJob sampleEnv emptyCluster sampleJob 300000000000).1 =
      ({ Success := true, SnapshotID := "daily-1700000000-1700000000", SnapshotSize := 0
         Duration := 5000000000, ErrorMessage := "" }, none) ∧
    (ExecuteSnapshotJob timeoutEnv emptyCluster sampleJob 300000000000).1 =
      ({ Success := false, SnapshotID := "daily-1700000000-1700000000", SnapshotSize := 0
         Duration := 5000000000, ErrorMessage := "job execution timeout" },
        some ⟨ErrKind.DeadlineExceeded, "context deadline exceeded"⟩) :=
  ⟨by decide, by decide, by decide, by decide, by decide⟩

/-! ## ValidateHealth: the member loop -/

/-- The member loop aborts at a voting member that advertises no client URL or for whose
first client URL no client can be constructed: the members after it are not evaluated. -/
theorem probeMembers_aborts (env : Env) (headerMemberId : Nat) (member : Member)
    (rest : List Member) (healthyMembers : Nat) (hasLeader : Bool)
    (hvoting : member.IsLearner = false) :
    (member.ClientURLs = [] →
      probeMembers env headerMemberId (member :: rest) healthyMembers hasLeader =
        Except.error (Throw.panic "runtime error: index out of range [0] with length 0")) ∧
    (∀ memberEndpoint more err, member.ClientURLs = memberEndpoint :: more →
      env.etcdNew [memberEndpoint] = some err →
      probeMembers env headerMemberId (member :: rest) healthyMembers hasLeader =
        Except.error
          (Throw.panic "runtime error: invalid memory address or nil pointer dereference")) := by
  constructor
  · intro hurls
    rw [probeMembers]
    simp only [hvoting, Bool.false_eq_true, if_false, hurls]
  · intro memberEndpoint more err hurls hnew
    rw [probeMembers]
    simp only [hvoting, Bool.false_eq_true, if_false, hurls, hnew]

set_option maxRecDepth 100000 in
/-- C28 fails on a member list with a voting member that cannot be probed: the loop does
not count it as unhealthy and go on, it panics, and `ValidateHealth` returns neither nil
nor an error.  With three voting members of which the first is down (no client for its
URL), the other two would answer and reach the quorum of two with the leader among them;
with four voting members of which the first advertises no client URL, the other three
would answer and reach the quorum of three. -/
theorem ValidateHealth_aborts_on_unprobeable_member :
    firstMemberDownEnv.etcdNew threeEndpoints = none ∧
    firstMemberDownEnv.etcdMemberList threeEndpoints =
      Except.ok { threeMembers with Header := { MemberId := 2 } } ∧
    healthyCount firstMemberDownEnv { threeMembers with Header := { MemberId := 2 } } = 2 ∧
    quorumRequired (votingMembersOf { threeMembers with Header := { MemberId := 2 } }).length =
      2 ∧
    leaderIdentified { threeMembers with Header := { MemberId := 2 } } = true ∧
    probeMembers firstMemberDownEnv 2 threeMembers.Members 0 false =
      Except.error
        (Throw.panic "runtime error: invalid memory address or nil pointer dereference") ∧
    NewHealthValidator.ValidateHealth firstMemberDownEnv threeEndpoints =
      Except.error
        (Throw.panic "runtime error: invalid memory address or nil pointer dereference") ∧
    unstartedFirstEnv.etcdMemberList threeEndpoints = Except.ok unstartedFirst ∧
    healthyCount unstartedFirstEnv unstartedFirst = 3 ∧
    quorumRequired (votingMembersOf unstartedFirst).length = 3 ∧
    leaderIdentified unstartedFirst = true ∧
    probeMembers unstartedFirstEnv 1 unstartedFirst.Members 0 false =
      Except.error (Throw.panic "runtime error: index out of range [0] with length 0") ∧
    NewHealthValidator.ValidateHealth unstartedFirstEnv threeEndpoints =
      Except.error (Throw.panic "runtime error: index out of range [0] with length 0") :=
  ⟨by decide, by decide, by decide, by decide, by decide, by decide, by decide, by decide,
    by decide, by decide, by decide, by decide, by decide⟩

/-- A member loop that runs to its end could probe every voting member. -/
theorem probesComplete_of_ok (env : Env) (headerMemberId : Nat) (members : List Member)
    (healthyMembers : Nat) (hasLeader : Bool) (r : Nat × Bool)
    (h : probeMembers env headerMemberId members healthyMembers hasLeader = Except.ok r) :
    ∀ member, member ∈ members.filter (fun member => !member.IsLearner) →
      ∃ memberEndpoint rest, member.ClientURLs = memberEndpoint :: rest ∧
        env.etcdNew [memberEndpoint] = none := by
  induction members generalizing healthyMembers hasLeader with
  | nil =>
    intro member hm
    simp at hm
  | cons m rest ih =>
    rw [probeMembers] at h
    cases hl : m.IsLearner with
    | true =>
      simp only [hl, if_true] at h
      intro member hm
      simp only [List.filter_cons, hl, Bool.not_true, Bool.false_eq_true, if_false] at hm
      exact ih _ _ h member hm
    | false =>
      simp only [hl, Bool.false_eq_true, if_false] at h
      cases hurls : m.ClientURLs with
      | nil =>
        rw [hurls] at h
        cases h
      | cons url more =>
        rw [hurls] at h
        dsimp only at h
        cases hnew : env.etcdNew [url] with
        | some err =>
          rw [hnew] at h
          cases h
        | none =>
          rw [hnew] at h
          dsimp only at h
          have hrest : ∀ member, member ∈ rest.filter (fun member => !member.IsLearner) →
              ∃ memberEndpoint rest, member.ClientURLs = memberEndpoint :: rest ∧
                env.etcdNew [memberEndpoint] = none := by
            cases hget : env.etcdGet url with
            | none =>
              rw [hget] at h
              exact ih _ _ h
            | some e =>
              rw [hget] at h
              exact ih _ _ h
          intro member hm
          simp only [List.filter_cons, hl, Bool.not_false, if_true, List.mem_cons] at hm
          rcases hm with rfl | hm
          · exact ⟨url, more, hurls, hnew⟩
          · exact hrest member hm

/-- C29, amended: on a retrieved member list whose member loop runs to its end,
ValidateHealth identifies a leader (hasLeader = true) if and only if some voting member
of the list has an ID equal to the member ID reported in the response header; a learner
with that ID does not count.  The healthy count of the loop is that of the voting members
that answer, and when it reaches the quorum ValidateHealth returns nil exactly when a
leader was identified, and the error "cluster has no leader" otherwise. -/
theorem ValidateHealth_leader_among_voting (hv : HealthValidator) (env : Env)
    (endpoints : List String) (memberList : MemberListResponse)
    (healthyMembers : Nat) (hasLeader : Bool)
    (hne : endpoints.length ≠ 0) (hnew : env.etcdNew endpoints = none)
    (hml : env.etcdMemberList endpoints = Except.ok memberList)
    (hloop : probeMembers env memberList.Header.MemberId memberList.Members 0 false =
      Except.ok (healthyMembers, hasLeader)) :
    (hasLeader = true ↔
      ∃ member, member ∈ memberList.Members ∧ member.IsLearner = false ∧
        memberList.Header.MemberId = member.ID) ∧
    healthyMembers = healthyCount env memberList ∧
    (quorumRequired (votingMembersOf memberList).length ≤ healthyMembers →
      (hv.ValidateHealth env endpoints = Except.ok () ↔ hasLeader = true) ∧
      (hasLeader = false →
        hv.ValidateHealth env endpoints =
          Except.error (Throw.error (Errorf "cluster has no leader")))) := by
  have hprobe : probesComplete env memberList :=
    probesComplete_of_ok env _ _ 0 false _ hloop
  have hval := probeMembers_complete env memberList.Header.MemberId memberList.Members hprobe
    0 false
  rw [hloop, Nat.zero_add, Bool.false_or] at hval
  have hpair := Except.ok.inj hval
  have hh : healthyMembers = healthyCount env memberList := congrArg Prod.fst hpair
  have hl : hasLeader = leaderIdentified memberList := congrArg Prod.snd hpair
  refine ⟨?_, hh, ?_⟩
  · rw [hl]
    unfold leaderIdentified votingMembersOf
    rw [List.any_eq_true]
    constructor
    · rintro ⟨m, hm, hid⟩
      obtain ⟨hm1, hm2⟩ := List.mem_filter.mp hm
      exact ⟨m, hm1, by simpa using hm2, by simpa using hid⟩
    · rintro ⟨m, hm, hvote, hid⟩
      exact ⟨m, List.mem_filter.mpr ⟨hm, by simp [hvote]⟩, by simpa using hid⟩
  · intro hq
    rw [hh] at hq
    obtain ⟨hiff, _⟩ := ValidateHealth_of_probes_complete hv env endpoints memberList hne hnew
      hml hprobe
    constructor
    · rw [hiff, hl]
      exact ⟨fun h => h.2, fun h => ⟨hq, h⟩⟩
    · intro hfalse
      have hle := healthyCount_le env memberList
      have hv0 : (votingMembersOf memberList).length ≠ 0 := by
        intro h0
        rw [h0] at hq hle
        unfold quorumRequired at hq
        omega
      have hm0 : memberList.Members.length ≠ 0 := by
        intro h0
        apply hv0
        unfold votingMembersOf
        rw [List.length_eq_zero] at h0
        rw [h0]
        rfl
      have hcount : countVoting memberList.Members 0 = (votingMembersOf memberList).length := by
        rw [countVoting_eq, Nat.zero_add]
        rfl
      unfold HealthValidator.ValidateHealth
      simp only [hne, if_false, hnew, hml, hm0, hcount, hv0, hloop]
      rw [hh]
      simp only [Nat.not_lt.mpr hq, if_false, hfalse, Bool.not_false, if_true]

set_option maxRecDepth 100000 in
/-- C29 as stated fails when the member whose ID the response header carries is a learner:
the loop skips learners before it compares the IDs, so with three healthy voting members
(quorum two) and a learner with the header's member ID, hasLeader stays false and
ValidateHealth returns "cluster has no leader".  It also fails when the loop does not run
to its end: with the first member down and the header naming the second, a voting member
has the header's ID, but the loop panics before it reaches that member. -/
theorem ValidateHealth_learner_is_no_leader :
    learnerHeaderEnv.etcdMemberList threeEndpoints = Except.ok learnerHeader ∧
    (∃ member, member ∈ learnerHeader.Members ∧ member.IsLearner = true ∧
      learnerHeader.Header.MemberId = member.ID) ∧
    probeMembers learnerHeaderEnv learnerHeader.Header.MemberId learnerHeader.Members 0 false =
      Except.ok (3, false) ∧
    quorumRequired (votingMembersOf learnerHeader).length = 2 ∧
    NewHealthValidator.ValidateHealth learnerHeaderEnv threeEndpoints =
      Except.error (Throw.error (Errorf "cluster has no leader")) ∧
    (∃ member, member ∈ threeMembers.Members ∧ member.IsLearner = false ∧ 2 = member.ID) ∧
    probeMembers firstMemberDownEnv 2 threeMembers.Members 0 false =
      Except.error
        (Throw.panic "runtime error: invalid memory address or nil pointer dereference") :=
  ⟨by decide,
    ⟨⟨9, "etcd-learner", [], ["https://etcd-learner:2379"], true⟩, by decide, rfl, rfl⟩,
    by decide, by decide, by decide,
    ⟨⟨2, "etcd-1", [], ["https://etcd-1:2379"], false⟩, by decide, rfl, rfl⟩,
    by decide⟩

set_option maxRecDepth 100000 in
/-- The amended C29 on the three healthy voting members of `threeMembers`, whose first
member has the header's member ID: the loop ends with three healthy members and a leader,
and ValidateHealth returns nil. -/
theorem ValidateHealth_leader_among_voting_witness :
    threeEndpoints.length ≠ 0 ∧
    healthyThreeEnv.etcdNew threeEndpoints = none ∧
    healthyThreeEnv.etcdMemberList
      threeEndpoints = Except.ok threeMembers ∧
    probeMembers healthyThreeEnv
      threeMembers.Header.MemberId threeMembers.Members 0 false = Except.ok (3, true) ∧
    ((true = true) ↔
      ∃ member, member ∈ threeMembers.Members ∧ member.IsLearner = false ∧
        threeMembers.Header.MemberId = member.ID) ∧
    NewHealthValidator.ValidateHealth
      healthyThreeEnv threeEndpoints =
        Except.ok () := by
  have h := ValidateHealth_leader_among_voting NewHealthValidator
    healthyThreeEnv threeEndpoints
    threeMembers 3 true (by decide) rfl rfl (by decide)
  exact ⟨by decide, rfl, rfl, by decide, h.1, (h.2.2 (by decide)).1.mpr rfl⟩

/-- The parse loop returns one volume per ID. -/
theorem parseVolumes_length (ids : List String) (i : Nat) (volumes : List volumeInfo)
    (h : parseVolumes i ids = Except.ok volumes) : volumes.length = ids.length := by
  induction ids generalizing i volumes with
  | nil =>
    rw [parseVolumes] at h
    cases h
    rfl
  | cons x rest ih =>
    unfold parseVolumes at h
    split at h
    · cases h
    · split at h
      · cases h
      · rename_i vols hvols
        cases h
        simp only [List.length_cons, ih (i + 1) vols hvols]

/-- The discovery loop that runs to its end adds one entry per volume. -/
theorem discoverClusters_length (g : GroupControllerServer) (env : Env) (c : Cluster)
    (volumes : List volumeInfo) (i : Nat) (fn : String) (fe : List String)
    (acc infos : List clusterInfo) (fn' : String) (fe' : List String)
    (h : discoverClusters g env c i volumes fn fe acc = Except.ok (infos, fn', fe')) :
    infos.length = acc.length + volumes.length := by
  induction volumes generalizing i fn fe acc with
  | nil =>
    rw [discoverClusters] at h
    cases h
    rfl
  | cons vol rest ih =>
    rw [discoverClusters] at h
    split at h
    · cases h
    · split at h
      · cases h
      · cases h
      · split at h
        · have := ih _ _ _ _ h
          simp only [List.length_append, List.length_cons, List.length_nil] at this ⊢
          omega
        · split at h
          · cases h
          · split at h
            · cases h
            · have := ih _ _ _ _ h
              simp only [List.length_append, List.length_cons, List.length_nil] at this ⊢
              omega

/-- The method `GetVolumeGroupSnapshot` on a stored record with a first source volume ID:
the access to `SourceVolumeIDs[0]` is in range and the response carries the snapshot ID of
the record and that first source volume ID. -/
theorem getVolumeGroupSnapshot_of_record (g : GroupControllerServer) (env : Env) (c : Cluster)
    (id : String) (G : GroupSnapshotMetadata) (id0 : String) (ids : List String)
    (hid : id ≠ "")
    (hG : g.snapshotManager.RetrieveGroupSnapshotMetadata env c id = Except.ok G)
    (hsrc : G.SourceVolumeIDs = id0 :: ids) :
    ∃ t, g.GetVolumeGroupSnapshot env c { GroupSnapshotId := id } =
      Except.ok
        { GroupSnapshot :=
            { GroupSnapshotId := id
              Snapshots :=
                [ { SizeBytes := 0
                    SnapshotId := G.SnapshotID
                    SourceVolumeId := id0
                    CreationTime := t
                    ReadyToUse := G.ReadyToUse
                    GroupSnapshotId := "" } ]
              CreationTime := t
              ReadyToUse := G.ReadyToUse } } := by
  unfold GroupControllerServer.GetVolumeGroupSnapshot
  simp only [hid, if_false, hG, hsrc]
  exact ⟨_, rfl⟩

/-- A group record that was stored is read back from the state that the store left, when
the codec reads back what it wrote and the Get of the document is not refused. -/
theorem retrieveGroup_after_store (m : Manager) (env : Env) (c : Cluster)
    (G : GroupSnapshotMetadata)
    (hcodec : ∀ data, env.marshalGroup G = Except.ok data → env.unmarshalGroup data = Except.ok G)
    (hfault : env.apiFault (ApiCall.getConfigMap m.namespace_ "etcd-group-snapshot-metadata") =
      none)
    (h : (m.StoreGroupSnapshotMetadata env c G).1 = none) :
    m.RetrieveGroupSnapshotMetadata env (m.StoreGroupSnapshotMetadata env c G).2
      G.GroupSnapshotID = Except.ok G := by
  unfold Manager.StoreGroupSnapshotMetadata at h ⊢
  unfold Manager.RetrieveGroupSnapshotMetadata
  cases hm : env.marshalGroup G with
  | error err => rw [hm] at h; cases h
  | ok data =>
    rw [hm] at h
    dsimp only at h ⊢
    obtain ⟨cm, h1, h2⟩ := storeInConfigMap_after m env c _ G.GroupSnapshotID data _ _ hfault h
    rw [h1]
    simp only [h2, hcodec data hm]

/-- A group-snapshot ID built by `CreateVolumeGroupSnapshot` is not empty. -/
theorem groupSnapshotIDOf_ne_empty (env : Env) (req : CreateVolumeGroupSnapshotRequest) :
    groupSnapshotIDOf env req ≠ "" := by
  unfold groupSnapshotIDOf
  intro h
  have hd := congrArg String.data h
  simp only [String.data_append] at hd
  have : (req.Name.data ++ "-".data ++ (toString (env.now 0).Unix).data).length = 0 := by
    rw [hd]
    rfl
  simp only [List.length_append, List.length_singleton] at this
  omega

/-- A response of `CreateVolumeGroupSnapshot` comes with the group record that the call
handed to the store last: its ID, snapshot ID and first source volume ID are those of the
response, and its source volume IDs are those of the request. -/
theorem create_ok_record (g : GroupControllerServer) (env : Env) (c c' : Cluster)
    (req : CreateVolumeGroupSnapshotRequest) (resp : CreateVolumeGroupSnapshotResponse)
    (h : g.CreateVolumeGroupSnapshot env c req = (Except.ok resp, c')) :
    ∃ (G : GroupSnapshotMetadata) (c3 : Cluster) (snap : Snapshot),
      c' = (g.snapshotManager.StoreGroupSnapshotMetadata env c3 G).2 ∧
      G.GroupSnapshotID = resp.GroupSnapshot.GroupSnapshotId ∧
      G.SourceVolumeIDs = req.SourceVolumeIds ∧
      resp.GroupSnapshot.Snapshots = [snap] ∧
      G.SnapshotID = snap.SnapshotId ∧
      G.SourceVolumeIDs.head? = some snap.SourceVolumeId := by
  unfold GroupControllerServer.CreateVolumeGroupSnapshot at h
  dsimp only at h
  split at h
  · cases h
  split at h
  · cases h
  split at h
  · cases h
  split at h
  · cases h
  split at h
  · cases h
  split at h
  · cases h
  split at h
  · cases h
  split at h
  · cases h
  split at h
  · cases h
  rename_i hsrc
  cases h
  refine ⟨_, _, _, rfl, rfl, rfl, rfl, rfl, ?_⟩
  rw [hsrc]
  rfl

/-! ## The index accesses of CreateVolumeGroupSnapshot and GetVolumeGroupSnapshot -/

/-- C30: (a) with an empty source list `CreateVolumeGroupSnapshot` returns InvalidArgument
before any index access, and when its discovery loop has run to its end over the parsed
volumes of a non-empty source list, the list of discovered clusters is not empty, so the
accesses to the first discovered cluster and the first source volume are in range whenever
they are reached; (b) every response of the call comes with a group record handed to the
store whose source volume IDs are those of the request, hence not empty, and whose ID,
snapshot ID and first source volume ID are those of the response; when that record was
written (the store returned no error, the codec reads back what it wrote and the Get of
the document is not refused), `GetVolumeGroupSnapshot` of the ID returns a response, its
access to `SourceVolumeIDs[0]` being in range, with the snapshot ID and the first source
volume ID that Create returned; (c) on every stored record with a non-empty source list
`GetVolumeGroupSnapshot` returns a response. -/
theorem CreateVolumeGroupSnapshot_indices_in_range (g : GroupControllerServer) (env : Env)
    (c : Cluster) (req : CreateVolumeGroupSnapshotRequest) :
    ((req.SourceVolumeIds = [] →
        ∃ msg, g.CreateVolumeGroupSnapshot env c req =
          (Except.error (Failure.status Code.InvalidArgument msg), c)) ∧
      (∀ volumes infos fn fe, req.SourceVolumeIds ≠ [] →
        parseVolumes 0 req.SourceVolumeIds = Except.ok volumes →
        discoverClusters g env c 0 volumes "" [] [] = Except.ok (infos, fn, fe) →
        infos ≠ [])) ∧
    (∀ resp c', g.CreateVolumeGroupSnapshot env c req = (Except.ok resp, c') →
      ∃ (G : GroupSnapshotMetadata) (c3 : Cluster) (snap : Snapshot),
        c' = (g.snapshotManager.StoreGroupSnapshotMetadata env c3 G).2 ∧
        G.GroupSnapshotID = resp.GroupSnapshot.GroupSnapshotId ∧
        G.SourceVolumeIDs = req.SourceVolumeIds ∧ G.SourceVolumeIDs ≠ [] ∧
        resp.GroupSnapshot.Snapshots = [snap] ∧
        ((g.snapshotManager.StoreGroupSnapshotMetadata env c3 G).1 = none →
          (∀ data, env.marshalGroup G = Except.ok data →
            env.unmarshalGroup data = Except.ok G) →
          env.apiFault (ApiCall.getConfigMap g.snapshotManager.namespace_
            "etcd-group-snapshot-metadata") = none →
          ∃ r snap', g.GetVolumeGroupSnapshot env c'
              { GroupSnapshotId := resp.GroupSnapshot.GroupSnapshotId } = Except.ok r ∧
            r.GroupSnapshot.GroupSnapshotId = resp.GroupSnapshot.GroupSnapshotId ∧
            r.GroupSnapshot.Snapshots = [snap'] ∧
            snap'.SnapshotId = snap.SnapshotId ∧
            snap'.SourceVolumeId = snap.SourceVolumeId)) ∧
    (∀ id G, id ≠ "" →
      g.snapshotManager.RetrieveGroupSnapshotMetadata env c id = Except.ok G →
      G.SourceVolumeIDs ≠ [] →
      ∃ r, g.GetVolumeGroupSnapshot env c { GroupSnapshotId := id } = Except.ok r) := by
  refine ⟨⟨?_, ?_⟩, ?_, ?_⟩
  · intro hsrc
    unfold GroupControllerServer.CreateVolumeGroupSnapshot
    by_cases hname : req.Name = ""
    · exact ⟨"snapshot name required", by simp only [hname, if_true]⟩
    · exact ⟨"source_volume_ids required",
        by simp only [hname, if_false, hsrc, List.length_nil, if_true]⟩
  · intro volumes infos fn fe hsrc hparse hdisc hnil
    have h1 := parseVolumes_length _ _ _ hparse
    have h2 := discoverClusters_length g env c volumes 0 "" [] [] infos fn fe hdisc
    rw [hnil, h1] at h2
    simp only [List.length_nil, Nat.zero_add] at h2
    exact hsrc (List.length_eq_zero.mp h2.symm)
  · intro resp c' hcreate
    obtain ⟨e1, _⟩ := create_ok_ids g env c c' req resp hcreate
    obtain ⟨G, c3, snap, hc', hgid, hsrc, hsnaps, hsid, hhead⟩ :=
      create_ok_record g env c c' req resp hcreate
    have hne : G.SourceVolumeIDs ≠ [] := by
      intro hnil
      rw [hnil] at hhead
      cases hhead
    refine ⟨G, c3, snap, hc', hgid, hsrc, hne, hsnaps, ?_⟩
    intro hstore hcodec hfault
    have hret := retrieveGroup_after_store g.snapshotManager env c3 G hcodec hfault hstore
    rw [← hc', hgid] at hret
    have hid : resp.GroupSnapshot.GroupSnapshotId ≠ "" := by
      rw [e1]
      exact groupSnapshotIDOf_ne_empty env req
    obtain ⟨id0, ids, hcons⟩ := List.exists_cons_of_ne_nil hne
    obtain ⟨t, hget⟩ := getVolumeGroupSnapshot_of_record g env c' _ G id0 ids hid hret hcons
    rw [hcons] at hhead
    refine ⟨_, _, hget, rfl, rfl, hsid, ?_⟩
    exact Option.some.inj hhead
  · intro id G hid hG hne
    obtain ⟨id0, ids, hcons⟩ := List.exists_cons_of_ne_nil hne
    obtain ⟨t, hget⟩ := getVolumeGroupSnapshot_of_record g env c id G id0 ids hid hG hcons
    exact ⟨_, hget⟩

set_option maxRecDepth 100000 in
/-- C30 on scenario A: Create returns its response and leaves the stored state, and Get
of the group ID on that state returns the snapshot ID and the source volume ID of that
response. -/
theorem CreateVolumeGroupSnapshot_indices_in_range_witness :
    sampleServer.CreateVolumeGroupSnapshot sampleEnv clusterOne requestOne =
      (Except.ok responseOne, storedCluster) ∧
    "daily-1700000000" ≠ "" ∧
    sampleServer.snapshotManager.RetrieveGroupSnapshotMetadata sampleEnv storedCluster
      "daily-1700000000" = Except.ok sampleGroupRecord ∧
    sampleGroupRecord.SourceVolumeIDs ≠ [] ∧
    (∃ r, sampleServer.GetVolumeGroupSnapshot sampleEnv storedCluster
      { GroupSnapshotId := "daily-1700000000" } = Except.ok r) ∧
    sampleServer.GetVolumeGroupSnapshot sampleEnv storedCluster
        { GroupSnapshotId := "daily-1700000000" } =
      Except.ok { GroupSnapshot := responseOne.GroupSnapshot } ∧
    (∃ (G : GroupSnapshotMetadata) (c3 : Cluster) (snap : Snapshot),
      storedCluster = (sampleServer.snapshotManager.StoreGroupSnapshotMetadata sampleEnv c3 G).2 ∧
      G.GroupSnapshotID = responseOne.GroupSnapshot.GroupSnapshotId ∧
      G.SourceVolumeIDs = requestOne.SourceVolumeIds ∧ G.SourceVolumeIDs ≠ [] ∧
      responseOne.GroupSnapshot.Snapshots = [snap]) := by
  have hcreate : sampleServer.CreateVolumeGroupSnapshot sampleEnv clusterOne requestOne =
      (Except.ok responseOne, storedCluster) := by decide
  have hG : sampleServer.snapshotManager.RetrieveGroupSnapshotMetadata sampleEnv storedCluster
      "daily-1700000000" = Except.ok sampleGroupRecord := by decide
  obtain ⟨G, c3, snap, h1, h2, h3, h4, h5, _⟩ :=
    (CreateVolumeGroupSnapshot_indices_in_range sampleServer sampleEnv clusterOne requestOne).2.1
      responseOne storedCluster hcreate
  exact ⟨hcreate, by decide, hG, by decide,
    (CreateVolumeGroupSnapshot_indices_in_range sampleServer sampleEnv storedCluster
      requestOne).2.2 "daily-1700000000" sampleGroupRecord (by decide) hG (by decide),
    by decide, ⟨G, c3, snap, h1, h2, h3, h4, h5⟩⟩

/-! ## The TLS flags of the save Job -/

/-- A part of a part of a text is a part of the text. -/
theorem contains_trans (a b sub : String) (h1 : Contains a b) (h2 : Contains b sub) :
    Contains a sub := by
  unfold Contains at h1 h2 ⊢
  exact List.IsInfix.trans h2 h1

set_option maxRecDepth 100000 in
/-- C25 as stated fails for a JobConfig whose snapshot ID holds the text of the flags: the
script is built by splicing the ID into the text as it is, so with TLS disabled and such
an ID the pod has only the artifact volume and the scratch volume, and yet the script of
the one container carries --cacert, --cert and --key with the configured paths. -/
theorem GenerateSnapshotSaveJob_flags_without_tls :
    flagsInIDJobConfig.TLSEnabled = false ∧
    (GenerateSnapshotSaveJob flagsInIDJobConfig).Spec.Template.Spec.Volumes =
      [ ⟨"snapshot-pvc", VolumeSource.PersistentVolumeClaim "etcd-snapshots" false⟩,
        ⟨"tmp", VolumeSource.EmptyDir⟩ ] ∧
    (GenerateSnapshotSaveJob flagsInIDJobConfig).Spec.Template.Spec.Containers.map
      (fun container => container.Command) =
        [["sh", "-c", buildSnapshotCommand flagsInIDJobConfig]] ∧
    Contains (buildSnapshotCommand flagsInIDJobConfig)
      ("--cacert '" ++ flagsInIDJobConfig.CAPath ++ "'") ∧
    Contains (buildSnapshotCommand flagsInIDJobConfig)
      ("--cert '" ++ flagsInIDJobConfig.ClientCertPath ++ "'") ∧
    Contains (buildSnapshotCommand flagsInIDJobConfig)
      ("--key '" ++ flagsInIDJobConfig.ClientKeyPath ++ "'") ∧
    Contains (buildSnapshotCommand flagsInIDJobConfig)
      ("snapshot save /snapshots/x --cacert '/etc/etcd/tls/etcd-ca/ca.crt' --cert "
        ++ "'/etc/etcd/tls/client/etcd-client.crt' --key "
        ++ "'/etc/etcd/tls/client/etcd-client.key' .db") :=
  ⟨by decide, by decide, by decide, by decide, by decide, by decide, by decide⟩

/-- C25, amended: for every JobConfig the save Job has one container whose command is
`sh -c <script>`, and (a) with TLSEnabled the pod declares, after the artifact volume and
the scratch volume, the client-certificate secret volume and the CA-certificate secret
volume, the container mounts all four, and the script carries the flags --cacert, --cert
and --key with the configured paths; (b) with TLS disabled the pod has exactly the
artifact volume and the scratch volume, the container mounts these two, and the script
holds none of the three flag names when neither the formatted endpoint list nor the
snapshot ID of the config holds one; (c) when neither the formatted endpoint list nor the
snapshot ID holds a flag name, the script carries the three flags with the configured
paths if and only if TLSEnabled; (d) the two secret volumes are declared if and only if
TLSEnabled; (e) in both cases every volume mount of the container names a volume declared
in the pod. -/
theorem GenerateSnapshotSaveJob_tls (cfg : JobConfig) :
    ∃ container, (GenerateSnapshotSaveJob cfg).Spec.Template.Spec.Containers = [container] ∧
      container.Command = ["sh", "-c", buildSnapshotCommand cfg] ∧
      (cfg.TLSEnabled = true →
        (GenerateSnapshotSaveJob cfg).Spec.Template.Spec.Volumes =
          [ ⟨"snapshot-pvc", VolumeSource.PersistentVolumeClaim cfg.SnapshotPVCName false⟩,
            ⟨"tmp", VolumeSource.EmptyDir⟩,
            ⟨"etcd-client-tls", VolumeSource.Secret cfg.TLSSecretName
              [⟨"etcd-client.crt", "etcd-client.crt"⟩, ⟨"etcd-client.key", "etcd-client.key"⟩]⟩,
            ⟨"etcd-ca", VolumeSource.Secret cfg.TLSSecretName [⟨"etcd-client-ca.crt", "ca.crt"⟩]⟩ ] ∧
        container.VolumeMounts =
          [ ⟨"snapshot-pvc", "/snapshots", false⟩, ⟨"tmp", "/tmp", false⟩,
            ⟨"etcd-client-tls", "/etc/etcd/tls/client", true⟩,
            ⟨"etcd-ca", "/etc/etcd/tls/etcd-ca", true⟩ ] ∧
        buildSnapshotCommand cfg =
          commandLine (formatStrings cfg.ETCDEndpoints) (tlsFlags cfg) cfg.SnapshotID ∧
        Contains (buildSnapshotCommand cfg) ("--cacert '" ++ cfg.CAPath ++ "'") ∧
        Contains (buildSnapshotCommand cfg) ("--cert '" ++ cfg.ClientCertPath ++ "'") ∧
        Contains (buildSnapshotCommand cfg) ("--key '" ++ cfg.ClientKeyPath ++ "'")) ∧
      (cfg.TLSEnabled = false →
        (GenerateSnapshotSaveJob cfg).Spec.Template.Spec.Volumes =
          [ ⟨"snapshot-pvc", VolumeSource.PersistentVolumeClaim cfg.SnapshotPVCName false⟩,
            ⟨"tmp", VolumeSource.EmptyDir⟩ ] ∧
        container.VolumeMounts = [⟨"snapshot-pvc", "/snapshots", false⟩, ⟨"tmp", "/tmp", false⟩] ∧
        buildSnapshotCommand cfg =
          commandLine (formatStrings cfg.ETCDEndpoints) "" cfg.SnapshotID ∧
        ∀ flag, flag = "--cacert" ∨ flag = "--cert" ∨ flag = "--key" →
          ¬ Contains (formatStrings cfg.ETCDEndpoints) flag → ¬ Contains cfg.SnapshotID flag →
          ¬ Contains (buildSnapshotCommand cfg) flag) ∧
      ((∀ flag, flag = "--cacert" ∨ flag = "--cert" ∨ flag = "--key" →
          ¬ Contains (formatStrings cfg.ETCDEndpoints) flag ∧ ¬ Contains cfg.SnapshotID flag) →
        ((Contains (buildSnapshotCommand cfg) ("--cacert '" ++ cfg.CAPath ++ "'") ∧
            Contains (buildSnapshotCommand cfg) ("--cert '" ++ cfg.ClientCertPath ++ "'") ∧
            Contains (buildSnapshotCommand cfg) ("--key '" ++ cfg.ClientKeyPath ++ "'")) ↔
          cfg.TLSEnabled = true)) ∧
      (((∃ v, v ∈ (GenerateSnapshotSaveJob cfg).Spec.Template.Spec.Volumes ∧
            v.Name = "etcd-client-tls") ∧
          (∃ v, v ∈ (GenerateSnapshotSaveJob cfg).Spec.Template.Spec.Volumes ∧
            v.Name = "etcd-ca")) ↔ cfg.TLSEnabled = true) ∧
      (∀ m, m ∈ container.VolumeMounts →
        ∃ v, v ∈ (GenerateSnapshotSaveJob cfg).Spec.Template.Spec.Volumes ∧ v.Name = m.Name) := by
  have hon : cfg.TLSEnabled = true →
      buildSnapshotCommand cfg =
        commandLine (formatStrings cfg.ETCDEndpoints) (tlsFlags cfg) cfg.SnapshotID := by
    intro htls
    rw [buildSnapshotCommand_eq, conditionalTLSFlags_eq, if_pos htls]
  have hoff : cfg.TLSEnabled = false →
      buildSnapshotCommand cfg =
        commandLine (formatStrings cfg.ETCDEndpoints) "" cfg.SnapshotID := by
    intro htls
    rw [buildSnapshotCommand_eq, conditionalTLSFlags_eq, htls]
    rfl
  have hcarries : cfg.TLSEnabled = true →
      Contains (buildSnapshotCommand cfg) ("--cacert '" ++ cfg.CAPath ++ "'") ∧
      Contains (buildSnapshotCommand cfg) ("--cert '" ++ cfg.ClientCertPath ++ "'") ∧
      Contains (buildSnapshotCommand cfg) ("--key '" ++ cfg.ClientKeyPath ++ "'") := by
    intro htls
    obtain ⟨k1, k2, k3⟩ := tlsFlags_contains cfg
    rw [hon htls]
    exact ⟨contains_commandLine_flags _ _ _ _ k1, contains_commandLine_flags _ _ _ _ k2,
      contains_commandLine_flags _ _ _ _ k3⟩
  have hnone : cfg.TLSEnabled = false →
      ∀ flag, flag = "--cacert" ∨ flag = "--cert" ∨ flag = "--key" →
        ¬ Contains (formatStrings cfg.ETCDEndpoints) flag → ¬ Contains cfg.SnapshotID flag →
        ¬ Contains (buildSnapshotCommand cfg) flag := by
    intro htls flag hflag he hid
    rw [hoff htls]
    exact commandLine_no_flag _ _ flag hflag he hid
  refine ⟨_, rfl, rfl, ?_, ?_, ?_, ?_, ?_⟩
  · intro htls
    obtain ⟨k1, k2, k3⟩ := hcarries htls
    refine ⟨?_, ?_, hon htls, k1, k2, k3⟩
    · simp [GenerateSnapshotSaveJob, htls]
    · simp [GenerateSnapshotSaveJob, htls]
  · intro htls
    refine ⟨?_, ?_, hoff htls, hnone htls⟩
    · simp [GenerateSnapshotSaveJob, htls]
    · simp [GenerateSnapshotSaveJob, htls]
  · intro hyg
    constructor
    · rintro ⟨hca, _, _⟩
      cases htls : cfg.TLSEnabled with
      | true => rfl
      | false =>
        exfalso
        obtain ⟨he, hid⟩ := hyg "--cacert" (Or.inl rfl)
        apply hnone htls "--cacert" (Or.inl rfl) he hid
        apply contains_trans _ _ _ hca
        exact contains_append_left _ _ _ (contains_append_left _ _ _ (by decide))
    · exact hcarries
  · cases htls : cfg.TLSEnabled with
    | true => simp [GenerateSnapshotSaveJob, htls]
    | false => simp [GenerateSnapshotSaveJob, htls]
  · intro m hm
    cases htls : cfg.TLSEnabled with
    | true =>
      simp only [GenerateSnapshotSaveJob, htls, if_true] at hm ⊢
      simp only [List.cons_append, List.nil_append, List.mem_cons, List.mem_singleton,
        List.not_mem_nil, or_false] at hm
      rcases hm with rfl | rfl | rfl | rfl <;> simp
    | false =>
      simp only [GenerateSnapshotSaveJob, htls] at hm ⊢
      simp only [Bool.false_eq_true, if_false, List.mem_cons, List.mem_singleton,
        List.not_mem_nil, or_false] at hm
      rcases hm with rfl | rfl <;> simp

set_option maxRecDepth 100000 in
/-- The amended C25 on a config with TLS enabled, where the script carries the three flags
with the paths of the config, and on the same config with TLS disabled, whose endpoint
list and snapshot ID hold no flag name: the pod has the two volumes and the script holds
no --cacert. -/
theorem GenerateSnapshotSaveJob_tls_witness :
    tlsJobConfig.TLSEnabled = true ∧
    (∀ flag, flag = "--cacert" ∨ flag = "--cert" ∨ flag = "--key" →
      ¬ Contains (formatStrings tlsJobConfig.ETCDEndpoints) flag ∧
        ¬ Contains tlsJobConfig.SnapshotID flag) ∧
    (Contains (buildSnapshotCommand tlsJobConfig) ("--cacert '" ++ tlsJobConfig.CAPath ++ "'") ∧
      Contains (buildSnapshotCommand tlsJobConfig)
        ("--cert '" ++ tlsJobConfig.ClientCertPath ++ "'") ∧
      Contains (buildSnapshotCommand tlsJobConfig)
        ("--key '" ++ tlsJobConfig.ClientKeyPath ++ "'")) ∧
    ({ tlsJobConfig with TLSEnabled := false } : JobConfig).TLSEnabled = false ∧
    (GenerateSnapshotSaveJob { tlsJobConfig with TLSEnabled := false }).Spec.Template.Spec.Volumes =
      [ ⟨"snapshot-pvc", VolumeSource.PersistentVolumeClaim "etcd-snapshots" false⟩,
        ⟨"tmp", VolumeSource.EmptyDir⟩ ] ∧
    ¬ Contains (buildSnapshotCommand { tlsJobConfig with TLSEnabled := false }) "--cacert" := by
  have hyg : ∀ flag, flag = "--cacert" ∨ flag = "--cert" ∨ flag = "--key" →
      ¬ Contains (formatStrings tlsJobConfig.ETCDEndpoints) flag ∧
        ¬ Contains tlsJobConfig.SnapshotID flag := by
    intro flag hflag
    rcases hflag with rfl | rfl | rfl <;> exact ⟨by decide, by decide⟩
  obtain ⟨container, _, _, _, _, h3, _, _⟩ := GenerateSnapshotSaveJob_tls tlsJobConfig
  obtain ⟨container', _, _, _, h2, _, _, _⟩ :=
    GenerateSnapshotSaveJob_tls { tlsJobConfig with TLSEnabled := false }
  obtain ⟨hvol, _, _, hno⟩ := h2 rfl
  exact ⟨rfl, hyg, (h3 hyg).mpr rfl, rfl, hvol,
    hno "--cacert" (Or.inl rfl) (hyg "--cacert" (Or.inl rfl)).1 (hyg "--cacert" (Or.inl rfl)).2⟩

end EtcdSnapshotDriver
